import Mathlib

/-!
# OpenXR-MixedReality samples: binding compilation, profile resolution, edge detection

A shallow embedding of the sample scenes' input logic:

* `StateChangeDetector` (samples/SampleSceneUwp/Scene_HandTracking.cpp),
* the action table, `InitializeSuggestBindings`, `InteractionProfileChanged`, `OnUpdate`,
  `OnEvent`, `FindAction` and the constructor loop of `ControllerActionsScene`
  (samples/SampleSceneWin32/Scene_ControllerActions.cpp),
* the menu items, `OnUpdate` and the pointer objects of `MenuScene`
  (samples/SampleSceneWin32/Scene_Menu.cpp, MenuContextScene.h),
* `ExtensionContext` and `CreateExtensionContext` (shared/XrUtility/XrExtensionContext.h),
* `ProjectionSamplingScene` (samples/SampleSceneWin32/Scene_ProjectionQuality.cpp),
* `SwapchainFormatScene` (samples/SampleSceneWin32/Scene_SwapchainFormat.cpp),
* `GenerateCheckboardData` (samples/SampleSceneWin32/Scene_QuadLayers.cpp).

Strings are Lean strings, handles (`XrPath`, `XrAction`, scene objects) are natural numbers,
`std::optional` and nullable `const char*` are `Option`, floats are rational numbers,
`uint32_t` arithmetic is taken modulo `2 ^ 32` where it can wrap, and the calls into the
runtime and the engine are parameters of the functions that make them.
-/

namespace OpenXrSamples

/-! ## StateChangeDetector (Scene_HandTracking.cpp, lines 163-184) -/

/-- Time stamps handed to `Update`, the `XrTime` of the runtime. -/
abbrev XrTime := Int

/-- The mutable part of `StateChangeDetector`: `std::optional<bool> m_lastState{}`. -/
structure StateChangeDetector where
  m_lastState : Option Bool
deriving DecidableEq, Repr

namespace StateChangeDetector

/-- A newly constructed detector: `m_lastState` is the empty optional. -/
def new : StateChangeDetector := ⟨none⟩

/-- The method `Update(time)`. `getState` is the wrapped predicate `m_getState`. The result is
the detector after the call together with the number of times `m_callback` was invoked
during the call. The test `m_lastState != state` compares an optional with a value: an
empty optional differs from every value. -/
def Update (getState : XrTime → Bool) (d : StateChangeDetector) (time : XrTime) :
    StateChangeDetector × Nat :=
  let state := getState time
  if d.m_lastState ≠ some state then
    if state then (⟨some state⟩, 1) else (⟨some state⟩, 0)
  else (d, 0)

/-- Successive `Update` calls, one per time stamp: the final detector and, per tick, the
number of callback invocations made during that tick. -/
def run (getState : XrTime → Bool) : StateChangeDetector → List XrTime →
    StateChangeDetector × List Nat
  | d, [] => (d, [])
  | d, t :: ts =>
    let r := Update getState d t
    let rest := run getState r.1 ts
    (rest.1, r.2 :: rest.2)

/-- The sequence of callback counts per tick of a newly constructed detector. -/
def callbacks (getState : XrTime → Bool) (times : List XrTime) : List Nat :=
  (run getState new times).2

/-- The ticks (indices of `Update` calls) during which the callback was invoked. -/
def firedTicks (getState : XrTime → Bool) (times : List XrTime) : List Nat :=
  (List.range times.length).filter fun i => decide (0 < (callbacks getState times).getD i 0)

end StateChangeDetector

/-- A predicate that returns the entries of the sequence `s` at the time stamps
`0, 1, 2, ...` (and `false` elsewhere). -/
def sequencePredicate (s : List Bool) : XrTime → Bool :=
  fun t => s.getD t.toNat false

/-- The time stamps `0, 1, ..., n - 1`. -/
def ticks (n : Nat) : List XrTime := (List.range n).map Int.ofNat

/-! ## ControllerActionsScene: constants (Scene_ControllerActions.cpp, lines 19-58) -/

/-- Atom of the runtime: `XrPath`. -/
abbrev XrPath := Nat

/-- The null atom `XR_NULL_PATH`. -/
def XR_NULL_PATH : XrPath := 0

/-- Handle of an action: `XrAction`. -/
abbrev XrAction := Nat

namespace Side

/-- Modelled from the spec: `xr::Side::Left` of XrUtility/XrSide.h, a header that is not among
the sources; the left hand is side 0. -/
def Left : Nat := 0

/-- Modelled from the spec: `xr::Side::Right` of XrUtility/XrSide.h; the right hand is side 1. -/
def Right : Nat := 1

/-- Modelled from the spec: `xr::Side::Count` of XrUtility/XrSide.h; there are two hands. -/
def Count : Nat := 2

end Side

/-- The array `UserHandPath[xr::Side::Count]`. -/
def UserHandPath : List String := ["/user/hand/left", "/user/hand/right"]

/-- The array `UserTrackerPath[]`, thirteen tracker roles. -/
def UserTrackerPath : List String :=
  ["/user/vive_tracker_htcx/role/handheld_object",
   "/user/vive_tracker_htcx/role/left_foot",
   "/user/vive_tracker_htcx/role/right_foot",
   "/user/vive_tracker_htcx/role/left_shoulder",
   "/user/vive_tracker_htcx/role/right_shoulder",
   "/user/vive_tracker_htcx/role/left_elbow",
   "/user/vive_tracker_htcx/role/right_elbow",
   "/user/vive_tracker_htcx/role/left_knee",
   "/user/vive_tracker_htcx/role/right_knee",
   "/user/vive_tracker_htcx/role/waist",
   "/user/vive_tracker_htcx/role/chest",
   "/user/vive_tracker_htcx/role/camera",
   "/user/vive_tracker_htcx/role/keyboard"]

namespace InteractionProfiles

def SimpleController : String := "/interaction_profiles/khr/simple_controller"
def MotionController : String := "/interaction_profiles/microsoft/motion_controller"
def TouchController : String := "/interaction_profiles/oculus/touch_controller"
def ViveController : String := "/interaction_profiles/htc/vive_controller"
def IndexController : String := "/interaction_profiles/valve/index_controller"
def ViveTracker : String := "/interaction_profiles/htc/vive_tracker_htcx"

end InteractionProfiles

def aimPoseActionName : List String := ["left_aim", "right_aim"]
def gripPoseActionName : List String := ["left_grip", "right_grip"]
def palmPoseActionName : List String := ["left_palm", "right_palm"]

def trackerPoseActionName : List String :=
  ["handheld_object_pose", "left_foot_pose", "right_foot_pose", "left_shoulder_pose",
   "right_shoulder_pose", "left_elbow_pose", "right_elbow_pose", "left_knee_pose",
   "right_knee_pose", "waist_pose", "chest_pose", "camera_pose", "keyboard_pose"]

/-- The size of `m_controllerData`: `xr::Side::Count + std::size(UserTrackerPath)`. -/
def controllerDataSize : Nat := Side.Count + UserTrackerPath.length

/-- The user path of a side, `side < xr::Side::Count ? UserHandPath[side] :
UserTrackerPath[side - xr::Side::Count]`; `none` when the index is outside the array, which
the C++ expression must not be evaluated at. -/
def userPathOfSide (side : Nat) : Option String :=
  if side < Side.Count then UserHandPath[side]? else UserTrackerPath[side - Side.Count]?

/-! ## ControllerActionsScene: the action table (lines 200-212 and 247-498) -/

/-- The enumeration `XrActionType` of the OpenXR API. -/
inductive XrActionType where
  | XR_ACTION_TYPE_BOOLEAN_INPUT
  | XR_ACTION_TYPE_FLOAT_INPUT
  | XR_ACTION_TYPE_VECTOR2F_INPUT
  | XR_ACTION_TYPE_POSE_INPUT
  | XR_ACTION_TYPE_VIBRATION_OUTPUT
deriving DecidableEq, Repr

/-- The struct `ActionBinding`; a null `subactionPath` is `none`. The field name
`componetPath` is the one of the source. -/
structure ActionBinding where
  interactionProfile : String
  componetPath : String
  subactionPath : Option String
deriving DecidableEq, Repr

/-- The struct `ActionInfo`. -/
structure ActionInfo where
  action : XrAction
  actionName : String
  actionType : XrActionType
  actionBindings : List ActionBinding
deriving DecidableEq, Repr

/-- One element of the list given to `SuggestInteractionProfileBindings`, the pair
`{action, path}` of `sample::ActionContext::ActionBinding`. -/
structure SuggestedBinding where
  action : XrAction
  path : String
deriving DecidableEq, Repr

/-- The arguments of one `addAction(actionName, actionType, bindings)` call. -/
structure ActionDecl where
  actionName : String
  actionType : XrActionType
  bindings : List ActionBinding
deriving DecidableEq, Repr

/-- The list `allSubactionPaths` of `CreateActions` (lines 253-258). -/
def allSubactionPaths (supportsViveTrackers : Bool) : List String :=
  [UserHandPath.getD Side.Left "", UserHandPath.getD Side.Right ""] ++
    (if supportsViveTrackers then UserTrackerPath else [])

/-- The arguments of the `addAction` calls of lines 268-451, in order. An explicit
subaction path `UserHandPath[xr::Side::Left]` or `UserHandPath[xr::Side::Right]` is the
array element, read with `[...]?`. -/
def buttonActionDecls : List ActionDecl :=
  [⟨"select", .XR_ACTION_TYPE_BOOLEAN_INPUT,
     [⟨InteractionProfiles.SimpleController, "select/click", none⟩]⟩,
   ⟨"trigger_value", .XR_ACTION_TYPE_FLOAT_INPUT,
     [⟨InteractionProfiles.MotionController, "trigger/value", none⟩,
      ⟨InteractionProfiles.TouchController, "trigger/value", none⟩,
      ⟨InteractionProfiles.ViveController, "trigger/value", none⟩,
      ⟨InteractionProfiles.IndexController, "trigger/value", none⟩]⟩,
   ⟨"trigger_click", .XR_ACTION_TYPE_BOOLEAN_INPUT,
     [⟨InteractionProfiles.MotionController, "trigger/value", none⟩,
      ⟨InteractionProfiles.TouchController, "trigger/value", none⟩,
      ⟨InteractionProfiles.ViveController, "trigger/click", none⟩,
      ⟨InteractionProfiles.IndexController, "trigger/click", none⟩,
      ⟨InteractionProfiles.ViveTracker, "trigger/click", none⟩]⟩,
   ⟨"trigger_touch", .XR_ACTION_TYPE_BOOLEAN_INPUT,
     [⟨InteractionProfiles.TouchController, "trigger/touch", none⟩,
      ⟨InteractionProfiles.IndexController, "trigger/touch", none⟩]⟩,
   ⟨"squeeze_value", .XR_ACTION_TYPE_FLOAT_INPUT,
     [⟨InteractionProfiles.TouchController, "squeeze/value", none⟩,
      ⟨InteractionProfiles.IndexController, "squeeze/value", none⟩]⟩,
   ⟨"squeeze_click", .XR_ACTION_TYPE_BOOLEAN_INPUT,
     [⟨InteractionProfiles.MotionController, "squeeze/click", none⟩,
      ⟨InteractionProfiles.TouchController, "squeeze/value", none⟩,
      ⟨InteractionProfiles.ViveController, "squeeze/click", none⟩,
      ⟨InteractionProfiles.IndexController, "squeeze/value", none⟩,
      ⟨InteractionProfiles.ViveTracker, "squeeze/click", none⟩]⟩,
   ⟨"squeeze_force", .XR_ACTION_TYPE_FLOAT_INPUT,
     [⟨InteractionProfiles.IndexController, "squeeze/force", none⟩]⟩,
   ⟨"thumbstick_x", .XR_ACTION_TYPE_FLOAT_INPUT,
     [⟨InteractionProfiles.MotionController, "thumbstick/x", none⟩,
      ⟨InteractionProfiles.TouchController, "thumbstick/x", none⟩,
      ⟨InteractionProfiles.IndexController, "thumbstick/x", none⟩]⟩,
   ⟨"thumbstick_y", .XR_ACTION_TYPE_FLOAT_INPUT,
     [⟨InteractionProfiles.MotionController, "thumbstick/y", none⟩,
      ⟨InteractionProfiles.TouchController, "thumbstick/y", none⟩,
      ⟨InteractionProfiles.IndexController, "thumbstick/y", none⟩]⟩,
   ⟨"thumbstick_click", .XR_ACTION_TYPE_FLOAT_INPUT,
     [⟨InteractionProfiles.MotionController, "thumbstick/click", none⟩,
      ⟨InteractionProfiles.TouchController, "thumbstick/click", none⟩,
      ⟨InteractionProfiles.IndexController, "thumbstick/click", none⟩]⟩,
   ⟨"thumbstick_touch", .XR_ACTION_TYPE_BOOLEAN_INPUT,
     [⟨InteractionProfiles.TouchController, "thumbstick/touch", none⟩,
      ⟨InteractionProfiles.IndexController, "thumbstick/touch", none⟩]⟩,
   ⟨"thumbrest_touch", .XR_ACTION_TYPE_BOOLEAN_INPUT,
     [⟨InteractionProfiles.TouchController, "thumbrest/touch", none⟩]⟩,
   ⟨"trackpad_x", .XR_ACTION_TYPE_FLOAT_INPUT,
     [⟨InteractionProfiles.MotionController, "trackpad/x", none⟩,
      ⟨InteractionProfiles.ViveController, "trackpad/x", none⟩,
      ⟨InteractionProfiles.IndexController, "trackpad/x", none⟩,
      ⟨InteractionProfiles.ViveTracker, "trackpad/x", none⟩]⟩,
   ⟨"trackpad_y", .XR_ACTION_TYPE_FLOAT_INPUT,
     [⟨InteractionProfiles.MotionController, "trackpad/y", none⟩,
      ⟨InteractionProfiles.ViveController, "trackpad/y", none⟩,
      ⟨InteractionProfiles.IndexController, "trackpad/y", none⟩,
      ⟨InteractionProfiles.ViveTracker, "trackpad/y", none⟩]⟩,
   ⟨"trackpad_touch", .XR_ACTION_TYPE_FLOAT_INPUT,
     [⟨InteractionProfiles.MotionController, "trackpad/touch", none⟩,
      ⟨InteractionProfiles.ViveController, "trackpad/touch", none⟩,
      ⟨InteractionProfiles.IndexController, "trackpad/touch", none⟩,
      ⟨InteractionProfiles.ViveTracker, "trackpad/touch", none⟩]⟩,
   ⟨"trackpad_force", .XR_ACTION_TYPE_FLOAT_INPUT,
     [⟨InteractionProfiles.IndexController, "trackpad/force", none⟩]⟩,
   ⟨"trackpad_click", .XR_ACTION_TYPE_FLOAT_INPUT,
     [⟨InteractionProfiles.MotionController, "trackpad/click", none⟩,
      ⟨InteractionProfiles.ViveController, "trackpad/click", none⟩,
      ⟨InteractionProfiles.ViveTracker, "trackpad/click", none⟩]⟩,
   ⟨"a", .XR_ACTION_TYPE_BOOLEAN_INPUT,
     [⟨InteractionProfiles.TouchController, "a/click", UserHandPath[Side.Right]?⟩,
      ⟨InteractionProfiles.IndexController, "a/click", none⟩]⟩,
   ⟨"a_touch", .XR_ACTION_TYPE_BOOLEAN_INPUT,
     [⟨InteractionProfiles.TouchController, "a/touch", UserHandPath[Side.Right]?⟩,
      ⟨InteractionProfiles.IndexController, "a/touch", none⟩]⟩,
   ⟨"b", .XR_ACTION_TYPE_BOOLEAN_INPUT,
     [⟨InteractionProfiles.TouchController, "b/click", UserHandPath[Side.Right]?⟩,
      ⟨InteractionProfiles.IndexController, "b/click", none⟩]⟩,
   ⟨"b_touch", .XR_ACTION_TYPE_BOOLEAN_INPUT,
     [⟨InteractionProfiles.TouchController, "b/touch", UserHandPath[Side.Right]?⟩,
      ⟨InteractionProfiles.IndexController, "b/touch", none⟩]⟩,
   ⟨"x", .XR_ACTION_TYPE_BOOLEAN_INPUT,
     [⟨InteractionProfiles.TouchController, "x/click", UserHandPath[Side.Left]?⟩]⟩,
   ⟨"x_touch", .XR_ACTION_TYPE_BOOLEAN_INPUT,
     [⟨InteractionProfiles.TouchController, "x/touch", UserHandPath[Side.Left]?⟩]⟩,
   ⟨"y", .XR_ACTION_TYPE_BOOLEAN_INPUT,
     [⟨InteractionProfiles.TouchController, "y/click", UserHandPath[Side.Left]?⟩]⟩,
   ⟨"y_touch", .XR_ACTION_TYPE_BOOLEAN_INPUT,
     [⟨InteractionProfiles.TouchController, "y/touch", UserHandPath[Side.Left]?⟩]⟩,
   ⟨"menu", .XR_ACTION_TYPE_BOOLEAN_INPUT,
     [⟨InteractionProfiles.SimpleController, "menu/click", none⟩,
      ⟨InteractionProfiles.MotionController, "menu/click", none⟩,
      ⟨InteractionProfiles.TouchController, "menu/click", UserHandPath[Side.Left]?⟩,
      ⟨InteractionProfiles.ViveController, "menu/click", none⟩,
      ⟨InteractionProfiles.ViveTracker, "menu/click", none⟩]⟩,
   ⟨"system", .XR_ACTION_TYPE_BOOLEAN_INPUT,
     [⟨InteractionProfiles.TouchController, "system/click", UserHandPath[Side.Right]?⟩,
      ⟨InteractionProfiles.ViveController, "system/click", none⟩,
      ⟨InteractionProfiles.IndexController, "system/click", none⟩,
      ⟨InteractionProfiles.ViveTracker, "system/click", none⟩]⟩,
   ⟨"system_touch", .XR_ACTION_TYPE_BOOLEAN_INPUT,
     [⟨InteractionProfiles.IndexController, "system/touch", none⟩]⟩]

/-- The three `addAction` calls of one iteration of the loop over `{Left, Right}`
(lines 453-485): aim pose, grip pose and, with `SupportsPalmPose`, palm pose. -/
def handPoseActionDecls (supportsPalmPose : Bool) (side : Nat) : List ActionDecl :=
  [⟨aimPoseActionName.getD side "", .XR_ACTION_TYPE_POSE_INPUT,
     [⟨InteractionProfiles.SimpleController, "aim/pose", UserHandPath[side]?⟩,
      ⟨InteractionProfiles.MotionController, "aim/pose", UserHandPath[side]?⟩,
      ⟨InteractionProfiles.TouchController, "aim/pose", UserHandPath[side]?⟩,
      ⟨InteractionProfiles.ViveController, "aim/pose", UserHandPath[side]?⟩,
      ⟨InteractionProfiles.IndexController, "aim/pose", UserHandPath[side]?⟩]⟩,
   ⟨gripPoseActionName.getD side "", .XR_ACTION_TYPE_POSE_INPUT,
     [⟨InteractionProfiles.SimpleController, "grip/pose", UserHandPath[side]?⟩,
      ⟨InteractionProfiles.MotionController, "grip/pose", UserHandPath[side]?⟩,
      ⟨InteractionProfiles.TouchController, "grip/pose", UserHandPath[side]?⟩,
      ⟨InteractionProfiles.ViveController, "grip/pose", UserHandPath[side]?⟩,
      ⟨InteractionProfiles.IndexController, "grip/pose", UserHandPath[side]?⟩]⟩] ++
  (if supportsPalmPose then
    [⟨palmPoseActionName.getD side "", .XR_ACTION_TYPE_POSE_INPUT,
       [⟨InteractionProfiles.SimpleController, "palm_ext/pose", UserHandPath[side]?⟩,
        ⟨InteractionProfiles.MotionController, "palm_ext/pose", UserHandPath[side]?⟩,
        ⟨InteractionProfiles.TouchController, "palm_ext/pose", UserHandPath[side]?⟩,
        ⟨InteractionProfiles.ViveController, "palm_ext/pose", UserHandPath[side]?⟩,
        ⟨InteractionProfiles.IndexController, "palm_ext/pose", UserHandPath[side]?⟩]⟩]
   else [])

/-- The `addAction` call of one iteration of the loop over the tracker roles
(lines 487-495). -/
def trackerPoseActionDecl (index : Nat) : ActionDecl :=
  ⟨trackerPoseActionName.getD index "", .XR_ACTION_TYPE_POSE_INPUT,
    [⟨InteractionProfiles.ViveTracker, "grip/pose", UserTrackerPath[index]?⟩]⟩

/-- All `addAction` calls made by `CreateActions`, in order. -/
def actionDecls (supportsViveTrackers supportsPalmPose : Bool) : List ActionDecl :=
  buttonActionDecls ++
  [Side.Left, Side.Right].flatMap (handPoseActionDecls supportsPalmPose) ++
  (if supportsViveTrackers then
    (List.range trackerPoseActionName.length).map trackerPoseActionDecl
   else [])

/-- The lambda `addAction` of `CreateActions` (lines 259-266): the new element of `actions`.
`createAction` stands for `actionSet.CreateAction`, code of the engine that hands out the
action handle. -/
def addAction (createAction : String → XrActionType → List String → XrAction)
    (subactionPaths : List String) (d : ActionDecl) : ActionInfo :=
  { action := createAction d.actionName d.actionType subactionPaths
    actionName := d.actionName
    actionType := d.actionType
    actionBindings := d.bindings }

/-- The function `CreateActions`: the vector `actions` it returns. -/
def CreateActions (createAction : String → XrActionType → List String → XrAction)
    (supportsViveTrackers supportsPalmPose : Bool) : List ActionInfo :=
  (actionDecls supportsViveTrackers supportsPalmPose).map
    (addAction createAction (allSubactionPaths supportsViveTrackers))

/-! ## ControllerActionsScene: InitializeSuggestBindings (lines 517-562) -/

/-- The local `std::map<std::string, std::vector<ActionBinding>> suggestedBindings`: the
vector stored under each key; a key that was never touched holds the empty vector (what
`operator[]` creates on first access). -/
abbrev BindingMap := String → List SuggestedBinding

/-- The empty map. -/
def BindingMap.empty : BindingMap := fun _ => []

/-- The statement `suggestedBindings[profilePath].push_back(entry)`. -/
def BindingMap.pushBack (m : BindingMap) (profilePath : String) (entry : SuggestedBinding) :
    BindingMap :=
  fun key => if key = profilePath then m key ++ [entry] else m key

/-- The body of the inner loop of the hand branch (lines 526-531) for one binding. The
prefix `std::string()` of the concatenations is the empty string and is left out. -/
def handBinding (action : XrAction) (m : BindingMap) (b : ActionBinding) : BindingMap :=
  match b.subactionPath with
  | none =>
    (m.pushBack b.interactionProfile ⟨action, "/user/hand/left/input/" ++ b.componetPath⟩).pushBack
      b.interactionProfile ⟨action, "/user/hand/right/input/" ++ b.componetPath⟩
  | some subactionPath =>
    m.pushBack b.interactionProfile ⟨action, subactionPath ++ "/input/" ++ b.componetPath⟩

/-- The body of the inner loop of the tracker branch (lines 550-555) for one binding. The
array read `UserTrackerPath[side - xr::Side::Count]` is made for a wildcard binding only; an
index outside the array gives `none`. -/
def trackerBinding (side : Nat) (action : XrAction) (m : BindingMap) (b : ActionBinding) :
    Option BindingMap :=
  match b.subactionPath with
  | none =>
    match UserTrackerPath[side - Side.Count]? with
    | none => none
    | some role =>
      some (m.pushBack b.interactionProfile ⟨action, role ++ "/input/" ++ b.componetPath⟩)
  | some subactionPath =>
    some (m.pushBack b.interactionProfile
      ⟨action, subactionPath ++ "/input/" ++ b.componetPath⟩)

/-- The map `suggestedBindings` after the two nested loops of the hand branch
(lines 522-533). -/
def compileHandBindings (actions : List ActionInfo) : BindingMap :=
  actions.foldl
    (fun m actionInfo => actionInfo.actionBindings.foldl (handBinding actionInfo.action) m)
    BindingMap.empty

/-- The map `suggestedBindings` after the two nested loops of the tracker branch
(lines 546-557). -/
def compileTrackerBindings (side : Nat) (actions : List ActionInfo) : Option BindingMap :=
  actions.foldlM
    (fun m actionInfo => actionInfo.actionBindings.foldlM (trackerBinding side actionInfo.action) m)
    BindingMap.empty

/-- One call `actionContext.SuggestInteractionProfileBindings(profile, bindings)`. -/
structure SuggestCall where
  interactionProfile : String
  suggestedBindings : List SuggestedBinding
deriving DecidableEq, Repr

/-- The function `InitializeSuggestBindings(side, actionContext, extensions, actions)`: the
calls of `SuggestInteractionProfileBindings` it makes, in order. -/
def InitializeSuggestBindings (side : Nat) (actions : List ActionInfo) :
    Option (List SuggestCall) :=
  if side = Side.Left ∨ side = Side.Right then
    let suggestedBindings := compileHandBindings actions
    some
      [⟨InteractionProfiles.SimpleController, suggestedBindings InteractionProfiles.SimpleController⟩,
       ⟨InteractionProfiles.MotionController, suggestedBindings InteractionProfiles.MotionController⟩,
       ⟨InteractionProfiles.TouchController, suggestedBindings InteractionProfiles.TouchController⟩,
       ⟨InteractionProfiles.ViveController, suggestedBindings InteractionProfiles.ViveController⟩,
       ⟨InteractionProfiles.IndexController, suggestedBindings InteractionProfiles.IndexController⟩]
  else
    match compileTrackerBindings side actions with
    | none => none
    | some suggestedBindings =>
      some [⟨InteractionProfiles.ViveTracker, suggestedBindings InteractionProfiles.ViveTracker⟩]

/-- The loop bound `upperBound` of the constructor and of `OnUpdate` (lines 68 and 136). -/
def upperBound (supportsViveTrackers : Bool) : Nat :=
  if supportsViveTrackers then controllerDataSize else Side.Count

/-- The calls of `SuggestInteractionProfileBindings` made by a run of the constructor that
completes: the per-side loop (lines 69-116) calls `InitializeSuggestBindings(side, ...)`
once per side on the actions of `CreateActions`. -/
def constructorSuggestCalls (createAction : String → XrActionType → List String → XrAction)
    (supportsViveTrackers supportsPalmPose : Bool) : Option (List SuggestCall) :=
  let m_actions := CreateActions createAction supportsViveTrackers supportsPalmPose
  (List.range (upperBound supportsViveTrackers)).foldlM
    (fun calls side => (InitializeSuggestBindings side m_actions).map fun cs => calls ++ cs)
    []

/-- The path of a wildcard binding is compiled to in the pass of `side`: the two hand paths
in a hand pass, the role of the side in a tracker pass (none outside the array). -/
def wildcardPrefixes (side : Nat) : List String :=
  if side = Side.Left ∨ side = Side.Right then ["/user/hand/left", "/user/hand/right"]
  else (UserTrackerPath[side - Side.Count]?).toList

/-- The entries one binding of an action stands for in the pass of `side`, following the
words of the binding table compiler: an explicit subaction path gives the one path
`subactionPath + "/input/" + component`, a wildcard gives one path per subaction path of the
expansion context. -/
def specEntries (side : Nat) (action : XrAction) (b : ActionBinding) : List SuggestedBinding :=
  match b.subactionPath with
  | none => (wildcardPrefixes side).map fun p => ⟨action, p ++ "/input/" ++ b.componetPath⟩
  | some subactionPath => [⟨action, subactionPath ++ "/input/" ++ b.componetPath⟩]

/-- The list the binding table compiler's words give for one profile: the entries of every
binding that names the profile, in declaration order. -/
def specCompile (side : Nat) (actions : List ActionInfo) (profile : String) :
    List SuggestedBinding :=
  actions.flatMap fun actionInfo =>
    (actionInfo.actionBindings.filter fun b => decide (b.interactionProfile = profile)).flatMap
      (specEntries side actionInfo.action)

/-- The map `suggestedBindings` of the pass of `side`, hand or tracker branch. -/
def compileBindings (side : Nat) (actions : List ActionInfo) : Option BindingMap :=
  if side = Side.Left ∨ side = Side.Right then some (compileHandBindings actions)
  else compileTrackerBindings side actions

/-- The text `s` starts with the text `p`. -/
def StartsWith (p s : String) : Prop := ∃ rest : String, s = p ++ rest

/-- A sample of the engine's `CreateAction`: the handle of an action is the position of its
name among the declared names, counted from one. -/
def indexCreateAction : String → XrActionType → List String → XrAction :=
  fun actionName _ _ =>
    ((actionDecls true true).map fun d => d.actionName).indexOf actionName + 1

/-- The profiles `InitializeSuggestBindings` submits in the pass of `side`, in the order
of its calls: the five hand profiles in the hand branch (lines 535-544), the tracker
profile in the other branch (lines 559-560). -/
def passProfiles (side : Nat) : List String :=
  if side = Side.Left ∨ side = Side.Right then
    [InteractionProfiles.SimpleController, InteractionProfiles.MotionController,
     InteractionProfiles.TouchController, InteractionProfiles.ViveController,
     InteractionProfiles.IndexController]
  else [InteractionProfiles.ViveTracker]

/-! ## ControllerActionsScene: the scene state (lines 214-244) and its collaborators -/

/-- Handle of an object of the engine (`std::shared_ptr<engine::Object>`); a null pointer
is `none` where a field can be null. -/
abbrev ObjectId := Nat

/-- The struct `ComponentData`. The reference `actionInfo` is the referenced element of
`m_actions`, which is never modified; the `float` of `actionValue` is a rational number. -/
structure ComponentData where
  actionInfo : ActionInfo
  actionValue : Rat
  isActive : Bool
  text : String
  placementObject : ObjectId
  valueObject : ObjectId
deriving DecidableEq

/-- The struct `ControllerData`. -/
structure ControllerData where
  side : Nat
  userPathString : String
  userPath : XrPath
  interactionProfilePath : XrPath
  interactionProfileName : String
  text : String
  textObject : Option ObjectId
  components : List ComponentData
  gripRoot : Option ObjectId
  aimRoot : Option ObjectId
  palmRoot : Option ObjectId
deriving DecidableEq

/-- The flags of `xrQueryActionLocalizedName` used by the scene. -/
inductive LocalizedNameBit where
  | XR_INPUT_SOURCE_LOCALIZED_NAME_USER_PATH_BIT
  | XR_INPUT_SOURCE_LOCALIZED_NAME_INTERACTION_PROFILE_BIT
  | XR_INPUT_SOURCE_LOCALIZED_NAME_COMPONENT_BIT
deriving DecidableEq, Repr

/-- The OpenXR runtime and instance context as the scene sees them during one call of a
method. A call that `CHECK_XRCMD` guards answers `Except.error` with the failing
`XrResult` when it fails. -/
structure Runtime where
  /-- The call `xrGetCurrentInteractionProfile(session, topLevelUserPath, &state)`: the
  field `state.interactionProfile`. -/
  xrGetCurrentInteractionProfile : XrPath → Except Int XrPath
  /-- The helper `xr::PathToString(instance, path)`. -/
  PathToString : XrPath → String
  /-- The helper `xr::StringToPath(instance, string)`. -/
  StringToPath : String → XrPath
  /-- The fields `m_context.Instance.LeftHandPath` and `RightHandPath`. -/
  LeftHandPath : XrPath
  RightHandPath : XrPath
  /-- The helper `xr::QueryActionLocalizedName(session, action, flags)`: the elements of
  the returned `std::set` in its order. -/
  QueryActionLocalizedName : XrAction → LocalizedNameBit → List String
  /-- The call `xrGetActionStateBoolean`: `currentState` (an `XrBool32`) and `isActive`. -/
  xrGetActionStateBoolean : XrAction → XrPath → Except Int (Nat × Bool)
  /-- The call `xrGetActionStateFloat`: `currentState` and `isActive`. -/
  xrGetActionStateFloat : XrAction → XrPath → Except Int (Rat × Bool)
  /-- The call `xrGetActionStatePose`: `isActive`. -/
  xrGetActionStatePose : XrAction → XrPath → Except Int Bool

/-- How a method ends: it returns, or an exception of `CHECK_XRCMD` leaves it. Both carry
the state the method leaves behind. -/
inductive Outcome (σ : Type) where
  | returned (state : σ)
  | thrown (state : σ)

/-- The state a method leaves behind. -/
def Outcome.state {σ : Type} : Outcome σ → σ
  | .returned s => s
  | .thrown s => s

/-- A `for` loop whose body can throw: the loop stops at the first exception. -/
def Outcome.forEach {σ α : Type} (body : σ → α → Outcome σ) : σ → List α → Outcome σ
  | s, [] => .returned s
  | s, x :: xs =>
    match body s x with
    | .returned s1 => Outcome.forEach body s1 xs
    | .thrown s1 => .thrown s1

/-- The objects of the `engine::Scene` and the supply of fresh object handles. -/
structure SceneObjects where
  objects : List ObjectId
  nextObject : ObjectId
deriving DecidableEq, Repr

namespace SceneObjects

/-- Modelled from the spec: the scene-object primitive that creates an object
(`engine::CreateObject`, `engine::CreateCube`, `CreateTextObject`; the engine is not among
the sources). A new object has a handle no earlier object has. -/
def create (scene : SceneObjects) : ObjectId × SceneObjects :=
  (scene.nextObject, { scene with nextObject := scene.nextObject + 1 })

/-- Modelled from the spec: `engine::Scene::AddObject(object)`, the object joins the
scene. -/
def AddObject (scene : SceneObjects) (object : ObjectId) : SceneObjects :=
  { scene with objects := scene.objects ++ [object] }

/-- Modelled from the spec: `engine::Scene::RemoveObject(object)`, the object leaves the
scene; removing a null pointer changes nothing. -/
def RemoveObject (scene : SceneObjects) (object : Option ObjectId) : SceneObjects :=
  match object with
  | none => scene
  | some o => { scene with objects := scene.objects.filter fun x => decide (x ≠ o) }

end SceneObjects

/-! ## ControllerActionsScene: InteractionProfileChanged (lines 565-675) -/

/-- The predicate of the `find_if` of lines 590-595: the binding names the profile and
its subaction path is null or equal to the user path of the side. -/
def bindingMatches (interactionProfileName : String) (side : Nat) (binding : ActionBinding) :
    Bool :=
  decide (binding.interactionProfile = interactionProfileName) &&
    (binding.subactionPath.isNone || decide (binding.subactionPath = userPathOfSide side))

/-- One iteration of the loop of lines 588-614: the first matching binding of the action,
if there is one, becomes a new component with two new objects. -/
def insertComponent (interactionProfileName : String) (side : Nat)
    (acc : SceneObjects × List ComponentData) (actionInfo : ActionInfo) :
    SceneObjects × List ComponentData :=
  match actionInfo.actionBindings.find? (bindingMatches interactionProfileName side) with
  | none => acc
  | some it =>
    let placement := acc.1.create
    let value := placement.2.create
    (value.2,
      acc.2 ++ [{ actionInfo := actionInfo, actionValue := 0, isActive := false,
                  text := it.componetPath, placementObject := placement.1,
                  valueObject := value.1 }])

/-- The lambda `ConcatNames` (lines 617-633): the names joined by line breaks. -/
def ConcatNames (names : List String) : String :=
  if names.length = 0 then "No Binding" else "\n".intercalate names

/-- The lambda `GetControllerString` (lines 635-641). -/
def GetControllerString (rt : Runtime) (action : XrAction) : String :=
  ConcatNames (rt.QueryActionLocalizedName action
      .XR_INPUT_SOURCE_LOCALIZED_NAME_INTERACTION_PROFILE_BIT) ++ "\n" ++
    ConcatNames (rt.QueryActionLocalizedName action
      .XR_INPUT_SOURCE_LOCALIZED_NAME_USER_PATH_BIT)

/-- The lambda `GetComponentString` (lines 643-649). -/
def GetComponentString (rt : Runtime) (action : XrAction) : String :=
  ConcatNames (rt.QueryActionLocalizedName action
      .XR_INPUT_SOURCE_LOCALIZED_NAME_USER_PATH_BIT) ++ ", " ++
    ConcatNames (rt.QueryActionLocalizedName action
      .XR_INPUT_SOURCE_LOCALIZED_NAME_COMPONENT_BIT)

/-- The function `InteractionProfileChanged(scene, context, controllerData, actions, side,
interactionProfilePath)`: the scene objects and the controller data after the call. Poses,
scales and parents of the objects are not part of the state. -/
def InteractionProfileChanged (rt : Runtime) (scene : SceneObjects)
    (controllerData : ControllerData) (actions : List ActionInfo) (side : Nat)
    (interactionProfilePath : XrPath) : SceneObjects × ControllerData :=
  let hasInteractionProfile := decide (interactionProfilePath ≠ XR_NULL_PATH)
  let interactionProfileName :=
    if hasInteractionProfile then rt.PathToString interactionProfilePath
    else "No interaction profile"
  -- Remove previous components
  let scene1 := controllerData.components.foldl
    (fun sc object =>
      (sc.RemoveObject (some object.placementObject)).RemoveObject (some object.valueObject))
    scene
  let scene2 := scene1.RemoveObject controllerData.textObject
  -- Insert components of the current interaction profile
  let inserted :=
    if hasInteractionProfile then
      actions.foldl (insertComponent interactionProfileName side) (scene2, [])
    else (scene2, [])
  let components := inserted.2
  let cleared : ControllerData :=
    { controllerData with
      interactionProfilePath := interactionProfilePath
      interactionProfileName := interactionProfileName
      components := components
      textObject := none }
  -- Print interaction profile information in text
  match components with
  | [] => (inserted.1, cleared)
  | first :: _ =>
    let header :=
      interactionProfileName ++ "\n" ++ GetControllerString rt first.actionInfo.action ++ "\n"
    let text :=
      if hasInteractionProfile then
        components.foldl
          (fun buffer component =>
            buffer ++ "\n" ++ component.text ++ ":\n" ++
              GetComponentString rt component.actionInfo.action ++ "\n")
          header
      else header
    let scene3 :=
      if hasInteractionProfile then
        components.foldl
          (fun sc component =>
            (sc.AddObject component.placementObject).AddObject component.valueObject)
          inserted.1
      else inserted.1
    let textObject := scene3.create
    (textObject.2.AddObject textObject.1,
      { cleared with text := text, textObject := some textObject.1 })

/-! ## ControllerActionsScene: OnUpdate (lines 135-160) and OnEvent (lines 162-197) -/

/-- A record of the calls the claims count: the runtime query of the current interaction
profile of a path, and the invocation of `InteractionProfileChanged` for a side. -/
inductive Call where
  | xrGetCurrentInteractionProfile (topLevelUserPath : XrPath)
  | InteractionProfileChanged (side : Nat) (interactionProfilePath : XrPath)
deriving DecidableEq, Repr

/-- The members of `ControllerActionsScene` together with the objects of the scene it
derives from. `m_controllerData` is indexed by the side; only the indices below
`controllerDataSize` are elements of the array. `calls` is a history of the calls made so
far; it is written and never read. -/
structure ControllerActionsScene where
  SupportsViveTrackers : Bool
  m_actions : List ActionInfo
  m_controllerData : Nat → ControllerData
  m_interactionProfilesDirty : Bool
  scene : SceneObjects
  calls : List Call

/-- The function `UpdateComponentValueVisuals(context, subactionPath, component)`: the
component with its new `actionValue` and `isActive`, or the failing `XrResult`. The
`assert(false)` of the last branch is compiled out in a release build; the slide bar of
`valueObject` is not part of the state. -/
def UpdateComponentValueVisuals (rt : Runtime) (subactionPath : XrPath)
    (component : ComponentData) : Except Int ComponentData :=
  match component.actionInfo.actionType with
  | .XR_ACTION_TYPE_BOOLEAN_INPUT =>
    match rt.xrGetActionStateBoolean component.actionInfo.action subactionPath with
    | .error e => .error e
    | .ok state => .ok { component with actionValue := (state.1 : Rat), isActive := state.2 }
  | .XR_ACTION_TYPE_FLOAT_INPUT =>
    match rt.xrGetActionStateFloat component.actionInfo.action subactionPath with
    | .error e => .error e
    | .ok state => .ok { component with actionValue := state.1, isActive := state.2 }
  | .XR_ACTION_TYPE_POSE_INPUT =>
    match rt.xrGetActionStatePose component.actionInfo.action subactionPath with
    | .error e => .error e
    | .ok isActive =>
      .ok { component with actionValue := if isActive then 1 else 0, isActive := isActive }
  | _ => .ok component

/-- The body of the re-query loop of `OnUpdate` (lines 140-146) for one side. -/
def requerySide (rt : Runtime) (s : ControllerActionsScene) (side : Nat) :
    Outcome ControllerActionsScene :=
  let controllerData := s.m_controllerData side
  let queried : ControllerActionsScene :=
    { s with calls := s.calls ++ [Call.xrGetCurrentInteractionProfile controllerData.userPath] }
  match rt.xrGetCurrentInteractionProfile controllerData.userPath with
  | .error _ => .thrown queried
  | .ok interactionProfile =>
    if controllerData.interactionProfilePath ≠ interactionProfile then
      let changed := InteractionProfileChanged rt queried.scene controllerData queried.m_actions
        side interactionProfile
      .returned
        { queried with
          scene := changed.1
          m_controllerData := Function.update queried.m_controllerData side changed.2
          calls := queried.calls ++ [Call.InteractionProfileChanged side interactionProfile] }
    else .returned queried

/-- The first block of `OnUpdate` (lines 138-148): the test-and-clear of the dirty flag
and, when it was set, the re-query loop over the sides. -/
def requeryProfiles (rt : Runtime) (s : ControllerActionsScene) :
    Outcome ControllerActionsScene :=
  let cleared : ControllerActionsScene := { s with m_interactionProfilesDirty := false }
  if s.m_interactionProfilesDirty then
    Outcome.forEach (requerySide rt) cleared (List.range (upperBound s.SupportsViveTrackers))
  else .returned cleared

/-- The inner loop of lines 152-158 over the components of one side: the components
before a failing query are updated, the others are left as they were. -/
def updateComponents (rt : Runtime) (subactionPath : XrPath) :
    List ComponentData → Outcome (List ComponentData)
  | [] => .returned []
  | component :: rest =>
    match UpdateComponentValueVisuals rt subactionPath component with
    | .error _ => .thrown (component :: rest)
    | .ok updated =>
      match updateComponents rt subactionPath rest with
      | .returned rest1 => .returned (updated :: rest1)
      | .thrown rest1 => .thrown (updated :: rest1)

/-- The body of the loop of lines 150-159 for one side. -/
def sampleSide (rt : Runtime) (s : ControllerActionsScene) (side : Nat) :
    Outcome ControllerActionsScene :=
  let subactionPath := rt.StringToPath ((userPathOfSide side).getD "")
  let controllerData := s.m_controllerData side
  match updateComponents rt subactionPath controllerData.components with
  | .returned components =>
    .returned
      { s with
        m_controllerData :=
          Function.update s.m_controllerData side
            { controllerData with components := components } }
  | .thrown components =>
    .thrown
      { s with
        m_controllerData :=
          Function.update s.m_controllerData side
            { controllerData with components := components } }

/-- The method `OnUpdate(frameTime)`. -/
def OnUpdate (rt : Runtime) (s : ControllerActionsScene) : Outcome ControllerActionsScene :=
  match requeryProfiles rt s with
  | .thrown s1 => .thrown s1
  | .returned s1 =>
    Outcome.forEach (sampleSide rt) s1 (List.range (upperBound s.SupportsViveTrackers))

/-- The events `OnEvent` tells apart with `xr::event_cast`. -/
inductive XrEventData where
  | InteractionProfileChanged
  | ViveTrackerConnectedHTCX (persistentPath rolePath : XrPath)
  | other
deriving DecidableEq, Repr

/-- One guarded query of `OnEvent` (lines 167, 172 and 177), made for its trace output. -/
def traceQuery (rt : Runtime) (s : ControllerActionsScene) (topLevelUserPath : XrPath) :
    Outcome ControllerActionsScene :=
  let queried : ControllerActionsScene :=
    { s with calls := s.calls ++ [Call.xrGetCurrentInteractionProfile topLevelUserPath] }
  match rt.xrGetCurrentInteractionProfile topLevelUserPath with
  | .error _ => .thrown queried
  | .ok _ => .returned queried

/-- The method `OnEvent(eventData)`. The text given to `sample::Trace` is not part of the
state. -/
def OnEvent (rt : Runtime) (s : ControllerActionsScene) (eventData : XrEventData) :
    Outcome ControllerActionsScene :=
  match eventData with
  | .InteractionProfileChanged =>
    Outcome.forEach (traceQuery rt) { s with m_interactionProfilesDirty := true }
      [rt.LeftHandPath, rt.RightHandPath, rt.StringToPath "/user/vive_tracker_htcx"]
  | _ => .returned s

/-- The events of a list delivered in order, each with the runtime as it is at that
moment; the scene after the last one. -/
def deliverEvents : ControllerActionsScene → List (Runtime × XrEventData) →
    ControllerActionsScene
  | s, [] => s
  | s, (rt, eventData) :: rest => deliverEvents (OnEvent rt s eventData).state rest

/-- The runtime queries recorded in a history. -/
def profileQueries (calls : List Call) : List XrPath :=
  calls.filterMap fun c =>
    match c with
    | .xrGetCurrentInteractionProfile p => some p
    | _ => none

/-- The invocations of `InteractionProfileChanged` recorded in a history. -/
def rebuilds (calls : List Call) : List (Nat × XrPath) :=
  calls.filterMap fun c =>
    match c with
    | .InteractionProfileChanged side p => some (side, p)
    | _ => none

/-- The calls the re-query loop is to make for one side, in the words of the resolver: the
query of the side's path and, if the returned profile differs from the cached one, the
rebuild for that profile. -/
def specRequeryCalls (rt : Runtime) (controllerData : ControllerData) (side : Nat) :
    List Call :=
  Call.xrGetCurrentInteractionProfile controllerData.userPath ::
    match rt.xrGetCurrentInteractionProfile controllerData.userPath with
    | .ok interactionProfile =>
      if controllerData.interactionProfilePath ≠ interactionProfile then
        [Call.InteractionProfileChanged side interactionProfile]
      else []
    | .error _ => []

/-- A sample runtime whose calls all succeed: the current profile of a path is
`profile path`, no action is active, and paths are numbered by the length of their text. -/
def sampleRuntime (profile : XrPath → XrPath) : Runtime :=
  { xrGetCurrentInteractionProfile := fun path => .ok (profile path)
    PathToString := fun p =>
      if p = 7 then InteractionProfiles.MotionController else InteractionProfiles.SimpleController
    StringToPath := fun text => text.length
    LeftHandPath := 15
    RightHandPath := 16
    QueryActionLocalizedName := fun _ _ => []
    xrGetActionStateBoolean := fun _ _ => .ok (0, false)
    xrGetActionStateFloat := fun _ _ => .ok (0, false)
    xrGetActionStatePose := fun _ _ => .ok false }

/-- A sample scene as the constructor leaves it without Vive tracker support: no profile
resolved yet on any side, the dirty flag set, and the user path of a side numbered by the
length of its text (15 for the left hand, 16 for the right hand). -/
def sampleScene : ControllerActionsScene :=
  { SupportsViveTrackers := false
    m_actions := CreateActions indexCreateAction false false
    m_controllerData := fun side =>
      { side := side
        userPathString := (userPathOfSide side).getD ""
        userPath := ((userPathOfSide side).getD "").length
        interactionProfilePath := XR_NULL_PATH
        interactionProfileName := ""
        text := ""
        textObject := none
        components := []
        gripRoot := some (2 * side)
        aimRoot := some (2 * side + 1)
        palmRoot := none }
    m_interactionProfilesDirty := true
    scene := ⟨[0, 1, 2, 3], 4⟩
    calls := [] }

/-- A component without the two values the sampling loop of `OnUpdate` writes. -/
def ComponentData.unsampled (c : ComponentData) : ComponentData :=
  { c with actionValue := 0, isActive := false }

/-- The controller data without the sampled values of its components: everything the
interaction profile resolver and the rebuild write. -/
def ControllerData.unsampled (cd : ControllerData) : ControllerData :=
  { cd with components := cd.components.map ComponentData.unsampled }

/-- The method ended with an exception. -/
def Outcome.threw {σ : Type} : Outcome σ → Bool
  | .returned _ => false
  | .thrown _ => true

/-- A sample runtime that reports the profile 7 for every path except `failPath`, for
which the query fails with the result -1. -/
def failingRuntime (failPath : XrPath) : Runtime :=
  { sampleRuntime (fun _ => 7) with
    xrGetCurrentInteractionProfile := fun path =>
      if path = failPath then .error (-1) else .ok 7 }

/-- The objects that belong to the components and the text of a controller data: the
placement object and the value object of every component, and the text object if there is
one. -/
def ControllerData.sceneObjects (cd : ControllerData) : List ObjectId :=
  cd.components.flatMap (fun c => [c.placementObject, c.valueObject]) ++ cd.textObject.toList

/-- The components the rebuild is to create, in the words of the rebuild's description:
for every declared action, in order, one component for each binding entry that matches the
profile name and the side; a component is given by its action and its text, the
component path of the entry. -/
def specComponents (interactionProfileName : String) (side : Nat) (actions : List ActionInfo) :
    List (ActionInfo × String) :=
  actions.flatMap fun actionInfo =>
    (actionInfo.actionBindings.filter (bindingMatches interactionProfileName side)).map
      fun b => (actionInfo, b.componetPath)

/-- The sample scene after the left hand (side 0) was resolved to the motion controller
(profile 7): its components and its text object are in the scene. -/
def resolvedScene : ControllerActionsScene :=
  (requerySide (sampleRuntime fun _ => 7) sampleScene 0).state

/-- The struct `XrPosef`: orientation quaternion and position, the floats as rational
numbers. -/
structure XrPosef where
  orientation : Rat × Rat × Rat × Rat
  position : Rat × Rat × Rat
deriving DecidableEq

/-- The struct `XrSpaceLocation` as `xrLocateSpace` fills it. -/
structure XrSpaceLocation where
  locationFlags : Nat
  pose : XrPosef
deriving DecidableEq

/-- The part of an `engine::PbrModelObject` the pointer code writes: the visibility flag
and the pose. -/
structure PointerObject where
  visible : Bool
  pose : XrPosef
deriving DecidableEq

/-- The lambda `SetPointerVisibilityAndLocation(object, space)` (lines 423-432).
`IsPoseValid` stands for `xr::math::Pose::IsPoseValid`, `menuActive` for
`m_menuActionSet->Active()` and `located` for the result of the guarded call
`xrLocateSpace(space, m_context.AppSpace, time, &spaceLocation)`. The lambda makes no call
that removes the object from the scene. -/
def SetPointerVisibilityAndLocation (IsPoseValid : XrSpaceLocation → Bool) (menuActive : Bool)
    (object : PointerObject) (located : Except Int XrSpaceLocation) : Outcome PointerObject :=
  let hidden : PointerObject := { object with visible := false }
  match located with
  | .error _ => .thrown hidden
  | .ok spaceLocation =>
    if IsPoseValid spaceLocation then
      .returned { hidden with pose := spaceLocation.pose, visible := menuActive }
    else .returned hidden

/-- The two pointer objects of `MenuScene`. -/
structure MenuPointers where
  m_leftPointerObject : PointerObject
  m_rightPointerObject : PointerObject
deriving DecidableEq

/-- The last two statements of `MenuScene::OnUpdate` (lines 434-435): the left pointer,
then the right pointer. -/
def updatePointerObjects (IsPoseValid : XrSpaceLocation → Bool) (menuActive : Bool)
    (locatedLeft locatedRight : Except Int XrSpaceLocation) (s : MenuPointers) :
    Outcome MenuPointers :=
  match SetPointerVisibilityAndLocation IsPoseValid menuActive s.m_leftPointerObject
      locatedLeft with
  | .thrown left => .thrown { s with m_leftPointerObject := left }
  | .returned left =>
    match SetPointerVisibilityAndLocation IsPoseValid menuActive s.m_rightPointerObject
        locatedRight with
    | .thrown right => .thrown { m_leftPointerObject := left, m_rightPointerObject := right }
    | .returned right => .returned { m_leftPointerObject := left, m_rightPointerObject := right }

/-- The pointer objects after a series of updates whose `xrLocateSpace` calls succeed: each
update comes with the state of the menu action set and the locations of the left and of
the right pointer space. -/
def pointerUpdates (IsPoseValid : XrSpaceLocation → Bool) :
    MenuPointers → List (Bool × XrSpaceLocation × XrSpaceLocation) → MenuPointers
  | s, [] => s
  | s, (menuActive, left, right) :: rest =>
    pointerUpdates IsPoseValid
      (updatePointerObjects IsPoseValid menuActive (.ok left) (.ok right) s).state rest

/-! ## ExtensionContext (XrUtility/XrExtensionContext.h) -/

/-- The struct `xr::ExtensionContext`. -/
structure ExtensionContext where
  SupportsD3D11 : Bool := false
  SupportsD3D12 : Bool := false
  SupportsDepthInfo : Bool := false
  SupportsVisibilityMask : Bool := false
  SupportsHandInteraction : Bool := false
  SupportsEyeGazeInteraction : Bool := false
  SupportsHandJointTracking : Bool := false
  SupportsSecondaryViewConfiguration : Bool := false
  SupportsAppContainer : Bool := false
  SupportsColorScaleBias : Bool := false
  SupportsPalmPose : Bool := false
  SupportsViveTrackers : Bool := false
  EnabledExtensions : List String := []
deriving DecidableEq, Repr

/-- The method `ExtensionContext::IsEnabled(extensionName)` (lines 25-29): the `find_if`
with `strcmp` finds an element. -/
def ExtensionContext.IsEnabled (extensions : ExtensionContext) (extensionName : String) : Bool :=
  (extensions.EnabledExtensions.find? fun i => decide (i = extensionName)).isSome

/-- The struct `XrExtensionProperties` of the OpenXR API, an element of the list
`xr::EnumerateInstanceExtensionProperties()` returns. -/
structure XrExtensionProperties where
  extensionName : String
  extensionVersion : Nat
deriving DecidableEq, Repr

/-- The extension name macros of the OpenXR headers that `CreateExtensionContext` uses. -/
structure ExtensionNames where
  XR_KHR_D3D11_ENABLE_EXTENSION_NAME : String
  XR_KHR_D3D12_ENABLE_EXTENSION_NAME : String
  XR_EXT_WIN32_APPCONTAINER_COMPATIBLE_EXTENSION_NAME : String
  XR_KHR_COMPOSITION_LAYER_DEPTH_EXTENSION_NAME : String
  XR_KHR_VISIBILITY_MASK_EXTENSION_NAME : String
  XR_MSFT_HAND_INTERACTION_EXTENSION_NAME : String
  XR_EXT_EYE_GAZE_INTERACTION_EXTENSION_NAME : String
  XR_MSFT_SECONDARY_VIEW_CONFIGURATION_EXTENSION_NAME : String
  XR_EXT_HAND_TRACKING_EXTENSION_NAME : String
  XR_KHR_COMPOSITION_LAYER_COLOR_SCALE_BIAS_EXTENSION_NAME : String
  XR_EXT_PALM_POSE_EXTENSION_NAME : String
  XR_HTCX_VIVE_TRACKER_INTERACTION_EXTENSION_NAME : String

/-- The platform macros that guard three of the assignments of `CreateExtensionContext`;
`true` stands for a defined macro. -/
structure PlatformMacros where
  XR_USE_GRAPHICS_API_D3D11 : Bool
  XR_USE_GRAPHICS_API_D3D12 : Bool
  XR_USE_PLATFORM_WIN32 : Bool

/-- The inner loop of lines 38-43 for one requested extension: the first supported
extension of the same name makes the loop push the requested name and break. -/
def pushIfSupported (requestedExtension : String) (enabled : List String) :
    List XrExtensionProperties → List String
  | [] => enabled
  | supportedExtension :: rest =>
    if supportedExtension.extensionName = requestedExtension then
      enabled ++ [requestedExtension]
    else pushIfSupported requestedExtension enabled rest

/-- The function `xr::CreateExtensionContext(requestedExtensions)`.
`runtimeSupportedExtensions` is the list `xr::EnumerateInstanceExtensionProperties()`
returns. -/
def CreateExtensionContext (names : ExtensionNames) (macros : PlatformMacros)
    (runtimeSupportedExtensions : List XrExtensionProperties)
    (requestedExtensions : List String) : ExtensionContext :=
  -- Filter requested extensions to make sure enabled extensions are supported by current runtime
  let extensions : ExtensionContext :=
    { EnabledExtensions := requestedExtensions.foldl
        (fun enabled requestedExtension =>
          pushIfSupported requestedExtension enabled runtimeSupportedExtensions)
        [] }
  -- Record enabled extensions in extension context as bool for easy usage.
  { extensions with
    SupportsD3D11 :=
      if macros.XR_USE_GRAPHICS_API_D3D11 then
        extensions.IsEnabled names.XR_KHR_D3D11_ENABLE_EXTENSION_NAME
      else extensions.SupportsD3D11
    SupportsD3D12 :=
      if macros.XR_USE_GRAPHICS_API_D3D12 then
        extensions.IsEnabled names.XR_KHR_D3D12_ENABLE_EXTENSION_NAME
      else extensions.SupportsD3D12
    SupportsAppContainer :=
      if macros.XR_USE_PLATFORM_WIN32 then
        extensions.IsEnabled names.XR_EXT_WIN32_APPCONTAINER_COMPATIBLE_EXTENSION_NAME
      else extensions.SupportsAppContainer
    SupportsDepthInfo := extensions.IsEnabled names.XR_KHR_COMPOSITION_LAYER_DEPTH_EXTENSION_NAME
    SupportsVisibilityMask := extensions.IsEnabled names.XR_KHR_VISIBILITY_MASK_EXTENSION_NAME
    SupportsHandInteraction :=
      extensions.IsEnabled names.XR_MSFT_HAND_INTERACTION_EXTENSION_NAME
    SupportsEyeGazeInteraction :=
      extensions.IsEnabled names.XR_EXT_EYE_GAZE_INTERACTION_EXTENSION_NAME
    SupportsSecondaryViewConfiguration :=
      extensions.IsEnabled names.XR_MSFT_SECONDARY_VIEW_CONFIGURATION_EXTENSION_NAME
    SupportsHandJointTracking := extensions.IsEnabled names.XR_EXT_HAND_TRACKING_EXTENSION_NAME
    SupportsColorScaleBias :=
      extensions.IsEnabled names.XR_KHR_COMPOSITION_LAYER_COLOR_SCALE_BIAS_EXTENSION_NAME
    SupportsPalmPose := extensions.IsEnabled names.XR_EXT_PALM_POSE_EXTENSION_NAME
    SupportsViveTrackers :=
      extensions.IsEnabled names.XR_HTCX_VIVE_TRACKER_INTERACTION_EXTENSION_NAME }

/-- The runtime supports an extension of the given name. -/
def runtimeSupports (runtimeSupportedExtensions : List XrExtensionProperties)
    (extensionName : String) : Bool :=
  runtimeSupportedExtensions.any fun supported => decide (supported.extensionName = extensionName)

/-! ## ControllerActionsScene: FindAction and the constructor (lines 65-116, 500-505) -/

/-- The function `FindAction(actions, actionName)`: the element the `find_if` finds, and
`none` when it finds none, the case the `assert` excludes. -/
def FindAction (actions : List ActionInfo) (actionName : String) : Option ActionInfo :=
  actions.find? fun action => decide (action.actionName = actionName)

/-- The action names given to `FindAction` in the iteration of the constructor loop for
`side`, in order: the aim pose for a hand (line 79), the grip pose of a hand or the pose
of a tracker role (lines 95-96), and the palm pose for a hand with `SupportsPalmPose`
(line 107). `none` stands for an array read outside the array. -/
def constructorFindActionNames (supportsPalmPose : Bool) (side : Nat) : List (Option String) :=
  (if side = Side.Left ∨ side = Side.Right then [aimPoseActionName[side]?] else []) ++
  [if side < Side.Count then gripPoseActionName[side]?
   else trackerPoseActionName[side - Side.Count]?] ++
  (if supportsPalmPose = true ∧ (side = Side.Left ∨ side = Side.Right) then
    [palmPoseActionName[side]?]
   else [])

/-! ## ProjectionSamplingScene (Scene_ProjectionQuality.cpp, lines 34-61) -/

/-- The loop of lines 42-44, `for (uint32_t sampleCount = 1; sampleCount <= maxSampleCount;
sampleCount *= 2)`, from a given `sampleCount` on; the product is taken modulo `2 ^ 32`.
`fuel` bounds the number of loop tests the model runs: the result is `none` when the loop
is still running after that many tests. -/
def sampleCountsLoop (maxSampleCount : Nat) : Nat → Nat → List Nat → Option (List Nat)
  | 0, _, _ => none
  | fuel + 1, sampleCount, m_sampleCounts =>
    if sampleCount ≤ maxSampleCount then
      sampleCountsLoop maxSampleCount fuel (sampleCount * 2 % 2 ^ 32)
        (m_sampleCounts ++ [sampleCount])
    else some m_sampleCounts

/-- The members of `ProjectionSamplingScene`, with the sample count it wrote to the
configuration of projection layer 0 and the menu text it set. -/
structure ProjectionSamplingScene where
  m_sampleCountIndex : Int
  m_sampleCounts : List Nat
  SwapchainSampleCount : Nat
  MenuText : String
deriving DecidableEq, Repr

/-- The method `ProjectionSamplingScene::OnMenuClicked` (lines 49-55); `none` when the
index is outside `m_sampleCounts` or the list is empty (modulo by zero). -/
def ProjectionSamplingScene.OnMenuClicked (s : ProjectionSamplingScene) :
    Option ProjectionSamplingScene :=
  if 0 ≤ s.m_sampleCountIndex then
    match s.m_sampleCounts[s.m_sampleCountIndex.toNat]? with
    | none => none
    | some sampleCount =>
      some
        { s with
          SwapchainSampleCount := sampleCount
          MenuText := toString sampleCount ++ " MSAA"
          m_sampleCountIndex := (s.m_sampleCountIndex + 1) % (s.m_sampleCounts.length : Int) }
  else none

/-- The constructor of `ProjectionSamplingScene` (lines 35-47) for the given
`maxSwapchainSampleCount` of the first view. -/
def ProjectionSamplingScene.new (fuel : Nat) (maxSampleCount : Nat) :
    Option ProjectionSamplingScene :=
  match sampleCountsLoop maxSampleCount fuel 1 [] with
  | none => none
  | some m_sampleCounts =>
    ProjectionSamplingScene.OnMenuClicked
      { m_sampleCountIndex := 0
        m_sampleCounts := m_sampleCounts
        SwapchainSampleCount := 1
        MenuText := "Projection MSAA" }

/-- The scene after a number of menu clicks. -/
def ProjectionSamplingScene.clicks : Nat → ProjectionSamplingScene →
    Option ProjectionSamplingScene
  | 0, s => some s
  | n + 1, s =>
    match ProjectionSamplingScene.OnMenuClicked s with
    | none => none
    | some s1 => ProjectionSamplingScene.clicks n s1

/-! ## SwapchainFormatScene (Scene_SwapchainFormat.cpp) -/

/-- The enum `DXGI_FORMAT`, by its values; the conversion `(DXGI_FORMAT)format` of an
`int64_t` format keeps the value. -/
abbrev DXGI_FORMAT := Int

def DXGI_FORMAT_UNKNOWN : DXGI_FORMAT := 0
def DXGI_FORMAT_D32_FLOAT_S8X24_UINT : DXGI_FORMAT := 20
def DXGI_FORMAT_R8G8B8A8_UNORM : DXGI_FORMAT := 28
def DXGI_FORMAT_R8G8B8A8_UNORM_SRGB : DXGI_FORMAT := 29
def DXGI_FORMAT_D32_FLOAT : DXGI_FORMAT := 40
def DXGI_FORMAT_D24_UNORM_S8_UINT : DXGI_FORMAT := 45
def DXGI_FORMAT_D16_UNORM : DXGI_FORMAT := 55
def DXGI_FORMAT_B8G8R8A8_UNORM : DXGI_FORMAT := 87
def DXGI_FORMAT_B8G8R8A8_UNORM_SRGB : DXGI_FORMAT := 91

/-- The fields of `engine::ProjectionLayerConfig` the two format scenes write. -/
structure ProjectionLayerConfig where
  ColorSwapchainFormat : DXGI_FORMAT
  DepthSwapchainFormat : DXGI_FORMAT
  SubmitDepthInfo : Bool
deriving DecidableEq, Repr

/-- The members of `SwapchainFormatScene` (lines 52-57), with the menu text of its
`MenuContext`; the name map is the list of its key-value pairs. -/
structure SwapchainFormatScene where
  m_projectionLayers : List ProjectionLayerConfig
  m_swapchainFormatNameMap : List (DXGI_FORMAT × String)
  m_candidateFormats : List DXGI_FORMAT
  m_currentFormatIndex : Nat
  MenuText : String
deriving DecidableEq, Repr

/-- The test `m_swapchainFormatNameMap.find(format) != m_swapchainFormatNameMap.end()`. -/
def inNameMap (swapchainFormatNameMap : List (DXGI_FORMAT × String)) (format : DXGI_FORMAT) :
    Bool :=
  (swapchainFormatNameMap.lookup format).isSome

/-- The candidate list the constructor builds (lines 19-31): the runtime formats that pass
the test of line 22-23, in the order of the runtime, then `DXGI_FORMAT_UNKNOWN` when it is
in the name map. -/
def candidateFormats (swapchainFormatNameMap : List (DXGI_FORMAT × String))
    (systemSupportedFormat : List Int) : List DXGI_FORMAT :=
  let m_candidateFormats := systemSupportedFormat.foldl
    (fun candidates format =>
      if systemSupportedFormat.contains format && inNameMap swapchainFormatNameMap format then
        candidates ++ [format]
      else candidates)
    []
  if inNameMap swapchainFormatNameMap DXGI_FORMAT_UNKNOWN then
    m_candidateFormats ++ [DXGI_FORMAT_UNKNOWN]
  else m_candidateFormats

/-- The method `SetProjectionConfiguration` (lines 38-45); `none` when the index is outside
the candidate list (the assertion of line 39, the exception of `at`) or the format has no
name. -/
def SwapchainFormatScene.SetProjectionConfiguration
    (changeSwapchainFormatAction : ProjectionLayerConfig → DXGI_FORMAT → ProjectionLayerConfig)
    (s : SwapchainFormatScene) : Option SwapchainFormatScene :=
  match s.m_candidateFormats[s.m_currentFormatIndex]? with
  | none => none
  | some currentFormat =>
    match s.m_swapchainFormatNameMap.lookup currentFormat with
    | none => none
    | some name =>
      some
        { s with
          m_projectionLayers :=
            s.m_projectionLayers.map fun config => changeSwapchainFormatAction config currentFormat
          MenuText := name }

/-- The constructor of `SwapchainFormatScene` (lines 9-36); `none` when the assertion of
line 33 fails. -/
def SwapchainFormatScene.new
    (changeSwapchainFormatAction : ProjectionLayerConfig → DXGI_FORMAT → ProjectionLayerConfig)
    (projectionLayers : List ProjectionLayerConfig)
    (swapchainFormatNameMap : List (DXGI_FORMAT × String))
    (systemSupportedFormat : List Int) : Option SwapchainFormatScene :=
  let m_candidateFormats := candidateFormats swapchainFormatNameMap systemSupportedFormat
  if 1 ≤ m_candidateFormats.length then
    SwapchainFormatScene.SetProjectionConfiguration changeSwapchainFormatAction
      { m_projectionLayers := projectionLayers
        m_swapchainFormatNameMap := swapchainFormatNameMap
        m_candidateFormats := m_candidateFormats
        m_currentFormatIndex := 0
        MenuText := "SwapchainFormatScene" }
  else none

/-- The name map of `TryCreateColorFormatScene` (lines 62-67). -/
def colorFormatNameMap : List (DXGI_FORMAT × String) :=
  [(DXGI_FORMAT_B8G8R8A8_UNORM_SRGB, "BGRA-8-SRGB"),
   (DXGI_FORMAT_R8G8B8A8_UNORM_SRGB, "RGBA-8-SRGB"),
   (DXGI_FORMAT_R8G8B8A8_UNORM, "RGBA-8"),
   (DXGI_FORMAT_B8G8R8A8_UNORM, "BGRA-8")]

/-- The action of `TryCreateColorFormatScene` (lines 70-72). -/
def colorFormatAction (config : ProjectionLayerConfig) (format : DXGI_FORMAT) :
    ProjectionLayerConfig :=
  { config with ColorSwapchainFormat := format }

/-- The name map of `TryCreateDepthFormatScene` (lines 78-84). -/
def depthFormatNameMap : List (DXGI_FORMAT × String) :=
  [(DXGI_FORMAT_D16_UNORM, "D16_UNORM"),
   (DXGI_FORMAT_UNKNOWN, "No Depth"),
   (DXGI_FORMAT_D32_FLOAT, "D32_FLOAT"),
   (DXGI_FORMAT_D24_UNORM_S8_UINT, "D24_S8_UINT"),
   (DXGI_FORMAT_D32_FLOAT_S8X24_UINT, "D32_FLOAT_S8X24")]

/-- The action of `TryCreateDepthFormatScene` (lines 87-95). -/
def depthFormatAction (config : ProjectionLayerConfig) (format : DXGI_FORMAT) :
    ProjectionLayerConfig :=
  if format = DXGI_FORMAT_UNKNOWN then
    { config with SubmitDepthInfo := false, DepthSwapchainFormat := DXGI_FORMAT_D16_UNORM }
  else
    { config with SubmitDepthInfo := true, DepthSwapchainFormat := format }

/-- A projection layer configuration to start from. -/
def sampleLayerConfig : ProjectionLayerConfig :=
  { ColorSwapchainFormat := DXGI_FORMAT_B8G8R8A8_UNORM_SRGB
    DepthSwapchainFormat := DXGI_FORMAT_D32_FLOAT
    SubmitDepthInfo := true }

/-! ## GenerateCheckboardData (Scene_QuadLayers.cpp, lines 11-32) -/

/-- The value of an `uint32_t` expression: arithmetic modulo `2 ^ 32`. -/
def uint32 (n : Nat) : Nat := n % 2 ^ 32

/-- The assignment `buffer[index] = value`; `none` when the index is outside the buffer. -/
def writeBuffer (buffer : List Nat) (index value : Nat) : Option (List Nat) :=
  if index < buffer.length then some (buffer.set index value) else none

/-- The inner loop `for (uint32_t x = ...; x < widthInPixels; ++x)` of row `y` (lines
18-24), from column `x` on with `remaining = widthInPixels - x` columns to go. The buffer
holds the 32-bit patterns of its `int32_t` elements. The result is `none` when a write
falls outside the buffer or the column width is 0. -/
def checkboardRow (widthInPixels columnWidthInPixels y : Nat) :
    Nat → Nat → List Nat × Bool → Option (List Nat × Bool)
  | 0, _, state => some state
  | remaining + 1, x, (buffer, filled) =>
    match writeBuffer buffer (uint32 (uint32 (y * widthInPixels) + x))
        (if filled then 0xFF000000 else 0xFFFFFFFF) with
    | none => none
    | some buffer1 =>
      if columnWidthInPixels = 0 then none
      else
        checkboardRow widthInPixels columnWidthInPixels y remaining (x + 1)
          (buffer1, if uint32 (x + 1) % columnWidthInPixels = 0 then !filled else filled)

/-- The outer loop `for (uint32_t y = ...; y < heightInPixels; ++y)` (lines 17-29), from
row `y` on with `remaining = heightInPixels - y` rows to go. -/
def checkboardRows (widthInPixels columnWidthInPixels rowHeightInPixels : Nat) :
    Nat → Nat → List Nat × Bool → Option (List Nat × Bool)
  | 0, _, state => some state
  | remaining + 1, y, state =>
    match checkboardRow widthInPixels columnWidthInPixels y widthInPixels 0 state with
    | none => none
    | some (buffer, filled) =>
      if rowHeightInPixels = 0 then none
      else
        checkboardRows widthInPixels columnWidthInPixels rowHeightInPixels remaining (y + 1)
          (buffer, if uint32 (y + 1) % rowHeightInPixels = 0 then !filled else filled)

/-- The function `GenerateCheckboardData` (lines 11-32) on `uint32_t` arguments. -/
def GenerateCheckboardData
    (widthInPixels heightInPixels columnWidthInPixels rowHeightInPixels : Nat) :
    Option (List Nat) :=
  let buffer := List.replicate (uint32 (widthInPixels * heightInPixels)) 0
  (checkboardRows widthInPixels columnWidthInPixels rowHeightInPixels heightInPixels 0
    (buffer, true)).map Prod.fst

/-- The colour the checkerboard pattern gives the pixel at `(x, y)`. -/
def checkboardPixel (columnWidthInPixels rowHeightInPixels x y : Nat) : Nat :=
  if (x / columnWidthInPixels + y / rowHeightInPixels) % 2 = 0 then 0xFF000000 else 0xFFFFFFFF

/-! ## MenuScene: the menu items (Scene_Menu.cpp, lines 91-144 and 443-451; MenuContextScene.h) -/

/-- The handle type `XrSpace`. -/
abbrev XrSpace := Nat

/-- The null handle `XR_NULL_HANDLE`. -/
def XR_NULL_HANDLE : Nat := 0

/-- What a `std::function<void()>` of the menu does when it is called. A scene is named by
its position in `app.Scenes()`. -/
inductive MenuCallback where
  /-- The default callback of `MenuContextScene`, `[this] { OnMenuClicked(); }`. -/
  | OnMenuClicked (scene : Nat)
  /-- A callback passed to the constructor of `MenuContextScene`. -/
  | custom (id : Nat)
  /-- The callback of line 128, `[scene] { scene->ToggleActive(); }`. -/
  | ToggleActive (scene : Nat)
  /-- The callback of line 135, `xrRequestExitSession(session)`. -/
  | RequestExitSession
  /-- The callback of line 140, `app.Test_ForceStop()`. -/
  | Test_ForceStop
  /-- The callback of line 143, `app.Test_RecreateProjectionSwapchains()`. -/
  | Test_RecreateProjectionSwapchains
deriving DecidableEq, Repr

/-- The struct `MenuContext` (MenuContextScene.h, lines 5-8); an empty `std::function` is
`none`. -/
structure MenuContext where
  MenuText : String
  Callback : Option MenuCallback
deriving DecidableEq, Repr

/-- The member `MenuContext` as the constructor of `MenuContextScene` initialises it
(MenuContextScene.h, lines 12-15): `callback ? callback : [this] { OnMenuClicked(); }`. -/
def MenuContextScene.new (self : Nat) (menuText : String) (callback : Option MenuCallback) :
    MenuContext :=
  { MenuText := menuText
    Callback :=
      match callback with
      | some c => some c
      | none => some (.OnMenuClicked self) }

/-- A scene of `app.Scenes()` as the constructor of `MenuScene` reads it: the result of
`typeid(*scene).name()`, and the `MenuContext` of the scene when the `dynamic_cast` to
`MenuContextScene` succeeds. -/
structure AppScene where
  typeName : String
  menuContext : Option MenuContext
deriving DecidableEq, Repr

/-- The part of the `engine::PbrModelObject` of a menu item that `MenuScene` writes: the
visibility flag, the uniform scale and the pose. -/
structure MenuItemObject where
  visible : Bool
  Scale : Rat
  Pose : XrPosef
deriving DecidableEq

/-- The struct `MenuItem` (lines 443-451). `TextTexture` is the text last drawn on the
texture; `Scene` is the position of the scene in `app.Scenes()` and `Context` that of the
scene whose `MenuContext` the pointer addresses; a null pointer and an empty
`std::function` are `none`. -/
structure MenuItem where
  Text : String
  Space : XrSpace
  Object : MenuItemObject
  TextTexture : String
  Callback : Option MenuCallback
  Scene : Option Nat
  Context : Option Nat
deriving DecidableEq

/-- The lambda `CreateNextMenuItem(menuText, color)` (lines 91-109): the item it pushes;
`buttonObject` is the cube the engine creates. The colour is not modelled. -/
def CreateNextMenuItem (buttonObject : MenuItemObject) (menuText : String) : MenuItem :=
  { Text := menuText
    Space := XR_NULL_HANDLE
    Object := buttonObject
    TextTexture := menuText
    Callback := none
    Scene := none
    Context := none }

/-- The search `sceneName.rfind("::")`: the last position at which "::" starts. -/
def rfindNamespace (sceneName : List Char) : Option Nat :=
  (List.range sceneName.length).reverse.find? fun place =>
    (sceneName.drop place).take 2 == "::".toList

/-- Lines 121-125: the type name without its namespace. -/
def sceneClassName (typeName : String) : String :=
  match rfindNamespace typeName.toList with
  | some namespacePlace => String.mk (typeName.toList.drop (namespacePlace + 2))
  | none => typeName

/-- The body of the loop over `app.Scenes()` (lines 112-130) for the scene at position
`index`. -/
def sceneMenuItem (buttonObject : MenuItemObject) (index : Nat) (scene : AppScene) : MenuItem :=
  match scene.menuContext with
  | some menuContext =>
    { CreateNextMenuItem buttonObject menuContext.MenuText with
      Scene := some index
      Context := some index }
  | none =>
    { CreateNextMenuItem buttonObject (sceneClassName scene.typeName) with
      Scene := some index
      Callback := some (.ToggleActive index) }

/-- The three non-scene menu items (lines 133-144). -/
def nonSceneMenuItems (buttonObject : MenuItemObject) : List MenuItem :=
  [{ CreateNextMenuItem buttonObject "Exit" with Callback := some .RequestExitSession },
   { CreateNextMenuItem buttonObject "Hard Exit" with Callback := some .Test_ForceStop },
   { CreateNextMenuItem buttonObject "New Swapchain" with
     Callback := some .Test_RecreateProjectionSwapchains }]

/-- The list `m_menuItems` the constructor of `MenuScene` builds (lines 111-144). -/
def constructorMenuItems (buttonObject : MenuItemObject) (scenes : List AppScene) :
    List MenuItem :=
  ((List.range scenes.length).zip scenes).foldl
    (fun m_menuItems entry => m_menuItems ++ [sceneMenuItem buttonObject entry.1 entry.2])
    [] ++ nonSceneMenuItems buttonObject

/-- What a fired selection does (lines 391-397): it calls a callback, toggles the scene
with `Scene->SetActive(!Scene->IsActive())`, does nothing, or reads `Context->Callback`
through a null `Context`. -/
inductive SelectionEffect where
  | callback (c : MenuCallback)
  | toggleSceneActive (scene : Nat)
  | nothing
  | nullDereference
deriving DecidableEq, Repr

/-- The branches of lines 391-397 for a menu item; `contextOf` reads the `MenuContext` a
non-null `Context` pointer addresses. -/
def selectionEffect (contextOf : Nat → MenuContext) (menuItem : MenuItem) : SelectionEffect :=
  match menuItem.Callback with
  | some c => .callback c
  | none =>
    match menuItem.Context with
    | none => .nullDereference
    | some context =>
      match (contextOf context).Callback with
      | some c => .callback c
      | none =>
        match menuItem.Scene with
        | some scene => .toggleSceneActive scene
        | none => .nothing

/-- A fresh button object. -/
def sampleButtonObject : MenuItemObject :=
  { visible := true, Scale := 1, Pose := { orientation := (0, 0, 0, 1), position := (0, 0, 0) } }

/-- Three scenes of the sample application: two `MenuContextScene`s and one plain scene. -/
def sampleAppScenes : List AppScene :=
  [{ typeName := "struct sample::scenes::SwapchainFormatScene"
     menuContext := some { (MenuContextScene.new 0 "SwapchainFormatScene" none) with
       MenuText := "BGRA-8-SRGB" } },
   { typeName := "struct sample::scenes::PauseScene"
     menuContext := some (MenuContextScene.new 1 "Pause" none) },
   { typeName := "struct sample::scenes::AnimationScene", menuContext := none }]

/-! ## MenuScene: OnUpdate (Scene_Menu.cpp, lines 33-69 and 259-436) -/

/-- The constant `cMenuObjectSize = 0.05f`, as a rational number. -/
def cMenuObjectSize : Rat := 5 / 100

/-- The constant `cMenuItemDisableScale = 0.6f`. -/
def cMenuItemDisableScale : Rat := 6 / 10

/-- The constant `cMenuItemHoverScale = 1.25f`. -/
def cMenuItemHoverScale : Rat := 125 / 100

/-- The value `std::numeric_limits<float>::max()`, `(2 ^ 24 - 1) * 2 ^ 104`. -/
def FLT_MAX : Rat := 340282346638528859811704183484516925440

/-- The fields of `XrActionStateBoolean` the menu reads. -/
structure XrActionStateBoolean where
  currentState : Bool
  changedSinceLastSync : Bool
deriving DecidableEq

/-- The runtime, the instance context and the other scenes as `MenuScene` sees them during
one update. A call that `CHECK_XRCMD` guards answers `Except.error` with the failing
`XrResult` when it fails. -/
structure MenuRuntime where
  /-- The call `xrGetCurrentInteractionProfile(session, topLevelUserPath, &state)`: the
  field `state.interactionProfile`. -/
  xrGetCurrentInteractionProfile : XrPath → Except Int XrPath
  /-- The helper `xr::StringToPath(instance, string)`. -/
  StringToPath : String → XrPath
  /-- The fields `m_context.Instance.LeftHandPath` and `RightHandPath`. -/
  LeftHandPath : XrPath
  RightHandPath : XrPath
  /-- The field `m_context.AppSpace`. -/
  AppSpace : XrSpace
  /-- The call `xrGetActionStateBoolean` for an action and a subaction path. -/
  xrGetActionStateBoolean : XrAction → XrPath → Except Int XrActionStateBoolean
  /-- The call `xrLocateSpace(space, baseSpace, time, &location)`. -/
  xrLocateSpace : XrSpace → XrSpace → Except Int XrSpaceLocation
  /-- The call `xrDestroySpace(space)`. -/
  xrDestroySpace : XrSpace → Except Int Unit
  /-- The call `xrCreateReferenceSpace` of `CreateMenuItemSpace`, whose pose is computed
  from the index of the menu item and the two locations. -/
  xrCreateReferenceSpace : Nat → XrSpaceLocation → XrSpaceLocation → Except Int XrSpace
  /-- The helper `xr::math::Pose::IsPoseValid`. -/
  IsPoseValid : XrSpaceLocation → Bool
  /-- The dot product of the head up vector with the transformed palm normal in
  `HandFacingUp` (lines 265-274), for the right hand (`true`) or the left hand. -/
  palmDirection : Bool → XrPosef → Rat
  /-- The lambda `MenuDistance` (line 361), `sqrtf(vec.x * vec.x + vec.y * vec.y)`. -/
  MenuDistance : Rat × Rat × Rat → Rat
  /-- The call `scene->IsActive()` on the scene at a position of `app.Scenes()`. -/
  sceneIsActive : Nat → Bool
  /-- The `MenuContext` of the scene at a position of `app.Scenes()`. -/
  contextOf : Nat → MenuContext
  /-- The call of a menu callback; `xrRequestExitSession` is guarded. -/
  call : MenuCallback → Except Int Unit
  /-- The call `xrApplyHapticFeedback` for an action and a subaction path. -/
  xrApplyHapticFeedback : XrAction → XrPath → Except Int Unit

/-- The members of `MenuScene` (lines 439-468). The two action sets are given by their
active flags; `selections` is the log of the fired selections. -/
structure MenuScene where
  m_menuPlaneSpace : XrSpace
  m_localSpace : XrSpace
  m_viewSpace : XrSpace
  m_menuItems : List MenuItem
  m_menuActionSetActive : Bool
  m_menuToggleActionSetActive : Bool
  m_menuToggleAction : XrAction
  m_menuSelectAction : XrAction
  m_hapticAction : XrAction
  m_leftPointerSpace : XrSpace
  m_rightPointerSpace : XrSpace
  m_leftGripSpace : XrSpace
  m_rightGripSpace : XrSpace
  pointerObjects : MenuPointers
  selections : List SelectionEffect
deriving DecidableEq

/-- Sequencing of two parts of a method: an exception in the first part leaves the
method. -/
def Outcome.andThen {σ : Type} (o : Outcome σ) (next : σ → Outcome σ) : Outcome σ :=
  match o with
  | .returned s => next s
  | .thrown s => .thrown s

/-- A range-based `for` loop over a vector, by reference, whose body can throw. -/
def Outcome.forEachItem {α : Type} (body : α → Outcome α) : List α → Outcome (List α)
  | [] => .returned []
  | item :: rest =>
    match body item with
    | .thrown item1 => .thrown (item1 :: rest)
    | .returned item1 =>
      match Outcome.forEachItem body rest with
      | .returned rest1 => .returned (item1 :: rest1)
      | .thrown rest1 => .thrown (item1 :: rest1)

/-- The method `CreateMenuItemSpace(time, index)` (lines 33-60). -/
def CreateMenuItemSpace (rt : MenuRuntime) (s : MenuScene) (index : Nat) : Except Int XrSpace :=
  match rt.xrLocateSpace s.m_menuPlaneSpace s.m_localSpace with
  | .error result => .error result
  | .ok menuPlaneToLocal =>
    match rt.xrLocateSpace s.m_viewSpace s.m_localSpace with
    | .error result => .error result
    | .ok viewToLocal => rt.xrCreateReferenceSpace index menuPlaneToLocal viewToLocal

/-- The body of the loop of `DestroyMenuSpaces` (lines 64-67). -/
def destroyMenuSpace (rt : MenuRuntime) (menuItem : MenuItem) : Outcome MenuItem :=
  if menuItem.Space ≠ XR_NULL_HANDLE then
    match rt.xrDestroySpace menuItem.Space with
    | .error _ => .thrown menuItem
    | .ok _ => .returned { menuItem with Space := XR_NULL_HANDLE }
  else .returned menuItem

/-- The method `DestroyMenuSpaces` (lines 62-69). -/
def DestroyMenuSpaces (rt : MenuRuntime) (s : MenuScene) : Outcome MenuScene :=
  match Outcome.forEachItem (destroyMenuSpace rt) s.m_menuItems with
  | .returned items => .returned { s with m_menuItems := items }
  | .thrown items => .thrown { s with m_menuItems := items }

/-- The value `XrSpaceLocation{XR_TYPE_SPACE_LOCATION}` a failed call leaves behind. -/
def emptySpaceLocation : XrSpaceLocation :=
  { locationFlags := 0, pose := { orientation := (0, 0, 0, 0), position := (0, 0, 0) } }

/-- The method `HandFacingUp(handSpace, time)` (lines 259-280); the result of its
`xrLocateSpace` call is not checked. -/
def HandFacingUp (rt : MenuRuntime) (s : MenuScene) (handSpace : XrSpace) : Bool :=
  let location :=
    match rt.xrLocateSpace handSpace s.m_viewSpace with
    | .ok location => location
    | .error _ => emptySpaceLocation
  if rt.IsPoseValid location then
    decide (rt.palmDirection (handSpace == s.m_rightGripSpace) location.pose < -707 / 1000)
  else false

/-- The computation of `toggleMenu` (lines 296-316). -/
def toggleMenuRequested (rt : MenuRuntime) (s : MenuScene) (usingHandInteraction : Bool) :
    Except Int Bool :=
  if usingHandInteraction then
    match rt.xrGetActionStateBoolean s.m_menuToggleAction (rt.StringToPath "/user/hand/left") with
    | .error result => .error result
    | .ok menuToggleActionState =>
      let toggleMenu := menuToggleActionState.changedSinceLastSync &&
        !menuToggleActionState.currentState && HandFacingUp rt s s.m_leftGripSpace
      if !toggleMenu then
        match rt.xrGetActionStateBoolean s.m_menuToggleAction
            (rt.StringToPath "/user/hand/right") with
        | .error result => .error result
        | .ok menuToggleActionState =>
          .ok (menuToggleActionState.changedSinceLastSync &&
            !menuToggleActionState.currentState && HandFacingUp rt s s.m_rightGripSpace)
      else .ok toggleMenu
  else
    match rt.xrGetActionStateBoolean s.m_menuToggleAction XR_NULL_PATH with
    | .error result => .error result
    | .ok menuToggleActionState =>
      .ok (menuToggleActionState.changedSinceLastSync && !menuToggleActionState.currentState)

/-- Lines 283-321 of `OnUpdate`: the interaction profile queries, the toggle request and
the toggle of the menu action set. -/
def toggleMenuStage (rt : MenuRuntime) (s : MenuScene) : Outcome MenuScene :=
  match rt.xrGetCurrentInteractionProfile rt.RightHandPath with
  | .error _ => .thrown s
  | .ok rightHandInteractionProfile =>
    match rt.xrGetCurrentInteractionProfile rt.LeftHandPath with
    | .error _ => .thrown s
    | .ok leftHandInteractionProfile =>
      let handInteractionProfiles : List XrPath :=
        [rt.StringToPath "/interaction_profiles/microsoft/hand_interaction",
         rt.StringToPath "/interaction_profiles/ext/hand_interaction_ext"]
      let usingHandInteraction :=
        handInteractionProfiles.contains rightHandInteractionProfile ||
          handInteractionProfiles.contains leftHandInteractionProfile
      match toggleMenuRequested rt s usingHandInteraction with
      | .error _ => .thrown s
      | .ok toggleMenu =>
        if toggleMenu then
          DestroyMenuSpaces rt { s with m_menuActionSetActive := !s.m_menuActionSetActive }
        else .returned s

/-- The loop of lines 324-328, from the menu item at position `i` on. -/
def createMenuItemSpaces (rt : MenuRuntime) (s : MenuScene) :
    Nat → List MenuItem → Outcome (List MenuItem)
  | _, [] => .returned []
  | i, menuItem :: rest =>
    if menuItem.Space = XR_NULL_HANDLE then
      match CreateMenuItemSpace rt s i with
      | .error _ => .thrown (menuItem :: rest)
      | .ok space =>
        match createMenuItemSpaces rt s (i + 1) rest with
        | .returned rest1 => .returned ({ menuItem with Space := space } :: rest1)
        | .thrown rest1 => .thrown ({ menuItem with Space := space } :: rest1)
    else
      match createMenuItemSpaces rt s (i + 1) rest with
      | .returned rest1 => .returned (menuItem :: rest1)
      | .thrown rest1 => .thrown (menuItem :: rest1)

/-- Lines 323-329 of `OnUpdate`. -/
def createSpacesStage (rt : MenuRuntime) (s : MenuScene) : Outcome MenuScene :=
  if s.m_menuActionSetActive then
    match createMenuItemSpaces rt s 0 s.m_menuItems with
    | .returned items => .returned { s with m_menuItems := items }
    | .thrown items => .thrown { s with m_menuItems := items }
  else .returned s

/-- The local variables `leftDistance`, `rightDistance`, `leftClosestMenuItem` and
`rightClosestMenuItem` of `OnUpdate` (lines 331-334); a closest menu item is given by its
position in `m_menuItems`. -/
structure HoverState where
  leftDistance : Rat
  rightDistance : Rat
  leftClosestMenuItem : Option Nat
  rightClosestMenuItem : Option Nat
deriving DecidableEq

/-- The values of lines 331-334 before the loop. -/
def HoverState.initial : HoverState :=
  { leftDistance := FLT_MAX
    rightDistance := FLT_MAX
    leftClosestMenuItem := none
    rightClosestMenuItem := none }

/-- The block of lines 365-371 for the left hand, and of lines 375-381 for the right hand:
the object of the menu item, the distance and the closest menu item after it. -/
def updateClosest (valid : Bool) (dist : Rat) (index : Nat) (object : MenuItemObject)
    (distance : Rat) (closest : Option Nat) : MenuItemObject × Rat × Option Nat :=
  if valid && decide (dist < distance) then
    if dist < cMenuObjectSize / 2 then
      ({ object with Scale := cMenuItemHoverScale }, dist, some index)
    else (object, dist, closest)
  else (object, distance, closest)

/-- Lines 342-348: the button text is rendered again when the text of the context has
changed. -/
def refreshText (rt : MenuRuntime) (menuItem : MenuItem) : MenuItem :=
  match menuItem.Context with
  | some context =>
    if menuItem.Text ≠ (rt.contextOf context).MenuText then
      { menuItem with
        Text := (rt.contextOf context).MenuText
        TextTexture := (rt.contextOf context).MenuText }
    else menuItem
  | none => menuItem

/-- Line 350: the scale of a menu item whose scene is not active. -/
def menuItemScale (rt : MenuRuntime) (menuItem : MenuItem) : Rat :=
  match menuItem.Scene with
  | none => 1
  | some scene => if rt.sceneIsActive scene then 1 else cMenuItemDisableScale

/-- The body of the loop over the menu items (lines 336-381) for the menu item at position
`index`. -/
def updateMenuItem (rt : MenuRuntime) (s : MenuScene) (index : Nat) (menuItem : MenuItem)
    (hover : HoverState) : Outcome (MenuItem × HoverState) :=
  let shown : MenuItem :=
    { menuItem with Object := { menuItem.Object with visible := s.m_menuActionSetActive } }
  if shown.Space = XR_NULL_HANDLE then .returned (shown, hover)
  else
    let refreshed := refreshText rt shown
    let scaled : MenuItem :=
      { refreshed with Object := { refreshed.Object with Scale := menuItemScale rt refreshed } }
    match rt.xrLocateSpace scaled.Space rt.AppSpace with
    | .error _ => .thrown (scaled, hover)
    | .ok spaceLocation =>
      let posed : MenuItem :=
        if rt.IsPoseValid spaceLocation then
          { scaled with Object := { scaled.Object with Pose := spaceLocation.pose } }
        else scaled
      match rt.xrLocateSpace posed.Space s.m_leftPointerSpace with
      | .error _ => .thrown (posed, hover)
      | .ok leftLocation =>
        let left := updateClosest (rt.IsPoseValid leftLocation)
          (rt.MenuDistance leftLocation.pose.position) index posed.Object
          hover.leftDistance hover.leftClosestMenuItem
        let hoverLeft : HoverState :=
          { hover with leftDistance := left.2.1, leftClosestMenuItem := left.2.2 }
        match rt.xrLocateSpace posed.Space s.m_rightPointerSpace with
        | .error _ => .thrown ({ posed with Object := left.1 }, hoverLeft)
        | .ok rightLocation =>
          let right := updateClosest (rt.IsPoseValid rightLocation)
            (rt.MenuDistance rightLocation.pose.position) index left.1
            hover.rightDistance hover.rightClosestMenuItem
          .returned
            ({ posed with Object := right.1 },
             { hoverLeft with rightDistance := right.2.1, rightClosestMenuItem := right.2.2 })

/-- The loop over the menu items (lines 335-382), from the menu item at position `index`
on. -/
def updateMenuItems (rt : MenuRuntime) (s : MenuScene) :
    Nat → List MenuItem → HoverState → Outcome (List MenuItem × HoverState)
  | _, [], hover => .returned ([], hover)
  | index, menuItem :: rest, hover =>
    match updateMenuItem rt s index menuItem hover with
    | .thrown (menuItem1, hover1) => .thrown (menuItem1 :: rest, hover1)
    | .returned (menuItem1, hover1) =>
      match updateMenuItems rt s (index + 1) rest hover1 with
      | .returned (rest1, hover2) => .returned (menuItem1 :: rest1, hover2)
      | .thrown (rest1, hover2) => .thrown (menuItem1 :: rest1, hover2)

/-- The lambda `CheckMenuSelection(menuItem, hand)` (lines 384-411). Reading
`Context->Callback` through a null `Context` is logged and ends the update. -/
def CheckMenuSelection (rt : MenuRuntime) (s : MenuScene) (menuItem : MenuItem)
    (hand : XrPath) : Outcome MenuScene :=
  match rt.xrGetActionStateBoolean s.m_menuSelectAction hand with
  | .error _ => .thrown s
  | .ok menuSelectActionState =>
    if menuSelectActionState.changedSinceLastSync && menuSelectActionState.currentState then
      let fired : MenuScene :=
        { s with selections := s.selections ++ [selectionEffect rt.contextOf menuItem] }
      match selectionEffect rt.contextOf menuItem with
      | .nullDereference => .thrown fired
      | .callback c =>
        match rt.call c with
        | .error _ => .thrown fired
        | .ok _ =>
          match rt.xrApplyHapticFeedback s.m_hapticAction hand with
          | .error _ => .thrown fired
          | .ok _ => .returned fired
      | _ =>
        match rt.xrApplyHapticFeedback s.m_hapticAction hand with
        | .error _ => .thrown fired
        | .ok _ => .returned fired
    else .returned s

/-- Lines 414-416 and 419-421: the call of `CheckMenuSelection` for a closest menu item
that is not null. -/
def checkClosest (rt : MenuRuntime) (closest : Option Nat) (hand : XrPath) (s : MenuScene) :
    Outcome MenuScene :=
  match closest.bind fun index => s.m_menuItems[index]? with
  | some menuItem => CheckMenuSelection rt s menuItem hand
  | none => .returned s

/-- Lines 331-421 of `OnUpdate`: the loop over the menu items and the two selection
checks. -/
def menuItemsStage (rt : MenuRuntime) (s : MenuScene) : Outcome MenuScene :=
  match updateMenuItems rt s 0 s.m_menuItems HoverState.initial with
  | .thrown (items, _) => .thrown { s with m_menuItems := items }
  | .returned (items, hover) =>
    (checkClosest rt hover.leftClosestMenuItem rt.LeftHandPath
      { s with m_menuItems := items }).andThen
      (checkClosest rt hover.rightClosestMenuItem rt.RightHandPath)

/-- Lines 423-435 of `OnUpdate`: the two pointer objects. -/
def pointersStage (rt : MenuRuntime) (s : MenuScene) : Outcome MenuScene :=
  match updatePointerObjects rt.IsPoseValid s.m_menuActionSetActive
      (rt.xrLocateSpace s.m_leftPointerSpace rt.AppSpace)
      (rt.xrLocateSpace s.m_rightPointerSpace rt.AppSpace) s.pointerObjects with
  | .returned pointerObjects => .returned { s with pointerObjects := pointerObjects }
  | .thrown pointerObjects => .thrown { s with pointerObjects := pointerObjects }

/-- The method `MenuScene::OnUpdate` (lines 282-436). -/
def MenuScene.OnUpdate (rt : MenuRuntime) (s : MenuScene) : Outcome MenuScene :=
  (((toggleMenuStage rt s).andThen (createSpacesStage rt)).andThen (menuItemsStage rt)).andThen
    (pointersStage rt)

/-- The pointer-plane distance of a menu item for the pointer space of one hand, when the
item is placed (its `Space` is not null) and its location in that space is valid; `none`
otherwise. -/
def pointerDistance (rt : MenuRuntime) (pointerSpace : XrSpace) (menuItem : MenuItem) :
    Option Rat :=
  if menuItem.Space = XR_NULL_HANDLE then none
  else
    match rt.xrLocateSpace menuItem.Space pointerSpace with
    | .ok location =>
      if rt.IsPoseValid location then some (rt.MenuDistance location.pose.position) else none
    | .error _ => none

/-- The distance and the closest menu item of one hand after the item at position `index`
with the given pointer distance. -/
def closestStep (index : Nat) (dist : Option Rat) (acc : Rat × Option Nat) : Rat × Option Nat :=
  match dist with
  | none => acc
  | some d =>
    if d < acc.1 then (d, if d < cMenuObjectSize / 2 then some index else acc.2) else acc

/-- The distance and the closest menu item of one hand after the items from position
`index` on, given by their pointer distances. -/
def closestFold : Nat → List (Option Rat) → Rat × Option Nat → Rat × Option Nat
  | _, [], acc => acc
  | index, dist :: rest, acc => closestFold (index + 1) rest (closestStep index dist acc)

/-- A runtime for one update: both hands use a controller profile, the menu button was
just released and the select action was just pressed with the left hand; a created space
has the handle 100 plus the index of its menu item; in the left pointer space the menu
items lie at the distances 3/100, 1/100, 1/100 and 2/100, in the right pointer space at
1/2. All locations are valid and lie on the x axis, where `MenuDistance` is the absolute
value of x. -/
def sampleMenuRuntime : MenuRuntime :=
  { xrGetCurrentInteractionProfile := fun _ => .ok 7
    StringToPath := fun s => s.length
    LeftHandPath := 15
    RightHandPath := 16
    AppSpace := 1
    xrGetActionStateBoolean := fun action subactionPath =>
      if action = 1 then .ok { currentState := false, changedSinceLastSync := true }
      else .ok { currentState := true, changedSinceLastSync := subactionPath == 15 }
    xrLocateSpace := fun space baseSpace =>
      .ok
        { locationFlags := 3
          pose :=
            { orientation := (0, 0, 0, 1)
              position :=
                (if baseSpace = 10 then
                  (if space = 100 then 3 / 100 else if space = 103 then 2 / 100 else 1 / 100)
                 else if baseSpace = 11 then 1 / 2 else 0, 0, 0) } }
    xrDestroySpace := fun _ => .ok ()
    xrCreateReferenceSpace := fun index _ _ => .ok (100 + index)
    IsPoseValid := fun location => location.locationFlags == 3
    palmDirection := fun _ _ => -1
    MenuDistance := fun vec => if vec.1 < 0 then -vec.1 else vec.1
    sceneIsActive := fun _ => true
    contextOf := fun self => MenuContextScene.new self "Pause" none
    call := fun _ => .ok ()
    xrApplyHapticFeedback := fun _ _ => .ok () }

/-- A menu scene with a closed menu and four menu items that are not placed. -/
def sampleMenuScene : MenuScene :=
  { m_menuPlaneSpace := 2
    m_localSpace := 3
    m_viewSpace := 4
    m_menuItems :=
      sceneMenuItem sampleButtonObject 1
          { typeName := "struct sample::scenes::PauseScene"
            menuContext := some (MenuContextScene.new 1 "Pause" none) } ::
        nonSceneMenuItems sampleButtonObject
    m_menuActionSetActive := false
    m_menuToggleActionSetActive := true
    m_menuToggleAction := 1
    m_menuSelectAction := 2
    m_hapticAction := 3
    m_leftPointerSpace := 10
    m_rightPointerSpace := 11
    m_leftGripSpace := 12
    m_rightGripSpace := 13
    pointerObjects :=
      { m_leftPointerObject := { visible := false, pose := sampleButtonObject.Pose }
        m_rightPointerObject := { visible := false, pose := sampleButtonObject.Pose } }
    selections := [] }

/-- The four menu items of the sample scene, placed in the spaces 100 to 103. -/
def samplePlacedItems : List MenuItem :=
  (List.range 4).zip sampleMenuScene.m_menuItems |>.map fun entry =>
    { entry.2 with Space := 100 + entry.1 }

/-- The sample scene with an open menu whose four items are placed. -/
def sampleOpenMenuScene : MenuScene :=
  { sampleMenuScene with m_menuActionSetActive := true, m_menuItems := samplePlacedItems }

/-- The hover state after the loop over the placed sample items: the left pointer is
closest to the item at position 1, the right pointer to none. -/
def sampleHoverState : HoverState :=
  { leftDistance := 1 / 100
    rightDistance := 1 / 2
    leftClosestMenuItem := some 1
    rightClosestMenuItem := none }

/-- The placed sample items after the loop: the item at position 1 has the hover scale. -/
def sampleHoveredItems : List MenuItem :=
  (List.range 4).zip samplePlacedItems |>.map fun entry =>
    if entry.1 = 1 then
      { entry.2 with Object := { entry.2.Object with Scale := cMenuItemHoverScale } }
    else entry.2

/-- The sample scene after one update: the menu is open, the items are placed and shown,
the left hand selected the item at position 1, "Exit", and both pointers are shown. -/
def sampleUpdatedScene : MenuScene :=
  { sampleOpenMenuScene with
    m_menuItems := sampleHoveredItems
    pointerObjects :=
      { m_leftPointerObject := { visible := true, pose := sampleButtonObject.Pose }
        m_rightPointerObject := { visible := true, pose := sampleButtonObject.Pose } }
    selections := [.callback .RequestExitSession] }

/-- The relation between the scene before and after a part of an update that the safety of
the selection needs: the menu items keep their callbacks and contexts, and if every item
has a callback or a context, no entry added to the selection log is a null dereference. -/
def keepsHandlers (s t : MenuScene) : Prop :=
  t.m_menuItems.map (fun m => (m.Callback, m.Context)) =
    s.m_menuItems.map (fun m => (m.Callback, m.Context)) ∧
  ((∀ m ∈ s.m_menuItems, m.Callback.isSome ∨ m.Context.isSome) →
    ∀ e ∈ t.selections, e ∈ s.selections ∨ e ≠ .nullDereference)

/-! # Theorems -/

set_option maxRecDepth 100000

/-! ## StateChangeDetector -/

namespace StateChangeDetector

/-- After an `Update` the detector remembers the value the predicate just returned. -/
theorem Update_lastState (getState : XrTime → Bool) (d : StateChangeDetector) (time : XrTime) :
    (Update getState d time).1.m_lastState = some (getState time) := by
  unfold Update
  by_cases h : d.m_lastState = some (getState time)
  · simp [h]
  · cases hg : getState time <;> simp [hg] at h ⊢ <;> simp [h]

/-- With a remembered value `prev`, an `Update` invokes the callback once if `prev` is false
and the predicate returns true, and not at all otherwise. -/
theorem Update_count (getState : XrTime → Bool) (d : StateChangeDetector) (time : XrTime)
    (prev : Bool) (hd : d.m_lastState = some prev) :
    (Update getState d time).2 = if prev = false ∧ getState time = true then 1 else 0 := by
  unfold Update
  cases prev <;> cases hg : getState time <;> simp [hd]

theorem run_length (getState : XrTime → Bool) (times : List XrTime) (d : StateChangeDetector) :
    (run getState d times).2.length = times.length := by
  induction times generalizing d with
  | nil => simp [run]
  | cons t ts ih => simp [run, ih]

/-- The callback count of tick `i` of a run that starts with the remembered value `prev`. -/
theorem run_count (getState : XrTime → Bool) (times : List XrTime) :
    ∀ (d : StateChangeDetector) (prev : Bool) (i : Nat), d.m_lastState = some prev →
      i < times.length →
      (run getState d times).2.getD i 0 =
        if (if i = 0 then prev else getState (times.getD (i - 1) 0)) = false ∧
            getState (times.getD i 0) = true then 1 else 0 := by
  induction times with
  | nil => intro d prev i _ hi; simp at hi
  | cons t ts ih =>
    intro d prev i hd hi
    cases i with
    | zero => simp [run, Update_count getState d t prev hd]
    | succ j =>
      have hj : j < ts.length := by simpa using hi
      have h := ih (Update getState d t).1 (getState t) j (Update_lastState getState d t) hj
      simp only [run, List.getD_cons_succ, h]
      cases j with
      | zero => simp
      | succ k => simp

end StateChangeDetector

/-- The callback count of tick `i >= 1` of a newly constructed detector, for any predicate
and any time stamps. -/
theorem callbacks_at_tick (getState : XrTime → Bool) (times : List XrTime)
    (i : Nat) (h1 : 1 ≤ i) (h2 : i < times.length) :
    (StateChangeDetector.callbacks getState times).getD i 0 =
      if getState (times.getD (i - 1) 0) = false ∧ getState (times.getD i 0) = true
      then 1 else 0 := by
  cases times with
  | nil => simp at h2
  | cons t ts =>
    obtain ⟨j, rfl⟩ : ∃ j, i = j + 1 := ⟨i - 1, by omega⟩
    have hj : j < ts.length := by simpa using h2
    have h := StateChangeDetector.run_count getState ts
      (StateChangeDetector.Update getState StateChangeDetector.new t).1 (getState t) j
      (StateChangeDetector.Update_lastState getState _ t) hj
    simp only [StateChangeDetector.callbacks, StateChangeDetector.run, List.getD_cons_succ, h]
    cases j with
    | zero => simp
    | succ k => simp

/-- The predicate of a sequence returns the entry `i` of the sequence at tick `i`. -/
theorem sequencePredicate_tick (s : List Bool) (n i : Nat) (hi : i < n) :
    sequencePredicate s ((ticks n).getD i 0) = s.getD i false := by
  simp [sequencePredicate, ticks, List.getD_eq_getElem?_getD, List.getElem?_map,
    List.getElem?_range hi]

/-- C1. For every sequence `s` of values the predicate returns on successive `Update`
calls of a newly constructed detector, there is one callback count per tick, and at every
tick `i >= 1` the callback is invoked exactly once if `s[i-1]` is false and `s[i]` is
true, and is not invoked otherwise (falling edge, steady false, steady true). -/
theorem callback_once_per_rising_edge (s : List Bool) (i : Nat) (h1 : 1 ≤ i)
    (h2 : i < s.length) :
    (StateChangeDetector.callbacks (sequencePredicate s) (ticks s.length)).length = s.length ∧
    (StateChangeDetector.callbacks (sequencePredicate s) (ticks s.length)).getD i 0 =
      if s.getD (i - 1) false = false ∧ s.getD i false = true then 1 else 0 := by
  have hlen : (ticks s.length).length = s.length := by simp [ticks]
  refine ⟨by rw [StateChangeDetector.callbacks, StateChangeDetector.run_length, hlen], ?_⟩
  rw [callbacks_at_tick (sequencePredicate s) (ticks s.length) i h1 (by rw [hlen]; exact h2),
    sequencePredicate_tick s s.length i h2,
    sequencePredicate_tick s s.length (i - 1) (by omega)]

/-- C1, on the sequence false, false, true, true, false, true: the callback is invoked at
tick 2 and at tick 5, once each, and at no other tick. -/
theorem callback_once_per_rising_edge_witness :
    StateChangeDetector.callbacks (sequencePredicate [false, false, true, true, false, true])
        (ticks 6) = [0, 0, 1, 0, 0, 1] ∧
    StateChangeDetector.firedTicks (sequencePredicate [false, false, true, true, false, true])
        (ticks 6) = [2, 5] ∧
    (1 ≤ 2 ∧ 2 < [false, false, true, true, false, true].length) ∧
    (StateChangeDetector.callbacks (sequencePredicate [false, false, true, true, false, true])
        (ticks [false, false, true, true, false, true].length)).getD 2 0 =
      if [false, false, true, true, false, true].getD (2 - 1) false = false ∧
          [false, false, true, true, false, true].getD 2 false = true
      then 1 else 0 :=
  ⟨by decide, by decide, by decide,
    (callback_once_per_rising_edge [false, false, true, true, false, true] 2
      (by decide) (by decide)).2⟩

/-- C2, as stated, fails: on the first `Update` of a newly constructed detector whose
predicate returns true the callback is invoked once. -/
theorem first_update_true_invokes_callback :
    (StateChangeDetector.Update (fun _ => true) StateChangeDetector.new 0).2 = 1 ∧
    StateChangeDetector.callbacks (sequencePredicate [true]) (ticks 1) = [1] := by
  decide

/-- C2, amended. On the first `Update` of a newly constructed detector (last state unset)
the callback is invoked once if the predicate returns true and not at all if it returns
false; in both cases the value returned becomes the remembered state. -/
theorem first_update_fires_iff_true (getState : XrTime → Bool) (time : XrTime) :
    StateChangeDetector.Update getState StateChangeDetector.new time =
      (⟨some (getState time)⟩, if getState time = true then 1 else 0) := by
  unfold StateChangeDetector.Update StateChangeDetector.new
  cases h : getState time <;> simp

/-! ## The binding table compiler -/

theorem wildcardPrefixes_hand (side : Nat) (hs : side = Side.Left ∨ side = Side.Right) :
    wildcardPrefixes side = ["/user/hand/left", "/user/hand/right"] := by
  simp [wildcardPrefixes, hs]

theorem wildcardPrefixes_tracker (side : Nat) (hs : ¬ (side = Side.Left ∨ side = Side.Right))
    (role : String) (hr : UserTrackerPath[side - Side.Count]? = some role) :
    wildcardPrefixes side = [role] := by
  simp [wildcardPrefixes, hs, hr]

theorem handBinding_apply (side : Nat) (hs : side = Side.Left ∨ side = Side.Right)
    (action : XrAction) (m : BindingMap) (b : ActionBinding) (q : String) :
    handBinding action m b q =
      m q ++ (if b.interactionProfile = q then specEntries side action b else []) := by
  unfold handBinding specEntries
  rw [wildcardPrefixes_hand side hs]
  cases hb : b.subactionPath with
  | none =>
    by_cases hq : b.interactionProfile = q
    · subst hq; simp [BindingMap.pushBack]
    · have hq2 : ¬ q = b.interactionProfile := fun h => hq h.symm
      simp [BindingMap.pushBack, hq, hq2]
  | some s =>
    by_cases hq : b.interactionProfile = q
    · subst hq; simp [BindingMap.pushBack]
    · have hq2 : ¬ q = b.interactionProfile := fun h => hq h.symm
      simp [BindingMap.pushBack, hq, hq2]

theorem trackerBinding_eq (side : Nat) (hs : ¬ (side = Side.Left ∨ side = Side.Right))
    (role : String) (hr : UserTrackerPath[side - Side.Count]? = some role)
    (action : XrAction) (m : BindingMap) (b : ActionBinding) :
    trackerBinding side action m b =
      some (fun q => m q ++ (if b.interactionProfile = q then specEntries side action b else [])) := by
  unfold trackerBinding specEntries
  rw [wildcardPrefixes_tracker side hs role hr, hr]
  cases hb : b.subactionPath with
  | none =>
    simp only [Option.some.injEq]
    funext q
    by_cases hq : b.interactionProfile = q
    · subst hq; simp [BindingMap.pushBack]
    · have hq2 : ¬ q = b.interactionProfile := fun h => hq h.symm
      simp [BindingMap.pushBack, hq, hq2]
  | some s =>
    simp only [Option.some.injEq]
    funext q
    by_cases hq : b.interactionProfile = q
    · subst hq; simp [BindingMap.pushBack]
    · have hq2 : ¬ q = b.interactionProfile := fun h => hq h.symm
      simp [BindingMap.pushBack, hq, hq2]

/-- The entries the bindings of one action add to the list of a profile. -/
theorem handBindings_foldl (side : Nat) (hs : side = Side.Left ∨ side = Side.Right)
    (action : XrAction) (bs : List ActionBinding) (m : BindingMap) (q : String) :
    bs.foldl (handBinding action) m q =
      m q ++ (bs.filter fun b => decide (b.interactionProfile = q)).flatMap
        (specEntries side action) := by
  induction bs generalizing m with
  | nil => simp
  | cons b bs ih =>
    rw [List.foldl_cons, ih, handBinding_apply side hs]
    by_cases hq : b.interactionProfile = q <;> simp [List.filter_cons, hq]

theorem trackerBindings_foldlM (side : Nat) (hs : ¬ (side = Side.Left ∨ side = Side.Right))
    (role : String) (hr : UserTrackerPath[side - Side.Count]? = some role)
    (action : XrAction) (bs : List ActionBinding) (m : BindingMap) :
    bs.foldlM (trackerBinding side action) m =
      some (fun q => m q ++ (bs.filter fun b => decide (b.interactionProfile = q)).flatMap
        (specEntries side action)) := by
  induction bs generalizing m with
  | nil => simp
  | cons b bs ih =>
    rw [List.foldlM_cons, trackerBinding_eq side hs role hr]
    simp only [Option.bind_eq_bind, Option.some_bind]
    rw [ih]
    simp only [Option.some.injEq]
    funext q
    by_cases hq : b.interactionProfile = q <;> simp [List.filter_cons, hq]

theorem compileHand_foldl (side : Nat) (hs : side = Side.Left ∨ side = Side.Right)
    (actions : List ActionInfo) (m : BindingMap) (q : String) :
    actions.foldl
      (fun m actionInfo => actionInfo.actionBindings.foldl (handBinding actionInfo.action) m)
      m q = m q ++ specCompile side actions q := by
  induction actions generalizing m with
  | nil => simp [specCompile]
  | cons a as ih =>
    rw [List.foldl_cons, ih, handBindings_foldl side hs]
    simp [specCompile]

theorem compileTracker_foldlM (side : Nat) (hs : ¬ (side = Side.Left ∨ side = Side.Right))
    (role : String) (hr : UserTrackerPath[side - Side.Count]? = some role)
    (actions : List ActionInfo) (m : BindingMap) :
    actions.foldlM
      (fun m actionInfo =>
        actionInfo.actionBindings.foldlM (trackerBinding side actionInfo.action) m)
      m = some (fun q => m q ++ specCompile side actions q) := by
  induction actions generalizing m with
  | nil => simp [specCompile]
  | cons a as ih =>
    rw [List.foldlM_cons, trackerBindings_foldlM side hs role hr]
    simp only [Option.bind_eq_bind, Option.some_bind]
    rw [ih]
    simp [specCompile]

/-- A side of `m_controllerData` that is not a hand has a tracker role. -/
theorem tracker_role_exists (side : Nat) (hlt : side < controllerDataSize) :
    ∃ role, UserTrackerPath[side - Side.Count]? = some role := by
  have h : side - Side.Count < UserTrackerPath.length := by
    simp [controllerDataSize, Side.Count, UserTrackerPath] at *
    omega
  exact ⟨UserTrackerPath[side - Side.Count], List.getElem?_eq_getElem h⟩

/-- The map compiled by the two loops of either branch holds, under each profile, the list
the compiler's description gives. -/
theorem compileBindings_eq_spec (side : Nat) (hlt : side < controllerDataSize)
    (actions : List ActionInfo) :
    compileBindings side actions = some (specCompile side actions) := by
  unfold compileBindings
  by_cases hs : side = Side.Left ∨ side = Side.Right
  · rw [if_pos hs]
    congr 1
    funext q
    simp [compileHandBindings, compileHand_foldl side hs, BindingMap.empty]
  · rw [if_neg hs]
    obtain ⟨role, hr⟩ := tracker_role_exists side hlt
    simp [compileTrackerBindings, compileTracker_foldlM side hs role hr, BindingMap.empty]

theorem specCompile_append (side : Nat) (xs ys : List ActionInfo) (q : String) :
    specCompile side (xs ++ ys) q = specCompile side xs q ++ specCompile side ys q := by
  simp [specCompile]

/-- Splitting the compiled list of a profile at one binding of one action. -/
theorem specCompile_split (side : Nat) (pre post : List ActionInfo) (a : ActionInfo)
    (bpre bpost : List ActionBinding) (b : ActionBinding)
    (ha : a.actionBindings = bpre ++ b :: bpost) (q : String) :
    specCompile side (pre ++ a :: post) q =
      specCompile side (pre ++ [{ a with actionBindings := bpre }]) q ++
        (if b.interactionProfile = q then specEntries side a.action b else []) ++
        specCompile side ({ a with actionBindings := bpost } :: post) q := by
  rw [specCompile_append, specCompile_append]
  by_cases hq : b.interactionProfile = q <;>
    simp [specCompile, ha, List.filter_cons, hq]

/-- The map compiled by a pass, split at one binding: what the bindings before it
compile to, then the entries of the binding under its own profile, then what the bindings
after it compile to. -/
theorem compileBindings_split (side : Nat) (hlt : side < controllerDataSize)
    (pre post : List ActionInfo) (a : ActionInfo)
    (bpre bpost : List ActionBinding) (b : ActionBinding)
    (ha : a.actionBindings = bpre ++ b :: bpost) :
    ∃ m before after : BindingMap,
      compileBindings side (pre ++ a :: post) = some m ∧
      compileBindings side (pre ++ [{ a with actionBindings := bpre }]) = some before ∧
      compileBindings side ({ a with actionBindings := bpost } :: post) = some after ∧
      ∀ q, m q = before q ++
        (if b.interactionProfile = q then specEntries side a.action b else []) ++ after q :=
  ⟨_, _, _, compileBindings_eq_spec side hlt _, compileBindings_eq_spec side hlt _,
    compileBindings_eq_spec side hlt _, specCompile_split side pre post a bpre bpost b ha⟩

/-- The calls made by `InitializeSuggestBindings` in closed form. -/
theorem InitializeSuggestBindings_eq (side : Nat) (hlt : side < controllerDataSize)
    (actions : List ActionInfo) :
    InitializeSuggestBindings side actions = some
      (if side = Side.Left ∨ side = Side.Right then
        [⟨InteractionProfiles.SimpleController,
            specCompile side actions InteractionProfiles.SimpleController⟩,
         ⟨InteractionProfiles.MotionController,
            specCompile side actions InteractionProfiles.MotionController⟩,
         ⟨InteractionProfiles.TouchController,
            specCompile side actions InteractionProfiles.TouchController⟩,
         ⟨InteractionProfiles.ViveController,
            specCompile side actions InteractionProfiles.ViveController⟩,
         ⟨InteractionProfiles.IndexController,
            specCompile side actions InteractionProfiles.IndexController⟩]
      else
        [⟨InteractionProfiles.ViveTracker,
            specCompile side actions InteractionProfiles.ViveTracker⟩]) := by
  have h := compileBindings_eq_spec side hlt actions
  unfold compileBindings at h
  unfold InitializeSuggestBindings
  by_cases hs : side = Side.Left ∨ side = Side.Right
  · rw [if_pos hs] at h
    rw [if_pos hs, if_pos hs]
    have h2 : compileHandBindings actions = specCompile side actions := Option.some.inj h
    simp [h2]
  · rw [if_neg hs] at h
    rw [if_neg hs, if_neg hs, h]

/-- Two texts that differ within their first `n` characters stay different whatever is
appended to them. -/
theorem append_ne_of_take_ne (n : Nat) (p t x r : String)
    (hp : n ≤ p.data.length) (ht : n ≤ t.data.length)
    (hne : p.data.take n ≠ t.data.take n) : p ++ x ≠ t ++ r := by
  intro h
  have h2 := congrArg (fun s : String => s.data.take n) h
  simp only [String.data_append] at h2
  rw [List.take_append_of_le_length hp, List.take_append_of_le_length ht] at h2
  exact hne h2

theorem hand_not_tracker (hp : String) (hh : hp ∈ UserHandPath)
    (t : String) (ht : t ∈ UserTrackerPath) (x r : String) : hp ++ x ≠ t ++ r := by
  simp only [UserHandPath, UserTrackerPath, List.mem_cons, List.mem_singleton,
    List.not_mem_nil, or_false] at hh ht
  rcases hh with rfl | rfl <;>
    rcases ht with rfl | rfl | rfl | rfl | rfl | rfl | rfl | rfl | rfl | rfl | rfl | rfl | rfl <;>
    exact append_ne_of_take_ne 7 _ _ _ _ (by decide) (by decide) (by decide)

/-- C3. For every action list, every pass (hand context, sides 0 and 1, and tracker
context, sides 2 to 14) and every binding entry `b` of an action `a` with an explicit
subaction path `s`: the list compiled for the entry's interaction profile is the list
compiled from the entries before `b`, then exactly one entry for `b`, bound to `a.action`
with path `s + "/input/" + componentPath`, then the list compiled from the entries after
`b`; the list of every other profile receives nothing for `b`. -/
theorem explicit_binding_compiles_to_one_entry (side : Nat) (hlt : side < controllerDataSize)
    (pre post : List ActionInfo) (a : ActionInfo)
    (bpre bpost : List ActionBinding) (b : ActionBinding) (s : String)
    (ha : a.actionBindings = bpre ++ b :: bpost) (hb : b.subactionPath = some s) :
    ∃ m before after : BindingMap,
      compileBindings side (pre ++ a :: post) = some m ∧
      compileBindings side (pre ++ [{ a with actionBindings := bpre }]) = some before ∧
      compileBindings side ({ a with actionBindings := bpost } :: post) = some after ∧
      m b.interactionProfile =
        before b.interactionProfile ++ [⟨a.action, s ++ "/input/" ++ b.componetPath⟩] ++
          after b.interactionProfile ∧
      ∀ q, q ≠ b.interactionProfile → m q = before q ++ after q := by
  obtain ⟨m, before, after, h1, h2, h3, h4⟩ :=
    compileBindings_split side hlt pre post a bpre bpost b ha
  refine ⟨m, before, after, h1, h2, h3, ?_, ?_⟩
  · rw [h4]; simp [specEntries, hb]
  · intro q hq
    have hq2 : ¬ b.interactionProfile = q := fun h => hq h.symm
    rw [h4]; simp [hq2]

/-- C3, at the explicit binding of action "x" to the touch controller, between the
wildcard binding of "select" and the bindings of "menu", in the pass of the right hand. -/
theorem explicit_binding_compiles_to_one_entry_witness :
    ∃ m before after : BindingMap,
      compileBindings 1
        ([⟨1, "select", .XR_ACTION_TYPE_BOOLEAN_INPUT,
            [⟨InteractionProfiles.SimpleController, "select/click", none⟩]⟩] ++
          (⟨2, "x", .XR_ACTION_TYPE_BOOLEAN_INPUT,
            [⟨InteractionProfiles.TouchController, "x/click", some "/user/hand/left"⟩]⟩ : ActionInfo) ::
          [⟨3, "menu", .XR_ACTION_TYPE_BOOLEAN_INPUT,
            [⟨InteractionProfiles.TouchController, "menu/click", some "/user/hand/left"⟩]⟩]) = some m ∧
      compileBindings 1
        ([⟨1, "select", .XR_ACTION_TYPE_BOOLEAN_INPUT,
            [⟨InteractionProfiles.SimpleController, "select/click", none⟩]⟩] ++
          [⟨2, "x", .XR_ACTION_TYPE_BOOLEAN_INPUT, []⟩]) = some before ∧
      compileBindings 1
        ((⟨2, "x", .XR_ACTION_TYPE_BOOLEAN_INPUT, []⟩ : ActionInfo) ::
          [⟨3, "menu", .XR_ACTION_TYPE_BOOLEAN_INPUT,
            [⟨InteractionProfiles.TouchController, "menu/click", some "/user/hand/left"⟩]⟩]) = some after ∧
      m InteractionProfiles.TouchController =
        before InteractionProfiles.TouchController ++
          [⟨2, "/user/hand/left" ++ "/input/" ++ "x/click"⟩] ++
          after InteractionProfiles.TouchController ∧
      ∀ q, q ≠ InteractionProfiles.TouchController → m q = before q ++ after q :=
  explicit_binding_compiles_to_one_entry 1 (by decide)
    [⟨1, "select", .XR_ACTION_TYPE_BOOLEAN_INPUT,
      [⟨InteractionProfiles.SimpleController, "select/click", none⟩]⟩]
    [⟨3, "menu", .XR_ACTION_TYPE_BOOLEAN_INPUT,
      [⟨InteractionProfiles.TouchController, "menu/click", some "/user/hand/left"⟩]⟩]
    ⟨2, "x", .XR_ACTION_TYPE_BOOLEAN_INPUT,
      [⟨InteractionProfiles.TouchController, "x/click", some "/user/hand/left"⟩]⟩
    [] [] ⟨InteractionProfiles.TouchController, "x/click", some "/user/hand/left"⟩
    "/user/hand/left" rfl rfl

/-- C4, as stated, fails when Vive trackers are supported. The action "select" is then
created with 15 subaction paths and has a wildcard binding to the simple controller, but
the list compiled for that profile holds two entries of the action in a hand pass and one
in a tracker pass, and all the calls of the constructor for that profile together hold
four, none of them for a tracker role. -/
theorem wildcard_not_expanded_to_declared_subaction_paths :
    (allSubactionPaths true).length = 15 ∧
    (CreateActions indexCreateAction true false).head? =
      some ⟨1, "select", .XR_ACTION_TYPE_BOOLEAN_INPUT,
        [⟨InteractionProfiles.SimpleController, "select/click", none⟩]⟩ ∧
    (compileBindings Side.Left (CreateActions indexCreateAction true false)).map
        (fun m => (m InteractionProfiles.SimpleController).filter fun e => e.action = 1) =
      some [⟨1, "/user/hand/left/input/select/click"⟩,
            ⟨1, "/user/hand/right/input/select/click"⟩] ∧
    (compileBindings 2 (CreateActions indexCreateAction true false)).map
        (fun m => (m InteractionProfiles.SimpleController).filter fun e => e.action = 1) =
      some [⟨1, "/user/vive_tracker_htcx/role/handheld_object/input/select/click"⟩] ∧
    (constructorSuggestCalls indexCreateAction true false).map
        (fun calls =>
          ((calls.filter fun c => c.interactionProfile = InteractionProfiles.SimpleController).flatMap
            fun c => c.suggestedBindings).filter fun e => e.action = 1) =
      some [⟨1, "/user/hand/left/input/select/click"⟩,
            ⟨1, "/user/hand/right/input/select/click"⟩,
            ⟨1, "/user/hand/left/input/select/click"⟩,
            ⟨1, "/user/hand/right/input/select/click"⟩] := by
  decide

/-- C4, amended. For every action list and every wildcard binding `b` (null subaction path)
of an action `a`, whatever subaction paths the action was created with: in a hand pass
(side 0 or 1) the list compiled for the profile of `b` receives for `b` exactly the two
entries `(a.action, "/user/hand/left/input/" + component)` and
`(a.action, "/user/hand/right/input/" + component)`, in a tracker pass (sides 2 to 14)
exactly the one entry `(a.action, UserTrackerPath[side - 2] + "/input/" + component)`; the
lists of the other profiles receive nothing for `b`. -/
theorem wildcard_binding_expands_by_pass_context (side : Nat) (hlt : side < controllerDataSize)
    (pre post : List ActionInfo) (a : ActionInfo)
    (bpre bpost : List ActionBinding) (b : ActionBinding)
    (ha : a.actionBindings = bpre ++ b :: bpost) (hb : b.subactionPath = none) :
    ∃ (m before after : BindingMap) (expansion : List SuggestedBinding),
      compileBindings side (pre ++ a :: post) = some m ∧
      compileBindings side (pre ++ [{ a with actionBindings := bpre }]) = some before ∧
      compileBindings side ({ a with actionBindings := bpost } :: post) = some after ∧
      m b.interactionProfile =
        before b.interactionProfile ++ expansion ++ after b.interactionProfile ∧
      (∀ q, q ≠ b.interactionProfile → m q = before q ++ after q) ∧
      (side = Side.Left ∨ side = Side.Right →
        expansion = [⟨a.action, "/user/hand/left/input/" ++ b.componetPath⟩,
                     ⟨a.action, "/user/hand/right/input/" ++ b.componetPath⟩]) ∧
      (¬ (side = Side.Left ∨ side = Side.Right) →
        ∃ role, UserTrackerPath[side - Side.Count]? = some role ∧
          expansion = [⟨a.action, role ++ "/input/" ++ b.componetPath⟩]) := by
  obtain ⟨m, before, after, h1, h2, h3, h4⟩ :=
    compileBindings_split side hlt pre post a bpre bpost b ha
  refine ⟨m, before, after, specEntries side a.action b, h1, h2, h3, ?_, ?_, ?_, ?_⟩
  · rw [h4]; simp
  · intro q hq
    have hq2 : ¬ b.interactionProfile = q := fun h => hq h.symm
    rw [h4]; simp [hq2]
  · intro hs
    simp [specEntries, hb, wildcardPrefixes_hand side hs]
  · intro hs
    obtain ⟨role, hr⟩ := tracker_role_exists side hlt
    exact ⟨role, hr, by simp [specEntries, hb, wildcardPrefixes_tracker side hs role hr]⟩

/-- C4, amended, at the wildcard binding of "trigger_click" to the Vive tracker profile in
the pass of the first tracker role (side 2). -/
theorem wildcard_binding_expands_by_pass_context_witness :
    ∃ (m before after : BindingMap) (expansion : List SuggestedBinding),
      compileBindings 2
        ([] ++ (⟨3, "trigger_click", .XR_ACTION_TYPE_BOOLEAN_INPUT,
            [⟨InteractionProfiles.ViveTracker, "trigger/click", none⟩]⟩ : ActionInfo) :: []) = some m ∧
      compileBindings 2
        ([] ++ [⟨3, "trigger_click", .XR_ACTION_TYPE_BOOLEAN_INPUT, []⟩]) = some before ∧
      compileBindings 2
        ((⟨3, "trigger_click", .XR_ACTION_TYPE_BOOLEAN_INPUT, []⟩ : ActionInfo) :: []) = some after ∧
      m InteractionProfiles.ViveTracker =
        before InteractionProfiles.ViveTracker ++ expansion ++ after InteractionProfiles.ViveTracker ∧
      (∀ q, q ≠ InteractionProfiles.ViveTracker → m q = before q ++ after q) ∧
      ((2 : Nat) = Side.Left ∨ (2 : Nat) = Side.Right →
        expansion = [⟨3, "/user/hand/left/input/" ++ "trigger/click"⟩,
                     ⟨3, "/user/hand/right/input/" ++ "trigger/click"⟩]) ∧
      (¬ ((2 : Nat) = Side.Left ∨ (2 : Nat) = Side.Right) →
        ∃ role, UserTrackerPath[2 - Side.Count]? = some role ∧
          expansion = [⟨3, role ++ "/input/" ++ "trigger/click"⟩]) :=
  wildcard_binding_expands_by_pass_context 2 (by decide) [] []
    ⟨3, "trigger_click", .XR_ACTION_TYPE_BOOLEAN_INPUT,
      [⟨InteractionProfiles.ViveTracker, "trigger/click", none⟩]⟩
    [] [] ⟨InteractionProfiles.ViveTracker, "trigger/click", none⟩ rfl rfl

/-- C5. In a hand pass, for the action list that holds only the boolean action "select"
with its single wildcard binding to the simple controller (the first `addAction` call of
`CreateActions`), the list submitted for `/interaction_profiles/khr/simple_controller`
has exactly the two entries of that action with the paths
`/user/hand/left/input/select/click` and `/user/hand/right/input/select/click`. -/
theorem select_compiles_to_both_hands (side : Nat) (hs : side = Side.Left ∨ side = Side.Right)
    (action : XrAction) :
    buttonActionDecls.head? =
      some ⟨"select", .XR_ACTION_TYPE_BOOLEAN_INPUT,
        [⟨"/interaction_profiles/khr/simple_controller", "select/click", none⟩]⟩ ∧
    ∃ calls, InitializeSuggestBindings side
        [⟨action, "select", .XR_ACTION_TYPE_BOOLEAN_INPUT,
          [⟨"/interaction_profiles/khr/simple_controller", "select/click", none⟩]⟩] = some calls ∧
      calls.filter (fun c => c.interactionProfile = "/interaction_profiles/khr/simple_controller") =
        [⟨"/interaction_profiles/khr/simple_controller",
          [⟨action, "/user/hand/left/input/select/click"⟩,
           ⟨action, "/user/hand/right/input/select/click"⟩]⟩] := by
  refine ⟨by decide, ?_⟩
  simp [InitializeSuggestBindings, hs, compileHandBindings, handBinding, BindingMap.pushBack,
    BindingMap.empty, InteractionProfiles.SimpleController, InteractionProfiles.MotionController,
    InteractionProfiles.TouchController, InteractionProfiles.ViveController,
    InteractionProfiles.IndexController, List.filter_cons]

/-- C5, in the pass of the left hand, for the action handle 1. -/
theorem select_compiles_to_both_hands_witness :
    ∃ calls, InitializeSuggestBindings 0
        [⟨1, "select", .XR_ACTION_TYPE_BOOLEAN_INPUT,
          [⟨"/interaction_profiles/khr/simple_controller", "select/click", none⟩]⟩] = some calls ∧
      calls.filter (fun c => c.interactionProfile = "/interaction_profiles/khr/simple_controller") =
        [⟨"/interaction_profiles/khr/simple_controller",
          [⟨1, "/user/hand/left/input/select/click"⟩,
           ⟨1, "/user/hand/right/input/select/click"⟩]⟩] :=
  (select_compiles_to_both_hands 0 (Or.inl rfl) 1).2

/-- C6. For every action list and every wildcard binding: in a hand pass (side 0 or 1)
every path compiled from the binding starts with `/user/hand/left` or `/user/hand/right`
and with no tracker-role path; in a tracker pass (sides 2 to 14) every path compiled from
the binding starts with the role path of that side, `UserTrackerPath[side - 2]`, and with
no hand path. The binding does compile to at least one path. -/
theorem wildcard_paths_stay_in_pass_context (side : Nat) (hlt : side < controllerDataSize)
    (pre post : List ActionInfo) (a : ActionInfo)
    (bpre bpost : List ActionBinding) (b : ActionBinding)
    (ha : a.actionBindings = bpre ++ b :: bpost) (hb : b.subactionPath = none) :
    ∃ (m before after : BindingMap) (produced : List SuggestedBinding),
      compileBindings side (pre ++ a :: post) = some m ∧
      compileBindings side (pre ++ [{ a with actionBindings := bpre }]) = some before ∧
      compileBindings side ({ a with actionBindings := bpost } :: post) = some after ∧
      (∀ q, m q = before q ++ (if b.interactionProfile = q then produced else []) ++ after q) ∧
      produced ≠ [] ∧
      (side = Side.Left ∨ side = Side.Right →
        ∀ e ∈ produced,
          (StartsWith "/user/hand/left" e.path ∨ StartsWith "/user/hand/right" e.path) ∧
          ∀ t ∈ UserTrackerPath, ¬ StartsWith t e.path) ∧
      (¬ (side = Side.Left ∨ side = Side.Right) →
        ∀ e ∈ produced,
          (∃ role, UserTrackerPath[side - Side.Count]? = some role ∧ StartsWith role e.path) ∧
          ∀ h ∈ UserHandPath, ¬ StartsWith h e.path) := by
  obtain ⟨m, before, after, h1, h2, h3, h4⟩ :=
    compileBindings_split side hlt pre post a bpre bpost b ha
  refine ⟨m, before, after, specEntries side a.action b, h1, h2, h3, h4, ?_, ?_, ?_⟩
  · by_cases hs : side = Side.Left ∨ side = Side.Right
    · simp [specEntries, hb, wildcardPrefixes_hand side hs]
    · obtain ⟨role, hr⟩ := tracker_role_exists side hlt
      simp [specEntries, hb, wildcardPrefixes_tracker side hs role hr]
  · intro hs e he
    simp only [specEntries, hb, wildcardPrefixes_hand side hs, List.map_cons, List.map_nil,
      List.mem_cons, List.mem_singleton, List.not_mem_nil, or_false] at he
    rcases he with rfl | rfl
    · refine ⟨Or.inl ⟨"/input/" ++ b.componetPath, String.append_assoc _ _ _⟩, ?_⟩
      rintro t ht ⟨rest, hrest⟩
      rw [String.append_assoc] at hrest
      exact hand_not_tracker "/user/hand/left" (by simp [UserHandPath]) t ht _ _ hrest
    · refine ⟨Or.inr ⟨"/input/" ++ b.componetPath, String.append_assoc _ _ _⟩, ?_⟩
      rintro t ht ⟨rest, hrest⟩
      rw [String.append_assoc] at hrest
      exact hand_not_tracker "/user/hand/right" (by simp [UserHandPath]) t ht _ _ hrest
  · intro hs e he
    obtain ⟨role, hr⟩ := tracker_role_exists side hlt
    simp only [specEntries, hb, wildcardPrefixes_tracker side hs role hr, List.map_cons,
      List.map_nil, List.mem_singleton] at he
    subst he
    refine ⟨⟨role, hr, "/input/" ++ b.componetPath, String.append_assoc _ _ _⟩, ?_⟩
    rintro h hh ⟨rest, hrest⟩
    simp only [String.append_assoc] at hrest
    exact hand_not_tracker h hh role (List.mem_iff_getElem?.mpr ⟨_, hr⟩) _ _ hrest.symm

/-- C6, at the wildcard binding of "trigger_click" to the Vive tracker profile in the pass
of the tracker role "waist" (side 11). -/
theorem wildcard_paths_stay_in_pass_context_witness :
    ∃ (m : BindingMap) (produced : List SuggestedBinding),
      compileBindings 11
        ([] ++ (⟨3, "trigger_click", .XR_ACTION_TYPE_BOOLEAN_INPUT,
            [⟨InteractionProfiles.ViveTracker, "trigger/click", none⟩]⟩ : ActionInfo) :: []) =
          some m ∧
      produced ≠ [] ∧
      ∀ e ∈ produced,
        (∃ role, UserTrackerPath[11 - Side.Count]? = some role ∧ StartsWith role e.path) ∧
        ∀ h ∈ UserHandPath, ¬ StartsWith h e.path := by
  obtain ⟨m, _, _, produced, h1, _, _, _, h5, _, h7⟩ :=
    wildcard_paths_stay_in_pass_context 11 (by decide) [] []
      ⟨3, "trigger_click", .XR_ACTION_TYPE_BOOLEAN_INPUT,
        [⟨InteractionProfiles.ViveTracker, "trigger/click", none⟩]⟩
      [] [] ⟨InteractionProfiles.ViveTracker, "trigger/click", none⟩ rfl rfl
  exact ⟨m, produced, h1, h5, h7 (by decide)⟩

/-- The calls of one pass: every profile of the pass, each with the list compiled for it. -/
theorem InitializeSuggestBindings_calls (side : Nat) (hlt : side < controllerDataSize)
    (actions : List ActionInfo) :
    InitializeSuggestBindings side actions =
      some ((passProfiles side).map fun p => ⟨p, specCompile side actions p⟩) := by
  rw [InitializeSuggestBindings_eq side hlt]
  by_cases hs : side = Side.Left ∨ side = Side.Right <;> simp [passProfiles, hs]

/-- The calls of the per-side loop of the constructor over a list of sides. -/
theorem suggestCalls_foldlM (actions : List ActionInfo) (sides : List Nat)
    (hs : ∀ s ∈ sides, s < controllerDataSize) (acc : List SuggestCall) :
    sides.foldlM
        (fun calls side => (InitializeSuggestBindings side actions).map fun cs => calls ++ cs)
        acc =
      some (acc ++ sides.flatMap fun side =>
        (passProfiles side).map fun p => ⟨p, specCompile side actions p⟩) := by
  induction sides generalizing acc with
  | nil => simp
  | cons s ss ih =>
    have h1 : s < controllerDataSize := hs s (by simp)
    have h2 : ∀ t ∈ ss, t < controllerDataSize := fun t ht => hs t (by simp [ht])
    rw [List.foldlM_cons, InitializeSuggestBindings_calls s h1]
    simp only [Option.map_some', Option.bind_eq_bind, Option.some_bind]
    rw [ih h2]
    simp

theorem constructorSuggestCalls_eq
    (createAction : String → XrActionType → List String → XrAction)
    (supportsViveTrackers supportsPalmPose : Bool) :
    constructorSuggestCalls createAction supportsViveTrackers supportsPalmPose =
      some ((List.range (upperBound supportsViveTrackers)).flatMap fun side =>
        (passProfiles side).map fun p =>
          ⟨p, specCompile side
            (CreateActions createAction supportsViveTrackers supportsPalmPose) p⟩) := by
  unfold constructorSuggestCalls
  have hb : ∀ s ∈ List.range (upperBound supportsViveTrackers), s < controllerDataSize := by
    intro s hs
    have := List.mem_range.mp hs
    cases supportsViveTrackers <;>
      simp [upperBound, controllerDataSize, Side.Count, UserTrackerPath] at * <;> omega
  simpa using suggestCalls_foldlM _ _ hb []

/-- C7, as stated, fails: over the per-side loop of the constructor, without Vive tracker
support, the calls of `SuggestInteractionProfileBindings` name the simple controller
profile twice (once per hand side), so the submitted profile identifiers are not pairwise
distinct. -/
theorem constructor_submits_hand_profiles_twice :
    ∃ calls, constructorSuggestCalls indexCreateAction false false = some calls ∧
      calls.map (fun c => c.interactionProfile) =
        ["/interaction_profiles/khr/simple_controller",
         "/interaction_profiles/microsoft/motion_controller",
         "/interaction_profiles/oculus/touch_controller",
         "/interaction_profiles/htc/vive_controller",
         "/interaction_profiles/valve/index_controller",
         "/interaction_profiles/khr/simple_controller",
         "/interaction_profiles/microsoft/motion_controller",
         "/interaction_profiles/oculus/touch_controller",
         "/interaction_profiles/htc/vive_controller",
         "/interaction_profiles/valve/index_controller"] ∧
      ¬ (calls.map fun c => c.interactionProfile).Nodup := by
  refine ⟨_, constructorSuggestCalls_eq _ _ _, by decide, by decide⟩

/-- C7, amended. For either value of `SupportsViveTrackers` and of `SupportsPalmPose`, a
run of the constructor makes one `InitializeSuggestBindings` pass per side, and each pass
submits every profile of its branch once: the five hand profiles are submitted once in
the pass of the left hand and once in the pass of the right hand, twice each in all, and
the Vive tracker profile is submitted once per tracker side, thirteen times with tracker
support and never without. -/
theorem constructor_submits_once_per_side_pass
    (createAction : String → XrActionType → List String → XrAction)
    (supportsViveTrackers supportsPalmPose : Bool) :
    ∃ calls,
      constructorSuggestCalls createAction supportsViveTrackers supportsPalmPose = some calls ∧
      calls.map (fun c => c.interactionProfile) =
        ["/interaction_profiles/khr/simple_controller",
         "/interaction_profiles/microsoft/motion_controller",
         "/interaction_profiles/oculus/touch_controller",
         "/interaction_profiles/htc/vive_controller",
         "/interaction_profiles/valve/index_controller",
         "/interaction_profiles/khr/simple_controller",
         "/interaction_profiles/microsoft/motion_controller",
         "/interaction_profiles/oculus/touch_controller",
         "/interaction_profiles/htc/vive_controller",
         "/interaction_profiles/valve/index_controller"] ++
        (if supportsViveTrackers then
          List.replicate 13 "/interaction_profiles/htc/vive_tracker_htcx" else []) := by
  refine ⟨_, constructorSuggestCalls_eq _ _ _, ?_⟩
  rw [List.map_flatMap]
  simp only [List.map_map, Function.comp_def, List.map_id']
  cases supportsViveTrackers <;> decide

/-- A binding compiles to at least one entry in every pass. -/
theorem specEntries_ne_nil (side : Nat) (hlt : side < controllerDataSize) (action : XrAction)
    (b : ActionBinding) : specEntries side action b ≠ [] := by
  unfold specEntries
  cases hb : b.subactionPath with
  | some s => simp
  | none =>
    by_cases hs : side = Side.Left ∨ side = Side.Right
    · simp [wildcardPrefixes_hand side hs]
    · obtain ⟨role, hr⟩ := tracker_role_exists side hlt
      simp [wildcardPrefixes_tracker side hs role hr]

/-- The list compiled for a profile is empty exactly when no binding names the profile. -/
theorem specCompile_eq_nil_iff (side : Nat) (hlt : side < controllerDataSize)
    (actions : List ActionInfo) (p : String) :
    specCompile side actions p = [] ↔
      ∀ a ∈ actions, ∀ b ∈ a.actionBindings, b.interactionProfile ≠ p := by
  unfold specCompile
  simp only [List.flatMap_eq_nil_iff, List.mem_filter, decide_eq_true_eq, and_imp]
  constructor
  · intro h a ha b hb hp
    exact specEntries_ne_nil side hlt a.action b (h a ha b hb hp)
  · intro h a ha b hb hp
    exact absurd hp (h a ha b hb)

/-- C8, as stated, fails: for the action list that holds only "select", bound to the simple
controller, the hand pass calls `SuggestInteractionProfileBindings` for the motion
controller profile with an empty list. -/
theorem empty_list_is_submitted :
    InitializeSuggestBindings Side.Left
        [⟨1, "select", .XR_ACTION_TYPE_BOOLEAN_INPUT,
          [⟨InteractionProfiles.SimpleController, "select/click", none⟩]⟩] =
      some
        [⟨"/interaction_profiles/khr/simple_controller",
            [⟨1, "/user/hand/left/input/select/click"⟩,
             ⟨1, "/user/hand/right/input/select/click"⟩]⟩,
         ⟨"/interaction_profiles/microsoft/motion_controller", []⟩,
         ⟨"/interaction_profiles/oculus/touch_controller", []⟩,
         ⟨"/interaction_profiles/htc/vive_controller", []⟩,
         ⟨"/interaction_profiles/valve/index_controller", []⟩] ∧
    InitializeSuggestBindings 2 [] =
      some [⟨"/interaction_profiles/htc/vive_tracker_htcx", []⟩] := by
  decide

/-- C8, amended. For every action list, `InitializeSuggestBindings` skips no profile: a
hand pass (side 0 or 1) calls `SuggestInteractionProfileBindings` once for each of the five
hand profiles and a tracker pass (sides 2 to 14) once for the Vive tracker profile, each
with the list compiled for that profile, and the submitted list is empty exactly when no
binding entry of the action list names the profile. -/
theorem every_pass_profile_is_submitted (side : Nat) (hlt : side < controllerDataSize)
    (actions : List ActionInfo) :
    ∃ calls, InitializeSuggestBindings side actions = some calls ∧
      calls.map (fun c => c.interactionProfile) =
        (if side = Side.Left ∨ side = Side.Right then
          ["/interaction_profiles/khr/simple_controller",
           "/interaction_profiles/microsoft/motion_controller",
           "/interaction_profiles/oculus/touch_controller",
           "/interaction_profiles/htc/vive_controller",
           "/interaction_profiles/valve/index_controller"]
         else ["/interaction_profiles/htc/vive_tracker_htcx"]) ∧
      (∀ c ∈ calls, ∃ m, compileBindings side actions = some m ∧
        c.suggestedBindings = m c.interactionProfile) ∧
      ∀ c ∈ calls, (c.suggestedBindings = [] ↔
        ∀ a ∈ actions, ∀ b ∈ a.actionBindings, b.interactionProfile ≠ c.interactionProfile) := by
  refine ⟨_, InitializeSuggestBindings_calls side hlt actions, ?_, ?_, ?_⟩
  · simp only [List.map_map, Function.comp_def, List.map_id']
    by_cases hs : side = Side.Left ∨ side = Side.Right
    · simp only [passProfiles, if_pos hs]; rfl
    · simp only [passProfiles, if_neg hs]; rfl
  · intro c hc
    obtain ⟨p, _, rfl⟩ := List.mem_map.mp hc
    exact ⟨_, compileBindings_eq_spec side hlt actions, rfl⟩
  · intro c hc
    obtain ⟨p, _, rfl⟩ := List.mem_map.mp hc
    exact specCompile_eq_nil_iff side hlt actions p

/-- C8, amended, in the pass of the left hand for the action "select" alone. -/
theorem every_pass_profile_is_submitted_witness :
    ∃ calls, InitializeSuggestBindings 0
        [⟨1, "select", .XR_ACTION_TYPE_BOOLEAN_INPUT,
          [⟨InteractionProfiles.SimpleController, "select/click", none⟩]⟩] = some calls ∧
      calls.map (fun c => c.interactionProfile) =
        ["/interaction_profiles/khr/simple_controller",
         "/interaction_profiles/microsoft/motion_controller",
         "/interaction_profiles/oculus/touch_controller",
         "/interaction_profiles/htc/vive_controller",
         "/interaction_profiles/valve/index_controller"] := by
  obtain ⟨calls, h1, h2, _⟩ := every_pass_profile_is_submitted 0 (by decide)
    [⟨1, "select", .XR_ACTION_TYPE_BOOLEAN_INPUT,
      [⟨InteractionProfiles.SimpleController, "select/click", none⟩]⟩]
  exact ⟨calls, h1, by simpa [Side.Left] using h2⟩

/-! ## The interaction profile resolver -/

/-- A quantity every iteration of a loop leaves as it is, is left as it is by the loop. -/
theorem Outcome.forEach_preserves {σ α β : Type} (body : σ → α → Outcome σ) (f : σ → β)
    (h : ∀ s x, f (body s x).state = f s) (xs : List α) (s : σ) :
    f (Outcome.forEach body s xs).state = f s := by
  induction xs generalizing s with
  | nil => rfl
  | cons x xs ih =>
    have hx := h s x
    unfold Outcome.forEach
    cases hb : body s x with
    | returned s1 =>
      rw [hb] at hx
      simp only [Outcome.state] at hx
      simp only [ih, hx]
    | thrown s1 =>
      rw [hb] at hx
      simpa [Outcome.state] using hx

theorem InteractionProfileChanged_userPath (rt : Runtime) (scene : SceneObjects)
    (controllerData : ControllerData) (actions : List ActionInfo) (side : Nat) (p : XrPath) :
    (InteractionProfileChanged rt scene controllerData actions side p).2.userPath =
      controllerData.userPath := by
  unfold InteractionProfileChanged
  simp only
  split <;> rfl

/-- One iteration of the re-query loop whose query succeeds: it returns, it makes the
calls of the resolver's description, and it writes the controller data of its side only. -/
theorem requerySide_returned (rt : Runtime) (s : ControllerActionsScene) (side : Nat)
    (p : XrPath)
    (hq : rt.xrGetCurrentInteractionProfile (s.m_controllerData side).userPath = .ok p) :
    ∃ s1, requerySide rt s side = .returned s1 ∧
      s1.calls = s.calls ++ specRequeryCalls rt (s.m_controllerData side) side ∧
      (∀ j, j ≠ side → s1.m_controllerData j = s.m_controllerData j) ∧
      (s1.m_controllerData side).userPath = (s.m_controllerData side).userPath ∧
      s1.m_interactionProfilesDirty = s.m_interactionProfilesDirty ∧
      s1.SupportsViveTrackers = s.SupportsViveTrackers ∧
      s1.m_actions = s.m_actions := by
  unfold requerySide specRequeryCalls
  simp only [hq]
  by_cases hp : (s.m_controllerData side).interactionProfilePath = p
  · rw [if_neg (not_not.mpr hp), if_neg (not_not.mpr hp)]
    exact ⟨_, rfl, rfl, fun _ _ => rfl, rfl, rfl, rfl, rfl⟩
  · rw [if_pos hp, if_pos hp]
    refine ⟨_, rfl, by simp, ?_, ?_, rfl, rfl, rfl⟩
    · intro j hj
      simp [Function.update, hj]
    · simp [InteractionProfileChanged_userPath]

/-- The re-query loop over distinct sides whose queries succeed: it returns, and for every
side it makes the calls of the resolver's description, computed from the controller data
the loop started with. -/
theorem requery_forEach (rt : Runtime) (sides : List Nat) (hnd : sides.Nodup)
    (s : ControllerActionsScene)
    (hq : ∀ side ∈ sides,
      ∃ p, rt.xrGetCurrentInteractionProfile (s.m_controllerData side).userPath = .ok p) :
    ∃ s1, Outcome.forEach (requerySide rt) s sides = .returned s1 ∧
      s1.calls = s.calls ++
        sides.flatMap (fun side => specRequeryCalls rt (s.m_controllerData side) side) ∧
      (∀ j, j ∉ sides → s1.m_controllerData j = s.m_controllerData j) ∧
      s1.m_interactionProfilesDirty = s.m_interactionProfilesDirty ∧
      s1.SupportsViveTrackers = s.SupportsViveTrackers := by
  induction sides generalizing s with
  | nil => exact ⟨s, rfl, by simp, by simp, rfl, rfl⟩
  | cons a rest ih =>
    obtain ⟨p, hp⟩ := hq a (by simp)
    obtain ⟨s1, h1, hc1, hd1, _, hf1, hv1, _⟩ := requerySide_returned rt s a p hp
    have hna : a ∉ rest := (List.nodup_cons.mp hnd).1
    have hne : ∀ side ∈ rest, side ≠ a := fun side hs h => hna (h ▸ hs)
    have hq1 : ∀ side ∈ rest,
        ∃ p, rt.xrGetCurrentInteractionProfile (s1.m_controllerData side).userPath = .ok p := by
      intro side hs
      rw [hd1 side (hne side hs)]
      exact hq side (by simp [hs])
    obtain ⟨s2, h2, hc2, hd2, hf2, hv2⟩ := ih (List.nodup_cons.mp hnd).2 s1 hq1
    refine ⟨s2, ?_, ?_, ?_, by rw [hf2, hf1], by rw [hv2, hv1]⟩
    · simp only [Outcome.forEach, h1, h2]
    · have hcongr : rest.flatMap (fun side => specRequeryCalls rt (s1.m_controllerData side) side) =
          rest.flatMap (fun side => specRequeryCalls rt (s.m_controllerData side) side) := by
        apply List.flatMap_congr
        intro side hs
        rw [hd1 side (hne side hs)]
      rw [hc2, hc1, hcongr]
      simp
    · intro j hj
      have hj1 : j ≠ a := fun h => hj (by simp [h])
      have hj2 : j ∉ rest := fun h => hj (by simp [h])
      rw [hd2 j hj2, hd1 j hj1]

/-- The re-query loop over sides whose queries all return the cached profile: it returns
and changes nothing but the history of calls. -/
theorem requery_forEach_same (rt : Runtime) (sides : List Nat) (s : ControllerActionsScene)
    (hq : ∀ side ∈ sides,
      rt.xrGetCurrentInteractionProfile (s.m_controllerData side).userPath =
        .ok (s.m_controllerData side).interactionProfilePath) :
    Outcome.forEach (requerySide rt) s sides = .returned
      { s with calls := s.calls ++ sides.map fun side =>
          Call.xrGetCurrentInteractionProfile (s.m_controllerData side).userPath } := by
  induction sides generalizing s with
  | nil => simp [Outcome.forEach]
  | cons a rest ih =>
    have ha := hq a (by simp)
    have hstep : requerySide rt s a = .returned
        { s with calls := s.calls ++
            [Call.xrGetCurrentInteractionProfile (s.m_controllerData a).userPath] } := by
      unfold requerySide
      simp [ha]
    simp only [Outcome.forEach, hstep]
    rw [ih { s with calls := s.calls ++
        [Call.xrGetCurrentInteractionProfile (s.m_controllerData a).userPath] }
      (fun side hs => hq side (by simp [hs]))]
    simp

theorem sampleSide_calls (rt : Runtime) (s : ControllerActionsScene) (side : Nat) :
    (sampleSide rt s side).state.calls = s.calls := by
  unfold sampleSide
  simp only
  split <;> rfl

theorem sampleSide_dirty (rt : Runtime) (s : ControllerActionsScene) (side : Nat) :
    (sampleSide rt s side).state.m_interactionProfilesDirty = s.m_interactionProfilesDirty := by
  unfold sampleSide
  simp only
  split <;> rfl

theorem sampleSide_supports (rt : Runtime) (s : ControllerActionsScene) (side : Nat) :
    (sampleSide rt s side).state.SupportsViveTrackers = s.SupportsViveTrackers := by
  unfold sampleSide
  simp only
  split <;> rfl

/-- The sampling loop of `OnUpdate` makes none of the recorded calls and leaves the dirty
flag as it is: after `OnUpdate` both are as the first block left them. -/
theorem OnUpdate_after_requery (rt : Runtime) (s s1 : ControllerActionsScene)
    (h : requeryProfiles rt s = .returned s1) :
    (OnUpdate rt s).state.calls = s1.calls ∧
    (OnUpdate rt s).state.m_interactionProfilesDirty = s1.m_interactionProfilesDirty ∧
    (OnUpdate rt s).state.SupportsViveTrackers = s1.SupportsViveTrackers := by
  unfold OnUpdate
  rw [h]
  exact ⟨Outcome.forEach_preserves _ (fun s : ControllerActionsScene => s.calls) (sampleSide_calls rt) _ _,
    Outcome.forEach_preserves _ (fun s : ControllerActionsScene => s.m_interactionProfilesDirty) (sampleSide_dirty rt) _ _,
    Outcome.forEach_preserves _ (fun s : ControllerActionsScene => s.SupportsViveTrackers) (sampleSide_supports rt) _ _⟩

theorem traceQuery_dirty (rt : Runtime) (s : ControllerActionsScene) (path : XrPath) :
    (traceQuery rt s path).state.m_interactionProfilesDirty = s.m_interactionProfilesDirty := by
  unfold traceQuery
  simp only
  split <;> rfl

/-- After `OnEvent` the dirty flag is set if it was set before or the event is a
profile-changed event, also when a query of the method throws. -/
theorem OnEvent_dirty (rt : Runtime) (s : ControllerActionsScene) (eventData : XrEventData) :
    (OnEvent rt s eventData).state.m_interactionProfilesDirty =
      (s.m_interactionProfilesDirty || decide (eventData = .InteractionProfileChanged)) := by
  cases eventData with
  | InteractionProfileChanged =>
    simp only [OnEvent]
    rw [Outcome.forEach_preserves _ (fun s : ControllerActionsScene => s.m_interactionProfilesDirty) (traceQuery_dirty rt)]
    simp
  | ViveTrackerConnectedHTCX a b => simp [OnEvent, Outcome.state]
  | other => simp [OnEvent, Outcome.state]

/-- Events never clear the dirty flag, and one profile-changed event sets it. -/
theorem deliverEvents_dirty (events : List (Runtime × XrEventData)) (s : ControllerActionsScene) :
    (deliverEvents s events).m_interactionProfilesDirty =
      (s.m_interactionProfilesDirty ||
        events.any fun e => decide (e.2 = .InteractionProfileChanged)) := by
  induction events generalizing s with
  | nil => simp [deliverEvents]
  | cons e rest ih =>
    obtain ⟨rt, eventData⟩ := e
    simp only [deliverEvents, ih, OnEvent_dirty, List.any_cons, Bool.or_assoc]

theorem rebuilds_append (xs ys : List Call) : rebuilds (xs ++ ys) = rebuilds xs ++ rebuilds ys := by
  simp [rebuilds, List.filterMap_append]

theorem profileQueries_append (xs ys : List Call) :
    profileQueries (xs ++ ys) = profileQueries xs ++ profileQueries ys := by
  simp [profileQueries, List.filterMap_append]

/-- The rebuilds among the calls of the resolver's description for a list of sides. -/
theorem rebuilds_specRequeryCalls (rt : Runtime) (cd : Nat → ControllerData) (sides : List Nat) :
    rebuilds (sides.flatMap fun side => specRequeryCalls rt (cd side) side) =
      sides.filterMap fun side =>
        match rt.xrGetCurrentInteractionProfile (cd side).userPath with
        | .ok p => if (cd side).interactionProfilePath ≠ p then some (side, p) else none
        | .error _ => none := by
  induction sides with
  | nil => rfl
  | cons a rest ih =>
    rw [List.flatMap_cons, rebuilds_append, ih, List.filterMap_cons]
    unfold specRequeryCalls
    cases hq : rt.xrGetCurrentInteractionProfile (cd a).userPath with
    | error e => simp [rebuilds]
    | ok p =>
      by_cases hp : (cd a).interactionProfilePath = p <;> simp [rebuilds, hp]

/-- The queries among the calls of the resolver's description for a list of sides. -/
theorem profileQueries_specRequeryCalls (rt : Runtime) (cd : Nat → ControllerData)
    (sides : List Nat) :
    profileQueries (sides.flatMap fun side => specRequeryCalls rt (cd side) side) =
      sides.map fun side => (cd side).userPath := by
  induction sides with
  | nil => rfl
  | cons a rest ih =>
    rw [List.flatMap_cons, profileQueries_append, ih, List.map_cons]
    unfold specRequeryCalls
    cases hq : rt.xrGetCurrentInteractionProfile (cd a).userPath with
    | error e => simp [profileQueries]
    | ok p =>
      by_cases hp : (cd a).interactionProfilePath = p <;> simp [profileQueries, hp]

theorem rebuilds_queries (f : Nat → XrPath) (sides : List Nat) :
    rebuilds (sides.map fun side => Call.xrGetCurrentInteractionProfile (f side)) = [] := by
  induction sides with
  | nil => rfl
  | cons a rest ih => simp [rebuilds]

theorem UpdateComponentValueVisuals_unsampled (rt : Runtime) (path : XrPath)
    (c c1 : ComponentData) (h : UpdateComponentValueVisuals rt path c = .ok c1) :
    c1.unsampled = c.unsampled := by
  unfold UpdateComponentValueVisuals at h
  split at h
  · split at h
    · cases h
    · cases h; rfl
  · split at h
    · cases h
    · cases h; rfl
  · split at h
    · cases h
    · cases h; rfl
  · cases h; rfl

theorem updateComponents_unsampled (rt : Runtime) (path : XrPath) (cs : List ComponentData) :
    (updateComponents rt path cs).state.map ComponentData.unsampled =
      cs.map ComponentData.unsampled := by
  induction cs with
  | nil => rfl
  | cons c rest ih =>
    unfold updateComponents
    cases hu : UpdateComponentValueVisuals rt path c with
    | error e => rfl
    | ok c1 =>
      have hc := UpdateComponentValueVisuals_unsampled rt path c c1 hu
      cases hr : updateComponents rt path rest with
      | returned rest1 =>
        rw [hr] at ih
        simp only [Outcome.state] at ih
        simp [Outcome.state, hc, ih]
      | thrown rest1 =>
        rw [hr] at ih
        simp only [Outcome.state] at ih
        simp [Outcome.state, hc, ih]

/-- The sampling loop writes nothing but the sampled values of components. -/
theorem sampleSide_unsampled (rt : Runtime) (s : ControllerActionsScene) (side : Nat) :
    (fun j => ((sampleSide rt s side).state.m_controllerData j).unsampled) =
      fun j => (s.m_controllerData j).unsampled := by
  funext j
  have hu := updateComponents_unsampled rt (rt.StringToPath ((userPathOfSide side).getD ""))
    (s.m_controllerData side).components
  unfold sampleSide
  simp only
  cases hr : updateComponents rt (rt.StringToPath ((userPathOfSide side).getD ""))
      (s.m_controllerData side).components with
  | returned cs =>
    rw [hr] at hu
    simp only [Outcome.state] at hu
    by_cases hj : j = side
    · subst hj; simp [Outcome.state, ControllerData.unsampled, hu]
    · simp [Outcome.state, Function.update, hj]
  | thrown cs =>
    rw [hr] at hu
    simp only [Outcome.state] at hu
    by_cases hj : j = side
    · subst hj; simp [Outcome.state, ControllerData.unsampled, hu]
    · simp [Outcome.state, Function.update, hj]

theorem sampleSide_scene (rt : Runtime) (s : ControllerActionsScene) (side : Nat) :
    (sampleSide rt s side).state.scene = s.scene := by
  unfold sampleSide
  simp only
  split <;> rfl

/-- After `OnUpdate` the scene objects and, apart from the sampled values of components,
the controller data are as the first block left them. -/
theorem OnUpdate_unsampled (rt : Runtime) (s s1 : ControllerActionsScene)
    (h : requeryProfiles rt s = .returned s1) :
    (∀ j, ((OnUpdate rt s).state.m_controllerData j).unsampled =
      (s1.m_controllerData j).unsampled) ∧
    (OnUpdate rt s).state.scene = s1.scene := by
  unfold OnUpdate
  rw [h]
  refine ⟨fun j => ?_, ?_⟩
  · exact congrFun (Outcome.forEach_preserves (sampleSide rt)
      (fun (s : ControllerActionsScene) (j : Nat) => (s.m_controllerData j).unsampled)
      (sampleSide_unsampled rt) _ s1) j
  · exact Outcome.forEach_preserves (sampleSide rt)
      (fun s : ControllerActionsScene => s.scene) (sampleSide_scene rt) _ s1

/-- C9. `OnUpdate` with the dirty flag set, all runtime queries of the tracked sides
succeeding: the first block returns, and the invocations of `InteractionProfileChanged` it
makes are exactly one for each tracked side whose queried profile differs from the cached
`interactionProfilePath` of that side before the update, with that profile, in the order
of the sides, and none for a side whose profile is the same; the rest of `OnUpdate` makes
no invocation. Hence, when the query returns the cached profile for every tracked side,
`OnUpdate` makes no rebuild, the re-query leaves every `ControllerData` and the scene
objects as they were, and after the whole `OnUpdate` the scene objects and every
`ControllerData` are as before apart from the values `actionValue` and `isActive` its
sampling loop reads into the components. -/
theorem rebuild_iff_profile_differs (rt : Runtime) (s : ControllerActionsScene)
    (hd : s.m_interactionProfilesDirty = true)
    (hq : ∀ side, side < upperBound s.SupportsViveTrackers →
      ∃ p, rt.xrGetCurrentInteractionProfile (s.m_controllerData side).userPath = .ok p) :
    ∃ s1, requeryProfiles rt s = .returned s1 ∧
      rebuilds s1.calls = rebuilds s.calls ++
        (List.range (upperBound s.SupportsViveTrackers)).filterMap (fun side =>
          match rt.xrGetCurrentInteractionProfile (s.m_controllerData side).userPath with
          | .ok p =>
            if (s.m_controllerData side).interactionProfilePath ≠ p then some (side, p) else none
          | .error _ => none) ∧
      rebuilds (OnUpdate rt s).state.calls = rebuilds s1.calls ∧
      ((∀ side, side < upperBound s.SupportsViveTrackers →
          rt.xrGetCurrentInteractionProfile (s.m_controllerData side).userPath =
            .ok (s.m_controllerData side).interactionProfilePath) →
        rebuilds (OnUpdate rt s).state.calls = rebuilds s.calls ∧
        s1.m_controllerData = s.m_controllerData ∧ s1.scene = s.scene ∧
        (∀ j, ((OnUpdate rt s).state.m_controllerData j).unsampled =
          (s.m_controllerData j).unsampled) ∧
        (OnUpdate rt s).state.scene = s.scene) := by
  obtain ⟨s1, h1, hc, _, _, _⟩ := requery_forEach rt (List.range (upperBound s.SupportsViveTrackers))
    (List.nodup_range _) { s with m_interactionProfilesDirty := false }
    (fun side hs => hq side (List.mem_range.mp hs))
  have hr : requeryProfiles rt s = .returned s1 := by
    unfold requeryProfiles
    simp only [hd, if_true]
    exact h1
  have hu := (OnUpdate_after_requery rt s s1 hr).1
  obtain ⟨hw1, hw2⟩ := OnUpdate_unsampled rt s s1 hr
  refine ⟨s1, hr, ?_, by rw [hu], ?_⟩
  · rw [hc, rebuilds_append, rebuilds_specRequeryCalls]
  · intro hsame
    have h2 := requery_forEach_same rt (List.range (upperBound s.SupportsViveTrackers))
      { s with m_interactionProfilesDirty := false }
      (fun side hs => hsame side (List.mem_range.mp hs))
    rw [h1] at h2
    have h3 := Outcome.returned.inj h2
    subst h3
    refine ⟨?_, rfl, rfl, hw1, hw2⟩
    rw [hu]
    simp only [rebuilds_append]
    rw [rebuilds_queries (fun side => (s.m_controllerData side).userPath)]
    simp

/-- C9, on the sample scene with a runtime that reports a new profile (7) for the left
hand (path 15) and the cached null profile for the right hand: of the two sides only the
left one is rebuilt. -/
theorem rebuild_iff_profile_differs_witness :
    sampleScene.m_interactionProfilesDirty = true ∧
    ∃ s1, requeryProfiles (sampleRuntime fun path => if path = 15 then 7 else 0) sampleScene =
        .returned s1 ∧
      rebuilds s1.calls = [(0, 7)] := by
  obtain ⟨s1, h1, h2, _⟩ := rebuild_iff_profile_differs
    (sampleRuntime fun path => if path = 15 then 7 else 0) sampleScene rfl
    (fun _ _ => ⟨_, rfl⟩)
  refine ⟨rfl, s1, h1, ?_⟩
  rw [h2]
  decide

/-- With the dirty flag clear the first block of `OnUpdate` makes no query: it returns
the scene as it was. -/
theorem requeryProfiles_clean (rt : Runtime) (s : ControllerActionsScene)
    (hd : s.m_interactionProfilesDirty = false) : requeryProfiles rt s = .returned s := by
  unfold requeryProfiles
  simp only [hd, Bool.false_eq_true, if_false]
  cases s
  simp_all

/-- C10. In the sequential model of `OnEvent` and `OnUpdate`: after any events of which at
least one is a profile-changed event the dirty flag is set; the next `OnUpdate`, its
runtime queries succeeding, makes exactly one `xrGetCurrentInteractionProfile` call per
tracked side, for the user path of that side, in one pass, and leaves the dirty flag
false; an `OnUpdate` that follows with no event in between makes no call at all and
leaves the flag false. -/
theorem profile_changed_events_coalesce (s : ControllerActionsScene)
    (events : List (Runtime × XrEventData)) (rt rt' : Runtime)
    (hev : ∃ e ∈ events, e.2 = XrEventData.InteractionProfileChanged)
    (hq : ∀ side, side < upperBound (deliverEvents s events).SupportsViveTrackers →
      ∃ p, rt.xrGetCurrentInteractionProfile
        ((deliverEvents s events).m_controllerData side).userPath = .ok p) :
    (deliverEvents s events).m_interactionProfilesDirty = true ∧
    profileQueries (OnUpdate rt (deliverEvents s events)).state.calls =
      profileQueries (deliverEvents s events).calls ++
        (List.range (upperBound (deliverEvents s events).SupportsViveTrackers)).map
          (fun side => ((deliverEvents s events).m_controllerData side).userPath) ∧
    (OnUpdate rt (deliverEvents s events)).state.m_interactionProfilesDirty = false ∧
    (OnUpdate rt' (OnUpdate rt (deliverEvents s events)).state).state.calls =
      (OnUpdate rt (deliverEvents s events)).state.calls ∧
    (OnUpdate rt' (OnUpdate rt (deliverEvents s events)).state).state.m_interactionProfilesDirty =
      false := by
  have hd : (deliverEvents s events).m_interactionProfilesDirty = true := by
    rw [deliverEvents_dirty]
    obtain ⟨e, he, hc⟩ := hev
    have : (events.any fun e => decide (e.2 = .InteractionProfileChanged)) = true :=
      List.any_eq_true.mpr ⟨e, he, by simp [hc]⟩
    simp [this]
  generalize deliverEvents s events = s1 at hd hq ⊢
  obtain ⟨s2, h1, hc, _, hf, _⟩ := requery_forEach rt
    (List.range (upperBound s1.SupportsViveTrackers))
    (List.nodup_range _) { s1 with m_interactionProfilesDirty := false }
    (fun side hs => hq side (List.mem_range.mp hs))
  have hr : requeryProfiles rt s1 = .returned s2 := by
    unfold requeryProfiles
    simp only [hd, if_true]
    exact h1
  obtain ⟨hu1, hu2, _⟩ := OnUpdate_after_requery rt s1 s2 hr
  have hclean : (OnUpdate rt s1).state.m_interactionProfilesDirty = false := by
    rw [hu2, hf]
  obtain ⟨hv1, hv2, _⟩ := OnUpdate_after_requery rt' (OnUpdate rt s1).state _
    (requeryProfiles_clean rt' _ hclean)
  refine ⟨hd, ?_, hclean, hv1, by rw [hv2, hclean]⟩
  rw [hu1, hc, profileQueries_append, profileQueries_specRequeryCalls]

/-- C10, on the sample scene: three profile-changed events, then two updates. The first
update queries the two hand paths (15 and 16) once each, after the three queries each
event made for its trace; the second update queries nothing. -/
theorem profile_changed_events_coalesce_witness :
    (∃ e ∈ [(sampleRuntime fun _ => 7, XrEventData.InteractionProfileChanged),
            (sampleRuntime fun _ => 7, XrEventData.InteractionProfileChanged),
            (sampleRuntime fun _ => 7, XrEventData.InteractionProfileChanged)],
        e.2 = XrEventData.InteractionProfileChanged) ∧
    (profileQueries (OnUpdate (sampleRuntime fun _ => 7)
        (deliverEvents { sampleScene with m_interactionProfilesDirty := false }
          [(sampleRuntime fun _ => 7, XrEventData.InteractionProfileChanged),
           (sampleRuntime fun _ => 7, XrEventData.InteractionProfileChanged),
           (sampleRuntime fun _ => 7, XrEventData.InteractionProfileChanged)])).state.calls).drop 9 =
      [15, 16] := by
  have h := profile_changed_events_coalesce
    { sampleScene with m_interactionProfilesDirty := false }
    [(sampleRuntime fun _ => 7, XrEventData.InteractionProfileChanged),
     (sampleRuntime fun _ => 7, XrEventData.InteractionProfileChanged),
     (sampleRuntime fun _ => 7, XrEventData.InteractionProfileChanged)]
    (sampleRuntime fun _ => 7) (sampleRuntime fun _ => 7)
    ⟨_, List.mem_cons_self _ _, rfl⟩ (fun _ _ => ⟨_, rfl⟩)
  refine ⟨⟨_, List.mem_cons_self _ _, rfl⟩, ?_⟩
  rw [h.2.1]
  decide

/-! ## The dirty flag -/

/-- A loop over two lists in a row: the second part runs if the first returns. -/
theorem Outcome.forEach_append {σ α : Type} (body : σ → α → Outcome σ) (xs ys : List α)
    (s : σ) :
    Outcome.forEach body s (xs ++ ys) =
      match Outcome.forEach body s xs with
      | .returned s1 => Outcome.forEach body s1 ys
      | .thrown s1 => .thrown s1 := by
  induction xs generalizing s with
  | nil => rfl
  | cons x xs ih =>
    simp only [List.cons_append, Outcome.forEach]
    cases body s x with
    | returned s1 => exact ih s1
    | thrown s1 => rfl

theorem requerySide_dirty (rt : Runtime) (s : ControllerActionsScene) (side : Nat) :
    (requerySide rt s side).state.m_interactionProfilesDirty = s.m_interactionProfilesDirty := by
  unfold requerySide
  simp only
  split
  · rfl
  · split <;> rfl

/-- The first block of `OnUpdate` leaves the dirty flag false however it ends. -/
theorem requeryProfiles_dirty (rt : Runtime) (s : ControllerActionsScene) :
    (requeryProfiles rt s).state.m_interactionProfilesDirty = false := by
  unfold requeryProfiles
  split
  · rw [Outcome.forEach_preserves _
      (fun s : ControllerActionsScene => s.m_interactionProfilesDirty) (requerySide_dirty rt)]
  · rfl

theorem OnUpdate_dirty (rt : Runtime) (s : ControllerActionsScene) :
    (OnUpdate rt s).state.m_interactionProfilesDirty = false := by
  have h := requeryProfiles_dirty rt s
  unfold OnUpdate
  cases hr : requeryProfiles rt s with
  | thrown s1 => rw [hr] at h; exact h
  | returned s1 =>
    rw [hr] at h
    simp only
    rw [Outcome.forEach_preserves _
      (fun s : ControllerActionsScene => s.m_interactionProfilesDirty) (sampleSide_dirty rt)]
    exact h

/-- The sides below `n` split at a side `k < n`. -/
theorem range_split (n k : Nat) (hk : k < n) :
    ∃ tail, List.range n = List.range k ++ k :: tail := by
  induction n with
  | zero => omega
  | succ n ih =>
    rw [List.range_succ]
    by_cases hkn : k = n
    · subst hkn; exact ⟨[], rfl⟩
    · obtain ⟨tail, ht⟩ := ih (by omega)
      exact ⟨tail ++ [n], by rw [ht]; simp⟩

/-- The re-query loop when the query of side `k` is the first to fail: the loop throws at
side `k`, after the calls for the sides before it and the failing query, and has written no
controller data of side `k` or of a later side. -/
theorem requery_forEach_thrown (rt : Runtime) (n k : Nat) (hk : k < n)
    (s : ControllerActionsScene) (e : Int)
    (hok : ∀ side, side < k →
      ∃ p, rt.xrGetCurrentInteractionProfile (s.m_controllerData side).userPath = .ok p)
    (hfail : rt.xrGetCurrentInteractionProfile (s.m_controllerData k).userPath = .error e) :
    ∃ s1, Outcome.forEach (requerySide rt) s (List.range n) = .thrown s1 ∧
      s1.calls = s.calls ++
        (List.range k).flatMap (fun side => specRequeryCalls rt (s.m_controllerData side) side) ++
        [Call.xrGetCurrentInteractionProfile (s.m_controllerData k).userPath] ∧
      (∀ j, k ≤ j → s1.m_controllerData j = s.m_controllerData j) := by
  obtain ⟨tail, ht⟩ := range_split n k hk
  obtain ⟨s0, h0, hc0, hd0, _, _⟩ := requery_forEach rt (List.range k) (List.nodup_range k) s
    (fun side hs => hok side (List.mem_range.mp hs))
  have hkk : s0.m_controllerData k = s.m_controllerData k :=
    hd0 k (by simp)
  have hstep : requerySide rt s0 k = .thrown
      { s0 with calls := s0.calls ++
          [Call.xrGetCurrentInteractionProfile (s.m_controllerData k).userPath] } := by
    unfold requerySide
    simp only [hkk, hfail]
  refine ⟨{ s0 with calls := s0.calls ++
      [Call.xrGetCurrentInteractionProfile (s.m_controllerData k).userPath] }, ?_, ?_, ?_⟩
  · rw [ht, Outcome.forEach_append, h0]
    simp only [Outcome.forEach, hstep]
  · simp only [hc0]
  · intro j hj
    exact hd0 j (by simp; omega)

/-- C11, as stated, fails. On the sample scene with the dirty flag set, the query of the
left hand (path 15) succeeds and that of the right hand (path 16) fails: `OnUpdate` ends
with the exception and the flag is false, although the right hand was not resolved; the
next `OnUpdate`, with a runtime whose queries all succeed and report profile 7, makes no
query, and the right hand keeps its cached null profile. -/
theorem aborted_update_leaves_flag_clear :
    sampleScene.m_interactionProfilesDirty = true ∧
    (OnUpdate (failingRuntime 16) sampleScene).threw = true ∧
    (OnUpdate (failingRuntime 16) sampleScene).state.m_interactionProfilesDirty = false ∧
    profileQueries (OnUpdate (failingRuntime 16) sampleScene).state.calls = [15, 16] ∧
    ((OnUpdate (failingRuntime 16) sampleScene).state.m_controllerData 1).interactionProfilePath =
      XR_NULL_PATH ∧
    profileQueries (OnUpdate (sampleRuntime fun _ => 7)
      (OnUpdate (failingRuntime 16) sampleScene).state).state.calls = [15, 16] ∧
    ((OnUpdate (sampleRuntime fun _ => 7)
      (OnUpdate (failingRuntime 16) sampleScene).state).state.m_controllerData
        1).interactionProfilePath = XR_NULL_PATH := by
  decide

/-- C11, amended. The dirty flag is cleared by the test-and-clear at the start of the
update pass, before any tracked path is re-queried, and `OnUpdate` leaves it false however
it ends. When the flag was set and all queries succeed, the first block returns after
the query of every tracked side, with the flag false. When the flag was set and the query
of side `k` is the first to fail, `OnUpdate` ends with the exception at that query: the
sides up to `k` have been queried, the flag is false, and the controller data of side `k`
and of every later side is as it was. -/
theorem dirty_flag_cleared_before_requery (rt : Runtime) (s : ControllerActionsScene)
    (k : Nat) (e : Int)
    (hd : s.m_interactionProfilesDirty = true)
    (hk : k < upperBound s.SupportsViveTrackers)
    (hok : ∀ side, side < k →
      ∃ p, rt.xrGetCurrentInteractionProfile (s.m_controllerData side).userPath = .ok p)
    (hfail : rt.xrGetCurrentInteractionProfile (s.m_controllerData k).userPath = .error e) :
    (∀ rt' s', (OnUpdate rt' s').state.m_interactionProfilesDirty = false) ∧
    (∀ rt' : Runtime,
      (∀ side, side < upperBound s.SupportsViveTrackers →
        ∃ p, rt'.xrGetCurrentInteractionProfile (s.m_controllerData side).userPath = .ok p) →
      ∃ s1, requeryProfiles rt' s = .returned s1 ∧
        s1.m_interactionProfilesDirty = false ∧
        profileQueries s1.calls = profileQueries s.calls ++
          (List.range (upperBound s.SupportsViveTrackers)).map
            (fun side => (s.m_controllerData side).userPath)) ∧
    ∃ s1, OnUpdate rt s = .thrown s1 ∧
      s1.m_interactionProfilesDirty = false ∧
      profileQueries s1.calls = profileQueries s.calls ++
        (List.range (k + 1)).map (fun side => (s.m_controllerData side).userPath) ∧
      ∀ j, k ≤ j → s1.m_controllerData j = s.m_controllerData j := by
  refine ⟨OnUpdate_dirty, ?_, ?_⟩
  · intro rt' hq
    obtain ⟨s1, h1, hc, _, hf, _⟩ := requery_forEach rt'
      (List.range (upperBound s.SupportsViveTrackers)) (List.nodup_range _)
      { s with m_interactionProfilesDirty := false }
      (fun side hs => hq side (List.mem_range.mp hs))
    refine ⟨s1, ?_, hf, ?_⟩
    · unfold requeryProfiles
      simp only [hd, if_true]
      exact h1
    · rw [hc, profileQueries_append, profileQueries_specRequeryCalls]
  obtain ⟨s1, h1, hc, hj⟩ := requery_forEach_thrown rt (upperBound s.SupportsViveTrackers) k hk
    { s with m_interactionProfilesDirty := false } e hok hfail
  have hr : requeryProfiles rt s = .thrown s1 := by
    unfold requeryProfiles
    simp only [hd, if_true]
    exact h1
  have hu : OnUpdate rt s = .thrown s1 := by
    unfold OnUpdate
    rw [hr]
  have hflag := OnUpdate_dirty rt s
  rw [hu] at hflag
  refine ⟨s1, hu, hflag, ?_, hj⟩
  rw [hc, profileQueries_append, profileQueries_append, profileQueries_specRequeryCalls,
    List.range_succ, List.map_append]
  simp [profileQueries]

/-- C11, amended, on the sample scene when the query of the right hand (side 1) fails. -/
theorem dirty_flag_cleared_before_requery_witness :
    sampleScene.m_interactionProfilesDirty = true ∧
    1 < upperBound sampleScene.SupportsViveTrackers ∧
    ∃ s1, OnUpdate (failingRuntime 16) sampleScene = .thrown s1 ∧
      s1.m_interactionProfilesDirty = false ∧
      ∀ j, 1 ≤ j → s1.m_controllerData j = sampleScene.m_controllerData j := by
  obtain ⟨_, _, s1, h1, h2, _, h4⟩ := dirty_flag_cleared_before_requery (failingRuntime 16)
    sampleScene 1 (-1) rfl (by decide)
    (fun side hs => ⟨7, by
      have h0 : side = 0 := by omega
      subst h0
      rfl⟩)
    rfl
  exact ⟨rfl, by decide, s1, h1, h2, h4⟩

/-! ## Resolving one side -/

/-- C12. The re-query of side `s` and the `InteractionProfileChanged` it may invoke write
`m_controllerData[s]` only: however the iteration ends (no change, rebuild, or a failing
query), the controller data of every other side `t`, in particular its cached
`interactionProfilePath`, `interactionProfileName`, `text` and component list, is as it
was. -/
theorem resolving_one_side_leaves_others (rt : Runtime) (s : ControllerActionsScene)
    (side t : Nat) (ht : t ≠ side) :
    (requerySide rt s side).state.m_controllerData t = s.m_controllerData t ∧
    ((requerySide rt s side).state.m_controllerData t).interactionProfilePath =
      (s.m_controllerData t).interactionProfilePath ∧
    ((requerySide rt s side).state.m_controllerData t).interactionProfileName =
      (s.m_controllerData t).interactionProfileName ∧
    ((requerySide rt s side).state.m_controllerData t).text = (s.m_controllerData t).text ∧
    ((requerySide rt s side).state.m_controllerData t).components =
      (s.m_controllerData t).components := by
  have h : (requerySide rt s side).state.m_controllerData t = s.m_controllerData t := by
    unfold requerySide
    simp only
    split
    · rfl
    · split
      · simp [Outcome.state, Function.update, ht]
      · rfl
  exact ⟨h, by rw [h], by rw [h], by rw [h], by rw [h]⟩

/-- C12, on the sample scene: the runtime reports profile 7 for both hands, the left hand
(side 0) is resolved and rebuilt, and the right hand (side 1) keeps its null profile and
its empty component list. -/
theorem resolving_one_side_leaves_others_witness :
    (1 : Nat) ≠ 0 ∧
    rebuilds (requerySide (sampleRuntime fun _ => 7) sampleScene 0).state.calls = [(0, 7)] ∧
    ((requerySide (sampleRuntime fun _ => 7) sampleScene 0).state.m_controllerData
      0).interactionProfilePath = 7 ∧
    ((requerySide (sampleRuntime fun _ => 7) sampleScene 0).state.m_controllerData
      1).interactionProfilePath = XR_NULL_PATH ∧
    ((requerySide (sampleRuntime fun _ => 7) sampleScene 0).state.m_controllerData
      1).components = [] := by
  have h := resolving_one_side_leaves_others (sampleRuntime fun _ => 7) sampleScene 0 1
    (by decide)
  exact ⟨by decide, by decide, by decide, by rw [h.2.1]; rfl, by rw [h.2.2.2.2]; rfl⟩

/-! ## The rebuild of the components -/

/-- The scene after the removal loop of lines 578-581: an object is still in the scene
exactly if it was there and belongs to none of the components; no object is created. -/
theorem removeComponents_objects (cs : List ComponentData) (scene : SceneObjects) :
    (cs.foldl
      (fun sc object =>
        (sc.RemoveObject (some object.placementObject)).RemoveObject (some object.valueObject))
      scene).nextObject = scene.nextObject ∧
    ∀ o, o ∈ (cs.foldl
      (fun sc object =>
        (sc.RemoveObject (some object.placementObject)).RemoveObject (some object.valueObject))
      scene).objects ↔
      o ∈ scene.objects ∧ ∀ c ∈ cs, o ≠ c.placementObject ∧ o ≠ c.valueObject := by
  induction cs generalizing scene with
  | nil => simp
  | cons c rest ih =>
    simp only [List.foldl_cons]
    obtain ⟨h1, h2⟩ := ih ((scene.RemoveObject (some c.placementObject)).RemoveObject
      (some c.valueObject))
    refine ⟨by rw [h1]; rfl, fun o => ?_⟩
    rw [h2]
    simp only [SceneObjects.RemoveObject, List.mem_filter, decide_eq_true_eq, List.mem_cons,
      forall_eq_or_imp]
    tauto

theorem RemoveObject_nextObject (sc : SceneObjects) (x : Option ObjectId) :
    (sc.RemoveObject x).nextObject = sc.nextObject := by
  cases x <;> rfl

theorem mem_RemoveObject_some (sc : SceneObjects) (t o : ObjectId) :
    o ∈ (sc.RemoveObject (some t)).objects ↔ o ∈ sc.objects ∧ o ≠ t := by
  simp [SceneObjects.RemoveObject]

/-- The scene after the removal of the previous components and of the previous text
object (lines 578-584): none of their objects is left and no object is created. -/
theorem removePrevious_objects (cd : ControllerData) (scene : SceneObjects) :
    ((cd.components.foldl
      (fun sc object =>
        (sc.RemoveObject (some object.placementObject)).RemoveObject (some object.valueObject))
      scene).RemoveObject cd.textObject).nextObject = scene.nextObject ∧
    ∀ o, o ∈ ((cd.components.foldl
      (fun sc object =>
        (sc.RemoveObject (some object.placementObject)).RemoveObject (some object.valueObject))
      scene).RemoveObject cd.textObject).objects ↔
      o ∈ scene.objects ∧ o ∉ cd.sceneObjects := by
  obtain ⟨h1, h2⟩ := removeComponents_objects cd.components scene
  refine ⟨by rw [RemoveObject_nextObject, h1], fun o => ?_⟩
  cases ht : cd.textObject with
  | none =>
    rw [show ∀ sc : SceneObjects, sc.RemoveObject none = sc from fun _ => rfl, h2]
    simp only [ControllerData.sceneObjects, ht, Option.toList_none, List.append_nil,
      List.mem_flatMap, List.mem_cons, List.mem_singleton, List.not_mem_nil, or_false,
      not_exists, not_and, not_or, ne_eq]
  | some t =>
    rw [mem_RemoveObject_some, h2]
    simp only [ControllerData.sceneObjects, ht, Option.toList_some, List.mem_append,
      List.mem_flatMap, List.mem_cons, List.mem_singleton, List.not_mem_nil, or_false, not_or,
      not_exists, not_and, ne_eq]
    tauto

/-- The sampling loop of `OnUpdate` does nothing for a side without components. -/
theorem sampleSide_no_components (rt : Runtime) (s : ControllerActionsScene) (side : Nat)
    (h : (s.m_controllerData side).components = []) : sampleSide rt s side = .returned s := by
  unfold sampleSide
  simp only [h, updateComponents]
  have hcd : ({ s.m_controllerData side with components := [] } : ControllerData) =
      s.m_controllerData side := by
    rw [← h]
  rw [hcd, Function.update_eq_self]

/-- C13. `InteractionProfileChanged` with the new profile `XR_NULL_PATH`, from any previous
state of the path: afterwards the component list is empty, the text object is null, the
profile name is "No interaction profile" and the cached profile is the null path; no
object of a previous component and no previous text object is left in the scene. Hence
the sampling loop of the following `OnUpdate` reads no action state for that side,
whatever the runtime would answer: it returns with the scene unchanged. -/
theorem null_profile_clears_components (rt : Runtime) (scene : SceneObjects)
    (cd : ControllerData) (actions : List ActionInfo) (side : Nat) :
    (InteractionProfileChanged rt scene cd actions side XR_NULL_PATH).2.components = [] ∧
    (InteractionProfileChanged rt scene cd actions side XR_NULL_PATH).2.textObject = none ∧
    (InteractionProfileChanged rt scene cd actions side XR_NULL_PATH).2.interactionProfileName =
      "No interaction profile" ∧
    (InteractionProfileChanged rt scene cd actions side XR_NULL_PATH).2.interactionProfilePath =
      XR_NULL_PATH ∧
    (∀ o ∈ cd.sceneObjects,
      o ∉ (InteractionProfileChanged rt scene cd actions side XR_NULL_PATH).1.objects) ∧
    ∀ (rt1 : Runtime) (s : ControllerActionsScene),
      s.m_controllerData side = (InteractionProfileChanged rt scene cd actions side XR_NULL_PATH).2 →
      sampleSide rt1 s side = .returned s := by
  have hr : InteractionProfileChanged rt scene cd actions side XR_NULL_PATH =
      ((cd.components.foldl
          (fun sc object =>
            (sc.RemoveObject (some object.placementObject)).RemoveObject
              (some object.valueObject))
          scene).RemoveObject cd.textObject,
        { cd with
          interactionProfilePath := XR_NULL_PATH
          interactionProfileName := "No interaction profile"
          components := []
          textObject := none }) := by
    simp [InteractionProfileChanged, XR_NULL_PATH]
  rw [hr]
  refine ⟨rfl, rfl, rfl, rfl, ?_, ?_⟩
  · intro o ho hmem
    exact ((removePrevious_objects cd scene).2 o).mp hmem |>.2 ho
  · intro rt1 s hs
    exact sampleSide_no_components rt1 s side (by rw [hs])

/-- The component list after `InteractionProfileChanged` for a profile that is not null:
the list built by the insertion loop, started from the scene without the previous objects
and from the empty list. -/
theorem InteractionProfileChanged_components (rt : Runtime) (scene : SceneObjects)
    (cd : ControllerData) (actions : List ActionInfo) (side : Nat) (p : XrPath)
    (hp : p ≠ XR_NULL_PATH) :
    (InteractionProfileChanged rt scene cd actions side p).2.components =
      (actions.foldl (insertComponent (rt.PathToString p) side)
        ((cd.components.foldl
          (fun sc object =>
            (sc.RemoveObject (some object.placementObject)).RemoveObject
              (some object.valueObject))
          scene).RemoveObject cd.textObject, [])).2 := by
  unfold InteractionProfileChanged
  simp only [hp, ne_eq, not_false_eq_true, decide_True, if_true]
  split <;> simp_all

/-- The action and the text of the components the insertion loop appends: for every action
with a matching binding, in order, the action with the component path of its first
matching binding. -/
theorem insertComponents_map (name : String) (side : Nat) (actions : List ActionInfo)
    (acc : SceneObjects × List ComponentData) :
    (actions.foldl (insertComponent name side) acc).2.map (fun c => (c.actionInfo, c.text)) =
      acc.2.map (fun c => (c.actionInfo, c.text)) ++
        actions.filterMap fun a =>
          (a.actionBindings.find? (bindingMatches name side)).map fun b => (a, b.componetPath) := by
  induction actions generalizing acc with
  | nil => simp
  | cons a rest ih =>
    rw [List.foldl_cons, ih]
    unfold insertComponent
    cases hf : a.actionBindings.find? (bindingMatches name side) with
    | none => simp [hf]
    | some b => simp [hf]

/-- A list with at most one element that satisfies a test: the first such element is all
of them. -/
theorem find_toList_eq_filter {α : Type} (p : α → Bool) (l : List α)
    (h : (l.filter p).length ≤ 1) : (l.find? p).toList = l.filter p := by
  induction l with
  | nil => rfl
  | cons x xs ih =>
    by_cases hx : p x = true
    · simp only [List.filter_cons, hx, if_true, List.length_cons] at h
      have hnil : xs.filter p = [] := List.length_eq_zero.mp (by omega)
      simp [List.find?_cons, List.filter_cons, hx, hnil]
    · simp only [List.filter_cons, hx] at h
      simp only [Bool.not_eq_true] at hx
      simp only [Bool.false_eq_true, if_false] at h
      simp [List.find?_cons, List.filter_cons, hx, ih h]

/-- When no action has two matching bindings, the first matching binding of every action
gives the components of the rebuild's description. -/
theorem firstMatches_eq_specComponents (name : String) (side : Nat) (actions : List ActionInfo)
    (h : ∀ a ∈ actions, (a.actionBindings.filter (bindingMatches name side)).length ≤ 1) :
    (actions.filterMap fun a =>
      (a.actionBindings.find? (bindingMatches name side)).map fun b => (a, b.componetPath)) =
      specComponents name side actions := by
  induction actions with
  | nil => rfl
  | cons a rest ih =>
    have ha := find_toList_eq_filter (bindingMatches name side) a.actionBindings
      (h a (by simp))
    have hrest := ih (fun x hx => h x (by simp [hx]))
    unfold specComponents at hrest ⊢
    rw [List.flatMap_cons, ← hrest, ← ha, List.filterMap_cons]
    cases hf : a.actionBindings.find? (bindingMatches name side) with
    | none => simp
    | some b => simp

/-- Bindings that name pairwise different profiles: at most one of them matches a profile
name and a side. -/
theorem matches_le_one_of_nodup (name : String) (side : Nat) (l : List ActionBinding)
    (h : (l.map fun b => b.interactionProfile).Nodup) :
    (l.filter (bindingMatches name side)).length ≤ 1 := by
  induction l with
  | nil => simp
  | cons b rest ih =>
    rw [List.map_cons, List.nodup_cons] at h
    by_cases hb : bindingMatches name side b = true
    · have hname : b.interactionProfile = name := by
        simp only [bindingMatches, Bool.and_eq_true, decide_eq_true_eq] at hb
        exact hb.1
      have hnil : rest.filter (bindingMatches name side) = [] := by
        rw [List.filter_eq_nil_iff]
        intro x hx hm
        simp only [bindingMatches, Bool.and_eq_true, decide_eq_true_eq] at hm
        exact h.1 (List.mem_map.mpr ⟨x, hx, by rw [hm.1, hname]⟩)
      simp [List.filter_cons, hb, hnil]
    · simp only [List.filter_cons, hb]
      exact ih h.2

/-- No action declared by `CreateActions` has two bindings for the same profile. -/
theorem actionDecls_profiles_nodup (supportsViveTrackers supportsPalmPose : Bool) :
    ∀ d ∈ actionDecls supportsViveTrackers supportsPalmPose,
      (d.bindings.map fun b => b.interactionProfile).Nodup := by
  cases supportsViveTrackers <;> cases supportsPalmPose <;> decide

/-- C14, as stated, fails for an action with two binding entries that match: for the one
action with the wildcard bindings "trigger/value" and "trigger/click" to the motion
controller, the rebuild for that profile on the left hand creates one component, for the
first entry, while two entries match. -/
theorem two_matching_entries_one_component :
    (sampleRuntime fun _ => 7).PathToString 7 =
      "/interaction_profiles/microsoft/motion_controller" ∧
    (specComponents "/interaction_profiles/microsoft/motion_controller" 0
      [⟨1, "trigger", .XR_ACTION_TYPE_FLOAT_INPUT,
        [⟨"/interaction_profiles/microsoft/motion_controller", "trigger/value", none⟩,
         ⟨"/interaction_profiles/microsoft/motion_controller", "trigger/click", none⟩]⟩]).length =
      2 ∧
    ((InteractionProfileChanged (sampleRuntime fun _ => 7) sampleScene.scene
      (sampleScene.m_controllerData 0)
      [⟨1, "trigger", .XR_ACTION_TYPE_FLOAT_INPUT,
        [⟨"/interaction_profiles/microsoft/motion_controller", "trigger/value", none⟩,
         ⟨"/interaction_profiles/microsoft/motion_controller", "trigger/click", none⟩]⟩]
      0 7).2.components.map fun c => c.text) = ["trigger/value"] := by
  decide

/-- C14, amended. `InteractionProfileChanged` with a profile `P` that is not null on side
`s`, for every action list: the rebuilt component list has exactly one component for each
declared action that has a matching binding entry, in declaration order, built from the
first matching entry of the action (its text is the component path of that entry); an
entry matches if its interaction profile equals the name of `P` and its subaction path is
absent or equals the user path of side `s`. When no action has more than one matching
entry, that is one component per matching entry, and this is so for the actions of
`CreateActions`. -/
theorem rebuild_one_component_per_action (rt : Runtime) (scene : SceneObjects)
    (cd : ControllerData) (actions : List ActionInfo) (side : Nat) (p : XrPath)
    (hp : p ≠ XR_NULL_PATH) :
    ((InteractionProfileChanged rt scene cd actions side p).2.components.map
        fun c => (c.actionInfo, c.text)) =
      (actions.filterMap fun a =>
        (a.actionBindings.find? (bindingMatches (rt.PathToString p) side)).map
          fun b => (a, b.componetPath)) ∧
    ((∀ a ∈ actions,
        (a.actionBindings.filter (bindingMatches (rt.PathToString p) side)).length ≤ 1) →
      ((InteractionProfileChanged rt scene cd actions side p).2.components.map
          fun c => (c.actionInfo, c.text)) =
        specComponents (rt.PathToString p) side actions) ∧
    ∀ (createAction : String → XrActionType → List String → XrAction)
      (supportsViveTrackers supportsPalmPose : Bool),
      ((InteractionProfileChanged rt scene cd
          (CreateActions createAction supportsViveTrackers supportsPalmPose) side
          p).2.components.map fun c => (c.actionInfo, c.text)) =
        specComponents (rt.PathToString p) side
          (CreateActions createAction supportsViveTrackers supportsPalmPose) := by
  have hmain : ∀ acts : List ActionInfo,
      ((InteractionProfileChanged rt scene cd acts side p).2.components.map
          fun c => (c.actionInfo, c.text)) =
        (acts.filterMap fun a =>
          (a.actionBindings.find? (bindingMatches (rt.PathToString p) side)).map
            fun b => (a, b.componetPath)) := by
    intro acts
    rw [InteractionProfileChanged_components rt scene cd acts side p hp, insertComponents_map]
    simp
  refine ⟨hmain actions, ?_, ?_⟩
  · intro h
    rw [hmain, firstMatches_eq_specComponents _ _ _ h]
  · intro createAction tv pp
    rw [hmain, firstMatches_eq_specComponents]
    intro a ha
    obtain ⟨d, hd, rfl⟩ := List.mem_map.mp ha
    exact matches_le_one_of_nodup _ _ _ (actionDecls_profiles_nodup tv pp d hd)

/-- C14, amended, on the sample scene: the rebuild of the left hand for the motion
controller (profile 7) with the actions of `CreateActions` creates thirteen components,
one for each matching entry, the first three for the trigger and the squeeze. -/
theorem rebuild_one_component_per_action_witness :
    (7 : XrPath) ≠ XR_NULL_PATH ∧
    ((InteractionProfileChanged (sampleRuntime fun _ => 7) sampleScene.scene
        (sampleScene.m_controllerData 0) sampleScene.m_actions 0 7).2.components.map
        fun c => (c.actionInfo, c.text)) =
      specComponents "/interaction_profiles/microsoft/motion_controller" 0
        sampleScene.m_actions ∧
    ((specComponents "/interaction_profiles/microsoft/motion_controller" 0
        sampleScene.m_actions).map fun c => c.2) =
      ["trigger/value", "trigger/value", "squeeze/click", "thumbstick/x", "thumbstick/y",
       "thumbstick/click", "trackpad/x", "trackpad/y", "trackpad/touch", "trackpad/click",
       "menu/click", "aim/pose", "grip/pose"] :=
  ⟨by decide,
    (rebuild_one_component_per_action (sampleRuntime fun _ => 7) sampleScene.scene
      (sampleScene.m_controllerData 0) sampleScene.m_actions 0 7 (by decide)).2.2
      indexCreateAction false false,
    by decide⟩

/-- The insertion loop (lines 588-614) adds no object to the scene; every component it
appends has two objects created by the loop, and stands for a declared action with a
binding that matches, whose component path is its text. -/
theorem insertComponents_props (name : String) (side : Nat) (actions : List ActionInfo)
    (acc : SceneObjects × List ComponentData) :
    (actions.foldl (insertComponent name side) acc).1.objects = acc.1.objects ∧
    acc.1.nextObject ≤ (actions.foldl (insertComponent name side) acc).1.nextObject ∧
    ∀ c ∈ (actions.foldl (insertComponent name side) acc).2, c ∈ acc.2 ∨
      (acc.1.nextObject ≤ c.placementObject ∧
        c.placementObject < (actions.foldl (insertComponent name side) acc).1.nextObject ∧
        acc.1.nextObject ≤ c.valueObject ∧
        c.valueObject < (actions.foldl (insertComponent name side) acc).1.nextObject ∧
        c.actionInfo ∈ actions ∧
        ∃ b ∈ c.actionInfo.actionBindings,
          bindingMatches name side b = true ∧ c.text = b.componetPath) := by
  induction actions generalizing acc with
  | nil => exact ⟨rfl, Nat.le_refl _, fun c hc => Or.inl hc⟩
  | cons a rest ih =>
    rw [List.foldl_cons]
    obtain ⟨h1, h2, h3⟩ := ih (insertComponent name side acc a)
    cases hf : a.actionBindings.find? (bindingMatches name side) with
    | none =>
      have hstep : insertComponent name side acc a = acc := by
        unfold insertComponent; rw [hf]
      rw [hstep] at h1 h2 h3 ⊢
      refine ⟨h1, h2, fun c hc => ?_⟩
      rcases h3 c hc with h | ⟨k1, k2, k3, k4, k5, k6⟩
      · exact Or.inl h
      · exact Or.inr ⟨k1, k2, k3, k4, List.mem_cons_of_mem _ k5, k6⟩
    | some b =>
      have hstep : insertComponent name side acc a =
          (⟨acc.1.objects, acc.1.nextObject + 1 + 1⟩,
            acc.2 ++ [{ actionInfo := a, actionValue := 0, isActive := false,
                        text := b.componetPath, placementObject := acc.1.nextObject,
                        valueObject := acc.1.nextObject + 1 }]) := by
        unfold insertComponent; rw [hf]; rfl
      rw [hstep] at h1 h2 h3 ⊢
      simp only at h1 h2 h3
      have key : ∀ a b : Nat, a + 1 + 1 ≤ b → a ≤ b ∧ a < b ∧ a + 1 < b ∧ a ≤ a + 1 := by
        intro a b h; omega
      have key2 : ∀ a b : Nat, a + 1 + 1 ≤ b → a ≤ b := by
        intro a b h; omega
      obtain ⟨g1, g2, g3, g4⟩ := key _ _ h2
      refine ⟨h1, g1, fun c hc => ?_⟩
      rcases h3 c hc with h | ⟨k1, k2, k3, k4, k5, k6⟩
      · rcases List.mem_append.mp h with h | h
        · exact Or.inl h
        · rw [List.mem_singleton] at h
          subst h
          exact Or.inr ⟨Nat.le_refl _, g2, g4, g3, List.mem_cons_self _ _,
            b, List.mem_of_find?_eq_some hf, List.find?_some hf, rfl⟩
      · exact Or.inr ⟨key2 _ _ k1, k2, key2 _ _ k3, k4, List.mem_cons_of_mem _ k5, k6⟩

/-- The loop of lines 658-663 adds the two objects of every component to the scene and
creates no object. -/
theorem addComponents_objects (cs : List ComponentData) (scene : SceneObjects) :
    (cs.foldl
      (fun sc component =>
        (sc.AddObject component.placementObject).AddObject component.valueObject)
      scene).objects =
      scene.objects ++ cs.flatMap (fun c => [c.placementObject, c.valueObject]) ∧
    (cs.foldl
      (fun sc component =>
        (sc.AddObject component.placementObject).AddObject component.valueObject)
      scene).nextObject = scene.nextObject := by
  induction cs generalizing scene with
  | nil => simp
  | cons c rest ih =>
    simp only [List.foldl_cons]
    obtain ⟨h1, h2⟩ := ih ((scene.AddObject c.placementObject).AddObject c.valueObject)
    exact ⟨by rw [h1]; simp [SceneObjects.AddObject], by rw [h2]; rfl⟩

/-- The scene after `InteractionProfileChanged` for a profile that is not null: without
components the scene the insertion loop left, and otherwise that scene with the two
objects of every component and a new text object added. -/
theorem InteractionProfileChanged_scene (rt : Runtime) (scene : SceneObjects)
    (cd : ControllerData) (actions : List ActionInfo) (side : Nat) (p : XrPath)
    (hp : p ≠ XR_NULL_PATH) (inserted : SceneObjects × List ComponentData)
    (hi : inserted = actions.foldl (insertComponent (rt.PathToString p) side)
      ((cd.components.foldl
        (fun sc object =>
          (sc.RemoveObject (some object.placementObject)).RemoveObject
            (some object.valueObject))
        scene).RemoveObject cd.textObject, [])) :
    (InteractionProfileChanged rt scene cd actions side p).1 =
      match inserted.2 with
      | [] => inserted.1
      | _ :: _ =>
        ((inserted.2.foldl
          (fun sc component =>
            (sc.AddObject component.placementObject).AddObject component.valueObject)
          inserted.1).create.2).AddObject
          (inserted.2.foldl
            (fun sc component =>
              (sc.AddObject component.placementObject).AddObject component.valueObject)
            inserted.1).create.1 := by
  unfold InteractionProfileChanged
  simp only [hp, ne_eq, not_false_eq_true, decide_True, if_true, ← hi]
  split <;> rfl

theorem mem_AddObject (sc : SceneObjects) (x o : ObjectId) :
    o ∈ (sc.AddObject x).objects ↔ o ∈ sc.objects ∨ o = x := by
  simp [SceneObjects.AddObject]

theorem create_fst (sc : SceneObjects) : sc.create.1 = sc.nextObject := rfl

theorem create_objects (sc : SceneObjects) : sc.create.2.objects = sc.objects := rfl

/-- Every object of the scene after `InteractionProfileChanged` was in the scene after the
removal of the previous objects, or was created by the call. -/
theorem InteractionProfileChanged_objects (rt : Runtime) (scene : SceneObjects)
    (cd : ControllerData) (actions : List ActionInfo) (side : Nat) (p : XrPath) :
    ∀ o ∈ (InteractionProfileChanged rt scene cd actions side p).1.objects,
      o ∈ ((cd.components.foldl
        (fun sc object =>
          (sc.RemoveObject (some object.placementObject)).RemoveObject
            (some object.valueObject))
        scene).RemoveObject cd.textObject).objects ∨ scene.nextObject ≤ o := by
  intro o ho
  by_cases hp : p = XR_NULL_PATH
  · subst hp
    left
    simpa [InteractionProfileChanged, XR_NULL_PATH] using ho
  · have hnext := (removePrevious_objects cd scene).1
    obtain ⟨h1, h2, h3⟩ := insertComponents_props (rt.PathToString p) side actions
      ((cd.components.foldl
        (fun sc object =>
          (sc.RemoveObject (some object.placementObject)).RemoveObject
            (some object.valueObject))
        scene).RemoveObject cd.textObject, [])
    rw [InteractionProfileChanged_scene rt scene cd actions side p hp _ rfl] at ho
    generalize actions.foldl (insertComponent (rt.PathToString p) side)
      ((cd.components.foldl
        (fun sc object =>
          (sc.RemoveObject (some object.placementObject)).RemoveObject
            (some object.valueObject))
        scene).RemoveObject cd.textObject, []) = inserted at ho h1 h2 h3
    simp only at h1 h2 h3
    rw [hnext] at h2 h3
    cases hc : inserted.2 with
    | nil =>
      rw [hc] at ho
      simp only at ho
      left
      rw [← h1]
      exact ho
    | cons c rest =>
      rw [hc] at ho
      simp only at ho
      rw [mem_AddObject, create_objects, create_fst] at ho
      rw [← hc] at ho
      obtain ⟨a1, a2⟩ := addComponents_objects inserted.2 inserted.1
      rw [a1, a2] at ho
      rcases ho with ho | ho
      · rcases List.mem_append.mp ho with ho | ho
        · left; rw [← h1]; exact ho
        · right
          obtain ⟨x, hx, hox⟩ := List.mem_flatMap.mp ho
          rcases h3 x hx with h | ⟨k1, _, k3, _⟩
          · simp at h
          · simp only [List.mem_cons, List.mem_singleton, List.not_mem_nil, or_false] at hox
            rcases hox with rfl | rfl
            · exact k1
            · exact k3
      · right
        rw [ho]
        exact h2

/-- C15. `InteractionProfileChanged` from a profile A to a profile B on a path whose
previous objects were created before the call: there is a scene, the one after the removal
steps, that holds none of the placement objects and value objects of the previous
components nor the previous text object and in which no object has been created yet, and
the component list after the call is the one the insertion loop builds from the empty list
starting with that scene (the empty list if B is null). After the call the scene holds no
object of a previous component and not the previous text object, and every component of
the list is built for B: its two objects are not previous objects, and its action is a
declared action with a binding that matches the name of B and the side, whose component
path is the text of the component. -/
theorem previous_components_removed_before_rebuild (rt : Runtime) (scene : SceneObjects)
    (cd : ControllerData) (actions : List ActionInfo) (side : Nat) (p : XrPath)
    (hwf : ∀ o ∈ cd.sceneObjects, o < scene.nextObject) :
    (∃ cleared : SceneObjects,
      (∀ o ∈ cd.sceneObjects, o ∉ cleared.objects) ∧
      (∀ o ∈ cleared.objects, o ∈ scene.objects) ∧
      cleared.nextObject = scene.nextObject ∧
      (InteractionProfileChanged rt scene cd actions side p).2.components =
        if p ≠ XR_NULL_PATH then
          (actions.foldl (insertComponent (rt.PathToString p) side) (cleared, [])).2
        else []) ∧
    (∀ o ∈ cd.sceneObjects,
      o ∉ (InteractionProfileChanged rt scene cd actions side p).1.objects) ∧
    ∀ c ∈ (InteractionProfileChanged rt scene cd actions side p).2.components,
      c.placementObject ∉ cd.sceneObjects ∧ c.valueObject ∉ cd.sceneObjects ∧
      c.actionInfo ∈ actions ∧
      ∃ b ∈ c.actionInfo.actionBindings,
        bindingMatches (rt.PathToString p) side b = true ∧ c.text = b.componetPath := by
  obtain ⟨hnext, hmem⟩ := removePrevious_objects cd scene
  have hnot : ∀ o ∈ cd.sceneObjects, ∀ n : Nat, scene.nextObject ≤ n → o ≠ n := by
    intro o ho n hn h
    have := hwf o ho
    rw [h] at this
    exact absurd hn (Nat.not_le.mpr this)
  refine ⟨⟨_, fun o ho h => ((hmem o).mp h).2 ho, fun o h => ((hmem o).mp h).1, hnext, ?_⟩,
    ?_, ?_⟩
  · by_cases hp : p = XR_NULL_PATH
    · rw [if_neg (not_not.mpr hp), hp]
      exact (null_profile_clears_components rt scene cd actions side).1
    · rw [if_pos hp]
      exact InteractionProfileChanged_components rt scene cd actions side p hp
  · intro o ho h
    rcases InteractionProfileChanged_objects rt scene cd actions side p o h with h1 | h1
    · exact ((hmem o).mp h1).2 ho
    · exact hnot o ho o h1 rfl
  · intro c hc
    by_cases hp : p = XR_NULL_PATH
    · rw [hp, (null_profile_clears_components rt scene cd actions side).1] at hc
      simp at hc
    · rw [InteractionProfileChanged_components rt scene cd actions side p hp] at hc
      obtain ⟨_, _, h3⟩ := insertComponents_props (rt.PathToString p) side actions
        ((cd.components.foldl
          (fun sc object =>
            (sc.RemoveObject (some object.placementObject)).RemoveObject
              (some object.valueObject))
          scene).RemoveObject cd.textObject, [])
      rcases h3 c hc with h | ⟨k1, _, k3, _, k5, k6⟩
      · simp at h
      · rw [hnext] at k1 k3
        exact ⟨fun h => hnot _ h _ k1 rfl, fun h => hnot _ h _ k3 rfl, k5, k6⟩

/-- C15, on the sample scene whose left hand was resolved to the motion controller: its
thirteen components and its text object own the objects 4 to 30, all in the scene. The
profile changes to the simple controller (profile 9): none of these objects is left in the
scene, and the new components are the four of the simple controller. -/
theorem previous_components_removed_before_rebuild_witness :
    (resolvedScene.m_controllerData 0).sceneObjects = List.range' 4 27 ∧
    (∀ o ∈ (resolvedScene.m_controllerData 0).sceneObjects, o ∈ resolvedScene.scene.objects) ∧
    (∀ o ∈ (resolvedScene.m_controllerData 0).sceneObjects, o < resolvedScene.scene.nextObject) ∧
    (∀ o ∈ (resolvedScene.m_controllerData 0).sceneObjects,
      o ∉ (InteractionProfileChanged (sampleRuntime fun _ => 9) resolvedScene.scene
        (resolvedScene.m_controllerData 0) resolvedScene.m_actions 0 9).1.objects) ∧
    ((InteractionProfileChanged (sampleRuntime fun _ => 9) resolvedScene.scene
        (resolvedScene.m_controllerData 0) resolvedScene.m_actions 0 9).2.components.map
        fun c => (c.text, c.placementObject, c.valueObject)) =
      [("select/click", 31, 32), ("menu/click", 33, 34), ("aim/pose", 35, 36),
       ("grip/pose", 37, 38)] :=
  ⟨by decide, by decide, by decide,
    (previous_components_removed_before_rebuild (sampleRuntime fun _ => 9) resolvedScene.scene
      (resolvedScene.m_controllerData 0) resolvedScene.m_actions 0 9 (by decide)).2.1,
    by decide⟩

/-! ## The action state reader -/

/-- One call of `SetPointerVisibilityAndLocation` whose `xrLocateSpace` succeeds. -/
theorem SetPointerVisibilityAndLocation_ok (IsPoseValid : XrSpaceLocation → Bool)
    (menuActive : Bool) (object : PointerObject) (loc : XrSpaceLocation) :
    SetPointerVisibilityAndLocation IsPoseValid menuActive object (.ok loc) =
      .returned
        { visible := IsPoseValid loc && menuActive
          pose := if IsPoseValid loc then loc.pose else object.pose } := by
  unfold SetPointerVisibilityAndLocation
  cases h : IsPoseValid loc <;> simp [h]

/-- C17. After every update of `MenuScene` whose pointer locations are obtained, whatever
updates came before: a pointer object is visible if and only if its pointer space located
to a valid pose in this update and the menu action set is active; with a valid pose the
object takes the located pose, and with an invalid pose it is hidden and keeps the pose it
had. So an object hidden for an invalid pose is visible again after the first later
update with a valid pose while the menu is active. -/
theorem pointer_visible_iff_valid_and_active (IsPoseValid : XrSpaceLocation → Bool)
    (s0 : MenuPointers) (history : List (Bool × XrSpaceLocation × XrSpaceLocation))
    (menuActive : Bool) (left right : XrSpaceLocation) :
    ∃ s1, updatePointerObjects IsPoseValid menuActive (.ok left) (.ok right)
        (pointerUpdates IsPoseValid s0 history) = .returned s1 ∧
      (s1.m_leftPointerObject.visible = true ↔ IsPoseValid left = true ∧ menuActive = true) ∧
      (s1.m_rightPointerObject.visible = true ↔ IsPoseValid right = true ∧ menuActive = true) ∧
      (IsPoseValid left = true → s1.m_leftPointerObject.pose = left.pose) ∧
      (IsPoseValid right = true → s1.m_rightPointerObject.pose = right.pose) ∧
      (IsPoseValid left = false → s1.m_leftPointerObject.visible = false ∧
        s1.m_leftPointerObject.pose =
          (pointerUpdates IsPoseValid s0 history).m_leftPointerObject.pose) ∧
      (IsPoseValid right = false → s1.m_rightPointerObject.visible = false ∧
        s1.m_rightPointerObject.pose =
          (pointerUpdates IsPoseValid s0 history).m_rightPointerObject.pose) := by
  refine ⟨_, by
    unfold updatePointerObjects
    rw [SetPointerVisibilityAndLocation_ok, SetPointerVisibilityAndLocation_ok], ?_⟩
  cases hl : IsPoseValid left <;> cases hr : IsPoseValid right <;> cases menuActive <;>
    simp [hl, hr]

/-! ## ExtensionContext -/

theorem pushIfSupported_eq (requested : String) (enabled : List String)
    (supported : List XrExtensionProperties) :
    pushIfSupported requested enabled supported =
      enabled ++ (if runtimeSupports supported requested then [requested] else []) := by
  induction supported with
  | nil => simp [pushIfSupported, runtimeSupports]
  | cons s rest ih =>
    unfold pushIfSupported
    by_cases h : s.extensionName = requested
    · simp [h, runtimeSupports]
    · simp only [h, if_false, ih]
      simp [runtimeSupports, h]

theorem enabled_foldl (supported : List XrExtensionProperties) (requested : List String)
    (enabled : List String) :
    requested.foldl (fun enabled r => pushIfSupported r enabled supported) enabled =
      enabled ++ requested.filter (runtimeSupports supported) := by
  induction requested generalizing enabled with
  | nil => simp
  | cons r rest ih =>
    rw [List.foldl_cons, ih, pushIfSupported_eq]
    cases h : runtimeSupports supported r <;> simp [List.filter_cons, h]

theorem IsEnabled_iff (extensions : ExtensionContext) (n : String) :
    extensions.IsEnabled n = true ↔ n ∈ extensions.EnabledExtensions := by
  unfold ExtensionContext.IsEnabled
  rw [List.find?_isSome]
  simp

/-- C18. For every list of requested extensions and every list of runtime-supported
extensions, `EnabledExtensions` is the requested list with exactly those entries kept, in
order and with their multiplicity, whose name is the name of a runtime-supported
extension. Hence `IsEnabled(n)` is true if and only if `n` was requested and the runtime
supports it, and each `Supports` flag is `IsEnabled` of its extension name; the three
flags whose assignment is guarded by a platform macro are that value when the macro is
defined and false when it is not. -/
theorem enabled_extensions_are_requested_and_supported (names : ExtensionNames)
    (macros : PlatformMacros) (supported : List XrExtensionProperties)
    (requested : List String) :
    (CreateExtensionContext names macros supported requested).EnabledExtensions =
      requested.filter (fun r => supported.any fun s => decide (s.extensionName = r)) ∧
    (∀ n, (CreateExtensionContext names macros supported requested).IsEnabled n = true ↔
      n ∈ requested ∧ ∃ s ∈ supported, s.extensionName = n) ∧
    (CreateExtensionContext names macros supported requested).SupportsDepthInfo =
      (CreateExtensionContext names macros supported requested).IsEnabled
        names.XR_KHR_COMPOSITION_LAYER_DEPTH_EXTENSION_NAME ∧
    (CreateExtensionContext names macros supported requested).SupportsVisibilityMask =
      (CreateExtensionContext names macros supported requested).IsEnabled
        names.XR_KHR_VISIBILITY_MASK_EXTENSION_NAME ∧
    (CreateExtensionContext names macros supported requested).SupportsHandInteraction =
      (CreateExtensionContext names macros supported requested).IsEnabled
        names.XR_MSFT_HAND_INTERACTION_EXTENSION_NAME ∧
    (CreateExtensionContext names macros supported requested).SupportsEyeGazeInteraction =
      (CreateExtensionContext names macros supported requested).IsEnabled
        names.XR_EXT_EYE_GAZE_INTERACTION_EXTENSION_NAME ∧
    (CreateExtensionContext names macros supported requested).SupportsSecondaryViewConfiguration =
      (CreateExtensionContext names macros supported requested).IsEnabled
        names.XR_MSFT_SECONDARY_VIEW_CONFIGURATION_EXTENSION_NAME ∧
    (CreateExtensionContext names macros supported requested).SupportsHandJointTracking =
      (CreateExtensionContext names macros supported requested).IsEnabled
        names.XR_EXT_HAND_TRACKING_EXTENSION_NAME ∧
    (CreateExtensionContext names macros supported requested).SupportsColorScaleBias =
      (CreateExtensionContext names macros supported requested).IsEnabled
        names.XR_KHR_COMPOSITION_LAYER_COLOR_SCALE_BIAS_EXTENSION_NAME ∧
    (CreateExtensionContext names macros supported requested).SupportsPalmPose =
      (CreateExtensionContext names macros supported requested).IsEnabled
        names.XR_EXT_PALM_POSE_EXTENSION_NAME ∧
    (CreateExtensionContext names macros supported requested).SupportsViveTrackers =
      (CreateExtensionContext names macros supported requested).IsEnabled
        names.XR_HTCX_VIVE_TRACKER_INTERACTION_EXTENSION_NAME ∧
    (CreateExtensionContext names macros supported requested).SupportsD3D11 =
      (macros.XR_USE_GRAPHICS_API_D3D11 &&
        (CreateExtensionContext names macros supported requested).IsEnabled
          names.XR_KHR_D3D11_ENABLE_EXTENSION_NAME) ∧
    (CreateExtensionContext names macros supported requested).SupportsD3D12 =
      (macros.XR_USE_GRAPHICS_API_D3D12 &&
        (CreateExtensionContext names macros supported requested).IsEnabled
          names.XR_KHR_D3D12_ENABLE_EXTENSION_NAME) ∧
    (CreateExtensionContext names macros supported requested).SupportsAppContainer =
      (macros.XR_USE_PLATFORM_WIN32 &&
        (CreateExtensionContext names macros supported requested).IsEnabled
          names.XR_EXT_WIN32_APPCONTAINER_COMPATIBLE_EXTENSION_NAME) := by
  have hen : (CreateExtensionContext names macros supported requested).EnabledExtensions =
      requested.filter (runtimeSupports supported) := by
    simp [CreateExtensionContext, enabled_foldl]
  refine ⟨hen, ?_, rfl, rfl, rfl, rfl, rfl, rfl, rfl, rfl, rfl, ?_, ?_, ?_⟩
  · intro n
    rw [IsEnabled_iff, hen]
    simp [runtimeSupports]
  · cases h : macros.XR_USE_GRAPHICS_API_D3D11 <;>
      simp [CreateExtensionContext, ExtensionContext.IsEnabled, h]
  · cases h : macros.XR_USE_GRAPHICS_API_D3D12 <;>
      simp [CreateExtensionContext, ExtensionContext.IsEnabled, h]
  · cases h : macros.XR_USE_PLATFORM_WIN32 <;>
      simp [CreateExtensionContext, ExtensionContext.IsEnabled, h]

/-! ## Components and suggested bindings -/

theorem mem_specCompile (side : Nat) (actions : List ActionInfo) (profile : String)
    (a : ActionInfo) (b : ActionBinding) (e : SuggestedBinding)
    (ha : a ∈ actions) (hb : b ∈ a.actionBindings) (hp : b.interactionProfile = profile)
    (he : e ∈ specEntries side a.action b) : e ∈ specCompile side actions profile := by
  unfold specCompile
  rw [List.mem_flatMap]
  refine ⟨a, ha, ?_⟩
  rw [List.mem_flatMap]
  exact ⟨b, List.mem_filter.mpr ⟨hb, by simp [hp]⟩, he⟩

/-- The entry of the hand pass that a binding matching a hand side stands for. -/
theorem matching_binding_entry (name : String) (side pass : Nat)
    (hs : side = Side.Left ∨ side = Side.Right) (hpass : pass = Side.Left ∨ pass = Side.Right)
    (action : XrAction) (b : ActionBinding) (hm : bindingMatches name side b = true) :
    (⟨action, UserHandPath.getD side "" ++ "/input/" ++ b.componetPath⟩ : SuggestedBinding) ∈
      specEntries pass action b := by
  simp only [bindingMatches, Bool.and_eq_true, decide_eq_true_eq, Bool.or_eq_true] at hm
  unfold specEntries
  cases hsub : b.subactionPath with
  | none =>
    rw [wildcardPrefixes_hand pass hpass]
    rcases hs with rfl | rfl <;> simp [UserHandPath, Side.Left, Side.Right]
  | some s =>
    have h2 := hm.2
    rw [hsub] at h2
    simp only [Option.isNone_some, Bool.false_eq_true, false_or] at h2
    rcases hs with rfl | rfl
    · simp only [userPathOfSide, Side.Left, Side.Count, UserHandPath] at h2
      simp only [Nat.lt_add_one, Nat.ofNat_pos, if_true, List.getElem?_cons_zero,
        Option.some.injEq] at h2
      subst h2
      simp [UserHandPath, Side.Left]
    · simp only [userPathOfSide, Side.Right, Side.Count, UserHandPath] at h2
      simp only [Nat.one_lt_ofNat, if_true, List.getElem?_cons_succ, List.getElem?_cons_zero,
        Option.some.injEq] at h2
      subst h2
      simp [UserHandPath, Side.Right]

/-- C19. For each hand side `s`, each of the five hand profiles `P` and every action list,
in particular the declared action table: every component that `InteractionProfileChanged`
builds for `s` and `P`, with action `a` and text `c`, has the entry
`(a, UserHandPath[s] + "/input/" + c)` in the list that `InitializeSuggestBindings`
submits for `P` in a hand pass. -/
theorem components_correspond_to_suggested_bindings (rt : Runtime) (scene : SceneObjects)
    (cd : ControllerData) (actions : List ActionInfo) (side pass : Nat) (p : XrPath)
    (hs : side = Side.Left ∨ side = Side.Right)
    (hpass : pass = Side.Left ∨ pass = Side.Right)
    (hP : rt.PathToString p ∈
      ["/interaction_profiles/khr/simple_controller",
       "/interaction_profiles/microsoft/motion_controller",
       "/interaction_profiles/oculus/touch_controller",
       "/interaction_profiles/htc/vive_controller",
       "/interaction_profiles/valve/index_controller"]) :
    ∃ calls, InitializeSuggestBindings pass actions = some calls ∧
      ∀ c ∈ (InteractionProfileChanged rt scene cd actions side p).2.components,
        ∃ call ∈ calls, call.interactionProfile = rt.PathToString p ∧
          (⟨c.actionInfo.action, UserHandPath.getD side "" ++ "/input/" ++ c.text⟩ :
            SuggestedBinding) ∈ call.suggestedBindings := by
  have hlt : pass < controllerDataSize := by
    rcases hpass with rfl | rfl <;> decide
  refine ⟨_, InitializeSuggestBindings_calls pass hlt actions, ?_⟩
  intro c hc
  by_cases hp : p = XR_NULL_PATH
  · rw [hp, (null_profile_clears_components rt scene cd actions side).1] at hc
    simp at hc
  · rw [InteractionProfileChanged_components rt scene cd actions side p hp] at hc
    obtain ⟨_, _, h3⟩ := insertComponents_props (rt.PathToString p) side actions
      ((cd.components.foldl
        (fun sc object =>
          (sc.RemoveObject (some object.placementObject)).RemoveObject
            (some object.valueObject))
        scene).RemoveObject cd.textObject, [])
    rcases h3 c hc with h | ⟨_, _, _, _, k5, b, hb, hm, htext⟩
    · simp at h
    · have hprof : b.interactionProfile = rt.PathToString p := by
        simp only [bindingMatches, Bool.and_eq_true, decide_eq_true_eq] at hm
        exact hm.1
      refine ⟨⟨rt.PathToString p, specCompile pass actions (rt.PathToString p)⟩, ?_, rfl, ?_⟩
      · rw [List.mem_map]
        refine ⟨rt.PathToString p, ?_, rfl⟩
        simpa [passProfiles, hpass, InteractionProfiles.SimpleController,
          InteractionProfiles.MotionController, InteractionProfiles.TouchController,
          InteractionProfiles.ViveController, InteractionProfiles.IndexController] using hP
      · rw [htext]
        exact mem_specCompile pass actions _ c.actionInfo b _ k5 hb hprof
          (matching_binding_entry _ side pass hs hpass _ b hm)

/-- C19, on the sample scene: the right hand (side 1) resolved to the motion controller,
against the list submitted in the pass of the left hand. -/
theorem components_correspond_to_suggested_bindings_witness :
    ((1 : Nat) = Side.Left ∨ (1 : Nat) = Side.Right) ∧
    ∃ calls, InitializeSuggestBindings 0 sampleScene.m_actions = some calls ∧
      ∀ c ∈ (InteractionProfileChanged (sampleRuntime fun _ => 7) sampleScene.scene
          (sampleScene.m_controllerData 1) sampleScene.m_actions 1 7).2.components,
        ∃ call ∈ calls,
          call.interactionProfile = "/interaction_profiles/microsoft/motion_controller" ∧
          (⟨c.actionInfo.action, "/user/hand/right" ++ "/input/" ++ c.text⟩ :
            SuggestedBinding) ∈ call.suggestedBindings :=
  ⟨by decide,
    components_correspond_to_suggested_bindings (sampleRuntime fun _ => 7) sampleScene.scene
      (sampleScene.m_controllerData 1) sampleScene.m_actions 1 0 7 (by decide) (by decide)
      (by decide)⟩

/-! ## The constructor's FindAction calls -/

/-- A lookup in the actions of `CreateActions` is a lookup among the declared names. -/
theorem FindAction_CreateActions
    (createAction : String → XrActionType → List String → XrAction)
    (supportsViveTrackers supportsPalmPose : Bool) (name : String) :
    FindAction (CreateActions createAction supportsViveTrackers supportsPalmPose) name =
      ((actionDecls supportsViveTrackers supportsPalmPose).find?
        fun d => decide (d.actionName = name)).map
        (addAction createAction (allSubactionPaths supportsViveTrackers)) := by
  unfold FindAction CreateActions
  rw [List.find?_map]
  rfl

/-- Every name the constructor looks up is read inside its array and is a declared name,
for the four combinations of the two flags. -/
theorem constructor_names_declared (supportsViveTrackers supportsPalmPose : Bool) :
    ∀ side, side < upperBound supportsViveTrackers →
      ∀ n ∈ constructorFindActionNames supportsPalmPose side,
        (n.bind fun name =>
          (actionDecls supportsViveTrackers supportsPalmPose).find?
            fun d => decide (d.actionName = name)).isSome = true := by
  cases supportsViveTrackers <;> cases supportsPalmPose <;> decide

/-- C20. For every combination of `SupportsViveTrackers` and `SupportsPalmPose` and every
side of the constructor loop: every index `side - 2` is below 13, the size of
`UserTrackerPath` and of `trackerPoseActionName`, the user path of the side is read
inside its array, and every `FindAction` call of the iteration (aim, grip or tracker
pose, palm) finds an action of that name among the actions `CreateActions` declared under
the same flags, so the assertion `it != actions.end()` holds. -/
theorem constructor_FindAction_succeeds
    (createAction : String → XrActionType → List String → XrAction)
    (supportsViveTrackers supportsPalmPose : Bool) (side : Nat)
    (hside : side < upperBound supportsViveTrackers) :
    (Side.Count ≤ side → side - Side.Count < UserTrackerPath.length ∧
      side - Side.Count < trackerPoseActionName.length ∧ UserTrackerPath.length = 13 ∧
      trackerPoseActionName.length = 13) ∧
    (∃ userPathString, userPathOfSide side = some userPathString) ∧
    constructorFindActionNames supportsPalmPose side ≠ [] ∧
    ∀ n ∈ constructorFindActionNames supportsPalmPose side,
      ∃ name, n = some name ∧
        ∃ a, FindAction (CreateActions createAction supportsViveTrackers supportsPalmPose) name =
            some a ∧
          a.actionName = name ∧
          a ∈ CreateActions createAction supportsViveTrackers supportsPalmPose := by
  have hlt : side < 15 := by
    cases supportsViveTrackers <;>
      simp [upperBound, controllerDataSize, Side.Count, UserTrackerPath] at hside <;> omega
  refine ⟨?_, ?_, ?_, ?_⟩
  · have hall : ∀ s, s < 15 → Side.Count ≤ s →
        s - Side.Count < UserTrackerPath.length ∧
        s - Side.Count < trackerPoseActionName.length ∧ UserTrackerPath.length = 13 ∧
        trackerPoseActionName.length = 13 := by decide
    exact hall side hlt
  · have hall : ∀ s, s < 15 → (userPathOfSide s).isSome = true := by decide
    exact Option.isSome_iff_exists.mp (hall side hlt)
  · simp [constructorFindActionNames]
  · intro n hn
    have h := constructor_names_declared supportsViveTrackers supportsPalmPose side hside n hn
    cases n with
    | none => simp at h
    | some name =>
      refine ⟨name, rfl, ?_⟩
      simp only [Option.some_bind] at h
      obtain ⟨d, hd⟩ := Option.isSome_iff_exists.mp h
      have hfind := FindAction_CreateActions createAction supportsViveTrackers
        supportsPalmPose name
      rw [hd] at hfind
      refine ⟨_, hfind, ?_, ?_⟩
      · have := List.find?_some hd
        simpa [addAction] using this
      · exact List.mem_of_find?_eq_some hfind

/-- C20, for the tracker role "keyboard" (side 14) with both flags set: the index 12 is
inside the arrays and the lookup of "keyboard_pose" finds the action. -/
theorem constructor_FindAction_succeeds_witness :
    14 < upperBound true ∧
    constructorFindActionNames true 14 = [some "keyboard_pose"] ∧
    ∀ n ∈ constructorFindActionNames true 14,
      ∃ name, n = some name ∧
        ∃ a, FindAction (CreateActions indexCreateAction true true) name = some a ∧
          a.actionName = name ∧ a ∈ CreateActions indexCreateAction true true :=
  ⟨by decide, by decide,
    (constructor_FindAction_succeeds indexCreateAction true true 14 (by decide)).2.2.2⟩

/-! ## The declared action names -/

/-- C23. For every combination of `SupportsViveTrackers` and `SupportsPalmPose` the names
of the actions `CreateActions` declares in its one action set are pairwise distinct,
whatever handles the engine gives them; the numbers of declared actions are 32, 34, 45
and 47. -/
theorem declared_action_names_distinct
    (createAction : String → XrActionType → List String → XrAction)
    (supportsViveTrackers supportsPalmPose : Bool) :
    ((CreateActions createAction supportsViveTrackers supportsPalmPose).map
      fun a => a.actionName).Nodup ∧
    (CreateActions createAction supportsViveTrackers supportsPalmPose).length =
      28 + (if supportsPalmPose then 6 else 4) + (if supportsViveTrackers then 13 else 0) := by
  have h : ((CreateActions createAction supportsViveTrackers supportsPalmPose).map
      fun a => a.actionName) =
      (actionDecls supportsViveTrackers supportsPalmPose).map fun d => d.actionName := by
    simp [CreateActions, addAction, Function.comp_def]
  rw [h]
  have hl : (CreateActions createAction supportsViveTrackers supportsPalmPose).length =
      (actionDecls supportsViveTrackers supportsPalmPose).length := by
    simp [CreateActions]
  rw [hl]
  cases supportsViveTrackers <;> cases supportsPalmPose <;> decide

/-! ## ProjectionSamplingScene -/

/-- The loop from the power `2 ^ j` on, when `d` powers up to `2 ^ k` are still to be
pushed and the fuel suffices. -/
theorem sampleCountsLoop_powers (m k : Nat) (hk : 2 ^ k ≤ m) (hm : m < 2 ^ (k + 1))
    (hk30 : k ≤ 30) :
    ∀ (d j fuel : Nat) (acc : List Nat), j + d = k + 1 → d + 1 ≤ fuel →
      sampleCountsLoop m fuel (2 ^ j) acc = some (acc ++ (List.range' j d).map (2 ^ ·)) := by
  intro d
  induction d with
  | zero =>
    intro j fuel acc hj hf
    obtain ⟨f, rfl⟩ : ∃ f, fuel = f + 1 := ⟨fuel - 1, by omega⟩
    have hjk : j = k + 1 := by omega
    subst hjk
    simp [sampleCountsLoop, Nat.not_le.mpr hm]
  | succ d ih =>
    intro j fuel acc hj hf
    obtain ⟨f, rfl⟩ : ∃ f, fuel = f + 1 := ⟨fuel - 1, by omega⟩
    have hle : 2 ^ j ≤ m := Nat.le_trans (Nat.pow_le_pow_right (by decide) (by omega)) hk
    have hlt : 2 ^ (j + 1) < 2 ^ 32 := Nat.pow_lt_pow_right (by decide) (by omega)
    have hmod : 2 ^ j * 2 % 2 ^ 32 = 2 ^ (j + 1) := by
      rw [← Nat.pow_succ]
      exact Nat.mod_eq_of_lt hlt
    unfold sampleCountsLoop
    rw [if_pos hle, hmod, ih (j + 1) f (acc ++ [2 ^ j]) (by omega) (by omega)]
    simp [List.range'_succ]

theorem OnMenuClicked_in_range (s : ProjectionSamplingScene)
    (h0 : 0 ≤ s.m_sampleCountIndex)
    (h1 : s.m_sampleCountIndex < (s.m_sampleCounts.length : Int)) :
    ∃ s1, s.OnMenuClicked = some s1 ∧ s1.m_sampleCounts = s.m_sampleCounts ∧
      0 ≤ s1.m_sampleCountIndex ∧ s1.m_sampleCountIndex < (s1.m_sampleCounts.length : Int) ∧
      s.m_sampleCounts[s.m_sampleCountIndex.toNat]? = some s1.SwapchainSampleCount := by
  have hlt : s.m_sampleCountIndex.toNat < s.m_sampleCounts.length := by omega
  have hpos : (0 : Int) < (s.m_sampleCounts.length : Int) := by omega
  unfold ProjectionSamplingScene.OnMenuClicked
  rw [if_pos h0, List.getElem?_eq_getElem hlt]
  exact ⟨_, rfl, rfl, Int.emod_nonneg _ (by omega), Int.emod_lt_of_pos _ hpos, rfl⟩

theorem clicks_in_range (n : Nat) (s : ProjectionSamplingScene)
    (h0 : 0 ≤ s.m_sampleCountIndex)
    (h1 : s.m_sampleCountIndex < (s.m_sampleCounts.length : Int)) :
    ∃ s1, ProjectionSamplingScene.clicks n s = some s1 ∧
      s1.m_sampleCounts = s.m_sampleCounts ∧
      0 ≤ s1.m_sampleCountIndex ∧ s1.m_sampleCountIndex < (s1.m_sampleCounts.length : Int) := by
  induction n generalizing s with
  | zero => exact ⟨s, rfl, rfl, h0, h1⟩
  | succ n ih =>
    obtain ⟨s1, hs1, hl, a0, a1, _⟩ := OnMenuClicked_in_range s h0 h1
    obtain ⟨s2, hs2, hl2, b0, b1⟩ := ih s1 a0 a1
    exact ⟨s2, by simp [ProjectionSamplingScene.clicks, hs1, hs2], by rw [hl2, hl], b0, b1⟩

/-- C25. With `uint32_t` arithmetic modulo `2 ^ 32`, for every `maxSwapchainSampleCount`
`m` with `1 <= m < 2 ^ 31`: there is `k` with `2 ^ k <= m < 2 ^ (k + 1)` such that the
loop of the constructor terminates, within 33 loop tests, with `m_sampleCounts` exactly
`[1, 2, 4, ..., 2 ^ k]`; the list is not empty, the constructor completes, and after the
constructor and after any number of menu clicks `OnMenuClicked` reads inside the list and
`m_sampleCountIndex` is at least 0 and below the size of the list. -/
theorem sample_counts_are_powers_of_two (m : Nat) (h1 : 1 ≤ m) (h2 : m < 2 ^ 31) :
    ∃ k, 2 ^ k ≤ m ∧ m < 2 ^ (k + 1) ∧
      ∀ fuel, 33 ≤ fuel →
        sampleCountsLoop m fuel 1 [] = some ((List.range (k + 1)).map (2 ^ ·)) ∧
        ∃ s, ProjectionSamplingScene.new fuel m = some s ∧
          s.m_sampleCounts = (List.range (k + 1)).map (2 ^ ·) ∧
          s.m_sampleCounts ≠ [] ∧
          s.SwapchainSampleCount = 1 ∧
          ∀ n, ∃ s1, ProjectionSamplingScene.clicks n s = some s1 ∧
            s1.m_sampleCounts = s.m_sampleCounts ∧
            0 ≤ s1.m_sampleCountIndex ∧
            s1.m_sampleCountIndex < (s1.m_sampleCounts.length : Int) ∧
            ∃ s2, s1.OnMenuClicked = some s2 := by
  have hm0 : m ≠ 0 := by omega
  have hk : 2 ^ Nat.log 2 m ≤ m := Nat.pow_log_le_self 2 hm0
  have hm : m < 2 ^ (Nat.log 2 m + 1) := Nat.lt_pow_succ_log_self (by decide) m
  have hk30 : Nat.log 2 m ≤ 30 := by
    by_contra hc
    have h31 : 2 ^ 31 ≤ 2 ^ Nat.log 2 m := Nat.pow_le_pow_right (by decide) (by omega)
    omega
  refine ⟨Nat.log 2 m, hk, hm, ?_⟩
  intro fuel hf
  have hloop := sampleCountsLoop_powers m (Nat.log 2 m) hk hm hk30 (Nat.log 2 m + 1) 0 fuel []
    (by omega) (by omega)
  have hloop2 : sampleCountsLoop m fuel 1 [] =
      some ((List.range (Nat.log 2 m + 1)).map (2 ^ ·)) := by
    rw [List.range_eq_range']
    simpa using hloop
  refine ⟨hloop2, ?_⟩
  obtain ⟨s, hs, hl, a0, a1, hread⟩ := OnMenuClicked_in_range
    { m_sampleCountIndex := 0
      m_sampleCounts := (List.range (Nat.log 2 m + 1)).map (2 ^ ·)
      SwapchainSampleCount := 1
      MenuText := "Projection MSAA" }
    (Int.le_refl 0) (by simp)
  refine ⟨s, by simp [ProjectionSamplingScene.new, hloop2, hs], hl, ?_, ?_, ?_⟩
  · rw [hl]; simp
  · have : s.SwapchainSampleCount = 1 := by
      simp [List.range_succ_eq_map] at hread
      exact hread.symm
    exact this
  · intro n
    obtain ⟨s1, c1, c2, c3, c4⟩ := clicks_in_range n s a0 a1
    obtain ⟨s2, d1, _⟩ := OnMenuClicked_in_range s1 c3 c4
    exact ⟨s1, c1, c2, c3, c4, s2, d1⟩

/-- C25, for `maxSwapchainSampleCount` 8: the list is `[1, 2, 4, 8]`, and after five
clicks the index is 2 and the sample count 2. -/
theorem sample_counts_are_powers_of_two_witness :
    (1 ≤ 8 ∧ 8 < 2 ^ 31) ∧
    (∃ k, 2 ^ k ≤ 8 ∧ 8 < 2 ^ (k + 1) ∧
      sampleCountsLoop 8 33 1 [] = some ((List.range (k + 1)).map (2 ^ ·))) ∧
    sampleCountsLoop 8 33 1 [] = some [1, 2, 4, 8] ∧
    ((ProjectionSamplingScene.new 33 8).bind (ProjectionSamplingScene.clicks 5)).map
      (fun s => (s.m_sampleCountIndex, s.SwapchainSampleCount)) = some (2, 2) := by
  obtain ⟨k, a, b, c⟩ := sample_counts_are_powers_of_two 8 (by decide) (by decide)
  exact ⟨by decide, ⟨k, a, b, (c 33 (by decide)).1⟩, by decide, by decide⟩

/-! ## SwapchainFormatScene -/

theorem candidateFormats_foldl (nameMap : List (DXGI_FORMAT × String)) (all : List Int) :
    ∀ (rest : List Int) (acc : List DXGI_FORMAT), (∀ f ∈ rest, f ∈ all) →
      rest.foldl
        (fun candidates format =>
          if all.contains format && inNameMap nameMap format then candidates ++ [format]
          else candidates)
        acc = acc ++ rest.filter (inNameMap nameMap) := by
  intro rest
  induction rest with
  | nil => intro acc _; simp
  | cons f rest ih =>
    intro acc hall
    have hf : all.contains f = true := by simpa using hall f (List.mem_cons_self _ _)
    rw [List.foldl_cons, ih _ (fun g hg => hall g (List.mem_cons_of_mem _ hg))]
    have hmem : f ∈ all := hall f (List.mem_cons_self _ _)
    cases hm : inNameMap nameMap f <;> simp [hf, hmem, hm, List.filter_cons]

theorem filter_getElem?_zero {α : Type} (p : α → Bool) (l : List α) :
    (l.filter p)[0]? = l.find? p := by
  induction l with
  | nil => rfl
  | cons a l ih =>
    cases h : p a <;> simp [List.filter_cons, List.find?_cons, h, ih]

/-- The candidate list is the runtime formats that are in the name map, in the order of the
runtime, followed by `DXGI_FORMAT_UNKNOWN` when that is in the name map. -/
theorem candidateFormats_eq (nameMap : List (DXGI_FORMAT × String)) (supported : List Int) :
    candidateFormats nameMap supported =
      supported.filter (inNameMap nameMap) ++
        (if inNameMap nameMap DXGI_FORMAT_UNKNOWN then [DXGI_FORMAT_UNKNOWN] else []) := by
  unfold candidateFormats
  simp only []
  rw [candidateFormats_foldl nameMap supported supported [] (fun _ h => h)]
  cases inNameMap nameMap DXGI_FORMAT_UNKNOWN <;> simp

/-- C26, counterexample. A runtime that lists only the two sRGB colour formats: the depth
format scene has the single candidate `DXGI_FORMAT_UNKNOWN`, and the constructor applies
it as the default format: the menu text is "No Depth" and the layer submits no depth
information. -/
theorem unknown_is_default_without_other_candidate :
    candidateFormats depthFormatNameMap
      [DXGI_FORMAT_R8G8B8A8_UNORM_SRGB, DXGI_FORMAT_B8G8R8A8_UNORM_SRGB] =
      [DXGI_FORMAT_UNKNOWN] ∧
    SwapchainFormatScene.new depthFormatAction [sampleLayerConfig] depthFormatNameMap
      [DXGI_FORMAT_R8G8B8A8_UNORM_SRGB, DXGI_FORMAT_B8G8R8A8_UNORM_SRGB] =
      some
        { m_projectionLayers :=
            [{ ColorSwapchainFormat := DXGI_FORMAT_B8G8R8A8_UNORM_SRGB
               DepthSwapchainFormat := DXGI_FORMAT_D16_UNORM
               SubmitDepthInfo := false }]
          m_swapchainFormatNameMap := depthFormatNameMap
          m_candidateFormats := [DXGI_FORMAT_UNKNOWN]
          m_currentFormatIndex := 0
          MenuText := "No Depth" } := by
  decide

/-- C26, amended. `DXGI_FORMAT_UNKNOWN`, when it is in the name map, is appended after all
runtime formats that are in the name map; and for every list of runtime formats of which
the first one that is in the name map, `first`, is not `DXGI_FORMAT_UNKNOWN`, the
constructor completes and the default format, candidate 0, which it applies to every
projection layer and whose name it shows, is `first` and not `DXGI_FORMAT_UNKNOWN`. -/
theorem unknown_is_appended_last
    (changeSwapchainFormatAction : ProjectionLayerConfig → DXGI_FORMAT → ProjectionLayerConfig)
    (projectionLayers : List ProjectionLayerConfig)
    (swapchainFormatNameMap : List (DXGI_FORMAT × String))
    (systemSupportedFormat : List Int) (first : DXGI_FORMAT)
    (hfirst : systemSupportedFormat.find? (inNameMap swapchainFormatNameMap) = some first)
    (hknown : first ≠ DXGI_FORMAT_UNKNOWN) :
    candidateFormats swapchainFormatNameMap systemSupportedFormat =
      systemSupportedFormat.filter (inNameMap swapchainFormatNameMap) ++
        (if inNameMap swapchainFormatNameMap DXGI_FORMAT_UNKNOWN then [DXGI_FORMAT_UNKNOWN]
         else []) ∧
    ∃ s name,
      SwapchainFormatScene.new changeSwapchainFormatAction projectionLayers
        swapchainFormatNameMap systemSupportedFormat = some s ∧
      s.m_currentFormatIndex = 0 ∧
      s.m_candidateFormats = candidateFormats swapchainFormatNameMap systemSupportedFormat ∧
      s.m_candidateFormats[0]? = some first ∧
      s.m_candidateFormats[0]? ≠ some DXGI_FORMAT_UNKNOWN ∧
      s.m_projectionLayers =
        projectionLayers.map (fun config => changeSwapchainFormatAction config first) ∧
      swapchainFormatNameMap.lookup first = some name ∧
      s.MenuText = name := by
  refine ⟨candidateFormats_eq _ _, ?_⟩
  have hin : inNameMap swapchainFormatNameMap first = true := by
    have := List.find?_some hfirst
    simpa using this
  obtain ⟨name, hname⟩ : ∃ name, swapchainFormatNameMap.lookup first = some name := by
    unfold inNameMap at hin
    exact Option.isSome_iff_exists.mp hin
  have hhead : (systemSupportedFormat.filter (inNameMap swapchainFormatNameMap))[0]? =
      some first := by
    rw [filter_getElem?_zero]
    exact hfirst
  have hcand0 : (candidateFormats swapchainFormatNameMap systemSupportedFormat)[0]? =
      some first := by
    rw [candidateFormats_eq]
    cases hl : systemSupportedFormat.filter (inNameMap swapchainFormatNameMap) with
    | nil => rw [hl] at hhead; simp at hhead
    | cons a rest => rw [hl] at hhead; simpa using hhead
  have hlen : 1 ≤ (candidateFormats swapchainFormatNameMap systemSupportedFormat).length := by
    cases hc : candidateFormats swapchainFormatNameMap systemSupportedFormat with
    | nil => rw [hc] at hcand0; simp at hcand0
    | cons a rest => simp
  have hnew : SwapchainFormatScene.new changeSwapchainFormatAction projectionLayers
      swapchainFormatNameMap systemSupportedFormat =
      some
        { m_projectionLayers :=
            projectionLayers.map fun config => changeSwapchainFormatAction config first
          m_swapchainFormatNameMap := swapchainFormatNameMap
          m_candidateFormats := candidateFormats swapchainFormatNameMap systemSupportedFormat
          m_currentFormatIndex := 0
          MenuText := name } := by
    unfold SwapchainFormatScene.new
    simp only []
    rw [if_pos hlen]
    unfold SwapchainFormatScene.SetProjectionConfiguration
    simp only [hcand0, hname]
  refine ⟨_, name, hnew, rfl, rfl, hcand0, ?_, rfl, hname, rfl⟩
  show (candidateFormats swapchainFormatNameMap systemSupportedFormat)[0]? ≠ _
  rw [hcand0]
  intro h
  exact hknown (Option.some.inj h)

/-- C26, amended claim, for a runtime that lists a colour format, then D32_FLOAT, then
D16_UNORM: the candidates of the depth scene are D32_FLOAT, D16_UNORM and UNKNOWN, and
the default is D32_FLOAT. -/
theorem unknown_is_appended_last_witness :
    ([DXGI_FORMAT_R8G8B8A8_UNORM_SRGB, DXGI_FORMAT_D32_FLOAT, DXGI_FORMAT_D16_UNORM].find?
        (inNameMap depthFormatNameMap) = some DXGI_FORMAT_D32_FLOAT ∧
      DXGI_FORMAT_D32_FLOAT ≠ DXGI_FORMAT_UNKNOWN) ∧
    candidateFormats depthFormatNameMap
      [DXGI_FORMAT_R8G8B8A8_UNORM_SRGB, DXGI_FORMAT_D32_FLOAT, DXGI_FORMAT_D16_UNORM] =
      [DXGI_FORMAT_D32_FLOAT, DXGI_FORMAT_D16_UNORM, DXGI_FORMAT_UNKNOWN] ∧
    ∃ s,
      SwapchainFormatScene.new depthFormatAction [sampleLayerConfig] depthFormatNameMap
        [DXGI_FORMAT_R8G8B8A8_UNORM_SRGB, DXGI_FORMAT_D32_FLOAT, DXGI_FORMAT_D16_UNORM] =
        some s ∧
      s.m_candidateFormats[0]? = some DXGI_FORMAT_D32_FLOAT ∧ s.MenuText = "D32_FLOAT" := by
  obtain ⟨_, s, name, h1, _, _, h4, _, _, h7, h8⟩ :=
    unknown_is_appended_last depthFormatAction [sampleLayerConfig] depthFormatNameMap
      [DXGI_FORMAT_R8G8B8A8_UNORM_SRGB, DXGI_FORMAT_D32_FLOAT, DXGI_FORMAT_D16_UNORM]
      DXGI_FORMAT_D32_FLOAT (by decide) (by decide)
  refine ⟨⟨by decide, by decide⟩, by decide, s, h1, h4, ?_⟩
  have hn : List.lookup DXGI_FORMAT_D32_FLOAT depthFormatNameMap = some "D32_FLOAT" := by
    decide
  rw [h8]
  exact Option.some.inj (h7.symm.trans hn)

/-! ## GenerateCheckboardData -/

/-- Crossing a column (or row) border flips the parity of the cell index. -/
theorem toggle_filled (c x k : Nat) :
    (if (x + 1) % c = 0 then !decide ((x / c + k) % 2 = 0) else decide ((x / c + k) % 2 = 0)) =
      decide (((x + 1) / c + k) % 2 = 0) := by
  rw [Nat.succ_div]
  by_cases h : (x + 1) % c = 0
  · have hd : c ∣ x + 1 := Nat.dvd_of_mod_eq_zero h
    by_cases hp : (x / c + k) % 2 = 0
    · have hq : ¬ (x / c + 1 + k) % 2 = 0 := by omega
      simp [h, hd, hp, hq]
    · have hq : (x / c + 1 + k) % 2 = 0 := by omega
      simp [h, hd, hp, hq]
  · have hd : ¬ c ∣ x + 1 := fun hd => h (Nat.mod_eq_zero_of_dvd hd)
    simp [h, hd]

theorem uint32_of_lt (n : Nat) (h : n < 2 ^ 32) : uint32 n = n := Nat.mod_eq_of_lt h

/-- One row: the pixels from column `x` on are written with the pattern, the rest of the
buffer is untouched, and `filled` ends as the pattern asks at column `widthInPixels`. -/
theorem checkboardRow_spec (w cw rh y L : Nat) (hcw : 0 < cw) (hidx : y * w + w ≤ L)
    (hL : L < 2 ^ 32) :
    ∀ (n x : Nat) (buffer : List Nat), x + n = w → buffer.length = L →
      ∃ buffer1,
        checkboardRow w cw y n x (buffer, decide ((x / cw + y / rh) % 2 = 0)) =
          some (buffer1, decide ((w / cw + y / rh) % 2 = 0)) ∧
        buffer1.length = L ∧
        (∀ i, i < y * w + x ∨ y * w + w ≤ i → buffer1[i]? = buffer[i]?) ∧
        ∀ x1, x ≤ x1 → x1 < w →
          buffer1[y * w + x1]? = some (checkboardPixel cw rh x1 y) := by
  intro n
  induction n with
  | zero =>
    intro x buffer hx hlen
    have hxw : x = w := by omega
    subst hxw
    exact ⟨buffer, rfl, hlen, fun _ _ => rfl, fun x1 h1 h2 => absurd h1 (by omega)⟩
  | succ n ih =>
    intro x buffer hx hlen
    have h1 : uint32 (y * w) = y * w := uint32_of_lt _ (by omega)
    have h2 : uint32 (y * w + x) = y * w + x := uint32_of_lt _ (by omega)
    have h3 : uint32 (x + 1) = x + 1 := uint32_of_lt _ (by omega)
    have hin : y * w + x < buffer.length := by omega
    have hcw0 : cw ≠ 0 := by omega
    obtain ⟨buffer1, e1, e2, e3, e4⟩ := ih (x + 1)
      (buffer.set (y * w + x)
        (if decide ((x / cw + y / rh) % 2 = 0) then 0xFF000000 else 0xFFFFFFFF))
      (by omega) (by rw [List.length_set]; exact hlen)
    refine ⟨buffer1, ?_, e2, ?_, ?_⟩
    · unfold checkboardRow
      rw [h1, h2, h3]
      simp only [writeBuffer, if_pos hin, if_neg hcw0]
      rw [toggle_filled cw x (y / rh)]
      exact e1
    · intro i hi
      rw [e3 i (by omega), List.getElem?_set_ne (by omega)]
    · intro x1 hx1 hx1w
      by_cases hxx : x1 = x
      · subst hxx
        rw [e3 (y * w + x1) (by omega), List.getElem?_set_self hin]
        simp [checkboardPixel]
      · exact e4 x1 (by omega) hx1w

/-- The rows from `y` on: every pixel of these rows is written with the pattern and the
rows above are untouched. -/
theorem checkboardRows_spec (w h cw rh : Nat) (hw : 0 < w) (hcw : 0 < cw) (hrh : 0 < rh)
    (heven : (w / cw) % 2 = 0) (hL : w * h < 2 ^ 32) :
    ∀ (n y : Nat) (buffer : List Nat), y + n = h → buffer.length = w * h →
      ∃ buffer1 filled1,
        checkboardRows w cw rh n y (buffer, decide ((y / rh) % 2 = 0)) =
          some (buffer1, filled1) ∧
        buffer1.length = w * h ∧
        (∀ i, i < y * w → buffer1[i]? = buffer[i]?) ∧
        ∀ y1 x1, y ≤ y1 → y1 < h → x1 < w →
          buffer1[y1 * w + x1]? = some (checkboardPixel cw rh x1 y1) := by
  intro n
  induction n with
  | zero =>
    intro y buffer hy hlen
    exact ⟨buffer, _, rfl, hlen, fun _ _ => rfl, fun y1 x1 h1 h2 _ => absurd h1 (by omega)⟩
  | succ n ih =>
    intro y buffer hy hlen
    have hrow : y * w + w ≤ w * h := by
      have h1 : (y + 1) * w ≤ h * w := Nat.mul_le_mul_right w (by omega)
      rw [Nat.succ_mul] at h1
      rw [Nat.mul_comm w h]
      exact h1
    have hhw : h ≤ w * h := Nat.le_mul_of_pos_left h hw
    have h3 : uint32 (y + 1) = y + 1 := uint32_of_lt _ (by omega)
    have hrh0 : rh ≠ 0 := by omega
    obtain ⟨buffer1, r1, r2, r3, r4⟩ :=
      checkboardRow_spec w cw rh y (w * h) hcw hrow hL w 0 buffer (by omega) hlen
    have hstart : decide ((0 / cw + y / rh) % 2 = 0) = decide ((y / rh) % 2 = 0) := by
      rw [Nat.zero_div, Nat.zero_add]
    have hend : decide ((w / cw + y / rh) % 2 = 0) = decide ((y / rh + 0) % 2 = 0) := by
      have : (w / cw + y / rh) % 2 = (y / rh + 0) % 2 := by omega
      rw [this]
    rw [hstart, hend] at r1
    have htoggle := toggle_filled rh y 0
    simp only [Nat.add_zero] at htoggle r1
    obtain ⟨buffer2, filled2, s1, s2, s3, s4⟩ := ih (y + 1) buffer1 (by omega) r2
    refine ⟨buffer2, filled2, ?_, s2, ?_, ?_⟩
    · unfold checkboardRows
      rw [r1]
      simp only [if_neg hrh0]
      rw [h3, htoggle]
      exact s1
    · intro i hi
      rw [s3 i (by rw [Nat.succ_mul]; omega), r3 i (by omega)]
    · intro y1 x1 hy1 hy1h hx1
      by_cases hyy : y1 = y
      · subst hyy
        rw [s3 (y1 * w + x1) (by rw [Nat.succ_mul]; omega)]
        exact r4 x1 (Nat.zero_le _) hx1
      · exact s4 y1 x1 (by omega) hy1h hx1

/-- C24, counterexample. For a width and height of 65536 with 32 pixel wide cells the
`uint32_t` product `widthInPixels * heightInPixels` is 0: the buffer is allocated with no
entry instead of `65536 * 65536`, and the first write falls outside it. -/
theorem checkboard_size_wraps :
    (0 < 65536 ∧ 0 < 32 ∧ (65536 / 32) % 2 = 0) ∧
    uint32 (65536 * 65536) = 0 ∧
    GenerateCheckboardData 65536 65536 32 32 = none ∧
    ¬ ∃ buffer, GenerateCheckboardData 65536 65536 32 32 = some buffer ∧
        buffer.length = 65536 * 65536 := by
  have h : GenerateCheckboardData 65536 65536 32 32 = none := by decide
  refine ⟨by decide, by decide, h, ?_⟩
  rintro ⟨buffer, hb, _⟩
  rw [h] at hb
  exact Option.noConfusion hb

/-- C24, amended. For all positive width, height, column width and row height such that
`width * height < 2 ^ 32` and `floor(width / columnWidth)` is even, the function returns a
buffer of `width * height` entries whose pixel at `(x, y)`, stored at index
`y * width + x`, is 0xFF000000 if `floor(x / columnWidth) + floor(y / rowHeight)` is even
and 0xFFFFFFFF otherwise. -/
theorem checkboard_pattern (widthInPixels heightInPixels columnWidthInPixels
    rowHeightInPixels : Nat)
    (hw : 0 < widthInPixels) (_hh : 0 < heightInPixels) (hcw : 0 < columnWidthInPixels)
    (hrh : 0 < rowHeightInPixels) (hsize : widthInPixels * heightInPixels < 2 ^ 32)
    (heven : (widthInPixels / columnWidthInPixels) % 2 = 0) :
    ∃ buffer,
      GenerateCheckboardData widthInPixels heightInPixels columnWidthInPixels
        rowHeightInPixels = some buffer ∧
      buffer.length = widthInPixels * heightInPixels ∧
      ∀ x y, x < widthInPixels → y < heightInPixels →
        buffer[y * widthInPixels + x]? =
          some (if (x / columnWidthInPixels + y / rowHeightInPixels) % 2 = 0 then 0xFF000000
            else 0xFFFFFFFF) := by
  obtain ⟨buffer1, filled1, s1, s2, _, s4⟩ :=
    checkboardRows_spec widthInPixels heightInPixels columnWidthInPixels rowHeightInPixels
      hw hcw hrh heven hsize heightInPixels 0
      (List.replicate (uint32 (widthInPixels * heightInPixels)) 0) (by omega)
      (by rw [List.length_replicate, uint32_of_lt _ hsize])
  have hstart : decide ((0 / rowHeightInPixels) % 2 = 0) = true := by simp
  rw [hstart] at s1
  refine ⟨buffer1, ?_, s2, ?_⟩
  · unfold GenerateCheckboardData
    simp only []
    rw [s1]
    rfl
  · intro x y hx hy
    exact s4 y x (Nat.zero_le _) hy hx

/-- C24, amended claim, at the first call site: 512 by 512 pixels in cells of 32 by 32. -/
theorem checkboard_pattern_witness :
    (0 < 512 ∧ 0 < 32 ∧ 512 * 512 < 2 ^ 32 ∧ (512 / 32) % 2 = 0) ∧
    ∃ buffer,
      GenerateCheckboardData 512 512 32 32 = some buffer ∧
      buffer.length = 512 * 512 ∧
      ∀ x y, x < 512 → y < 512 →
        buffer[y * 512 + x]? =
          some (if (x / 32 + y / 32) % 2 = 0 then 0xFF000000 else 0xFFFFFFFF) :=
  ⟨by decide,
    checkboard_pattern 512 512 32 32 (by decide) (by decide) (by decide) (by decide)
      (by decide) (by decide)⟩

/-- A board of 4 by 4 pixels in cells of 2 by 2, evaluated. -/
theorem checkboard_four_by_four :
    GenerateCheckboardData 4 4 2 2 =
      some [0xFF000000, 0xFF000000, 0xFFFFFFFF, 0xFFFFFFFF,
            0xFF000000, 0xFF000000, 0xFFFFFFFF, 0xFFFFFFFF,
            0xFFFFFFFF, 0xFFFFFFFF, 0xFF000000, 0xFF000000,
            0xFFFFFFFF, 0xFFFFFFFF, 0xFF000000, 0xFF000000] := by
  decide

/-! ## MenuScene: the menu items -/

theorem sceneMenuItems_foldl (buttonObject : MenuItemObject) :
    ∀ (entries : List (Nat × AppScene)) (acc : List MenuItem),
      entries.foldl
        (fun m_menuItems entry => m_menuItems ++ [sceneMenuItem buttonObject entry.1 entry.2])
        acc = acc ++ entries.map fun entry => sceneMenuItem buttonObject entry.1 entry.2 := by
  intro entries
  induction entries with
  | nil => intro acc; simp
  | cons e rest ih => intro acc; rw [List.foldl_cons, ih]; simp

/-- The constructor's list: one item per scene, in the order of `app.Scenes()`, then the
three non-scene items. -/
theorem constructorMenuItems_eq (buttonObject : MenuItemObject) (scenes : List AppScene) :
    constructorMenuItems buttonObject scenes =
      ((List.range scenes.length).zip scenes).map
        (fun entry => sceneMenuItem buttonObject entry.1 entry.2) ++
        nonSceneMenuItems buttonObject := by
  unfold constructorMenuItems
  rw [sceneMenuItems_foldl]
  simp

/-- A menu item with a callback or a context is selected without a null dereference. -/
theorem selectionEffect_ne_nullDereference (contextOf : Nat → MenuContext)
    (menuItem : MenuItem) (h : menuItem.Callback.isSome ∨ menuItem.Context.isSome) :
    selectionEffect contextOf menuItem ≠ .nullDereference := by
  unfold selectionEffect
  cases hc : menuItem.Callback with
  | some c => simp
  | none =>
    cases hx : menuItem.Context with
    | none => simp [hc, hx] at h
    | some context =>
      cases hcc : (contextOf context).Callback with
      | some c => simp [hcc]
      | none => cases hs : menuItem.Scene <;> simp [hcc]

/-- C22. Every menu item the constructor creates, for a `MenuContextScene`, for another
scene or as one of the three non-scene items, has a non-empty `Callback` or a non-null
`Context`, and the branches of `CheckMenuSelection` for it never read `Context->Callback`
through a null `Context`, whatever the contexts hold. -/
theorem constructor_items_have_callback_or_context (buttonObject : MenuItemObject)
    (scenes : List AppScene) (contextOf : Nat → MenuContext) (menuItem : MenuItem)
    (hitem : menuItem ∈ constructorMenuItems buttonObject scenes) :
    (menuItem.Callback.isSome ∨ menuItem.Context.isSome) ∧
      selectionEffect contextOf menuItem ≠ .nullDereference := by
  have key : menuItem.Callback.isSome ∨ menuItem.Context.isSome := by
    rw [constructorMenuItems_eq, List.mem_append] at hitem
    rcases hitem with hitem | hitem
    · obtain ⟨entry, _, rfl⟩ := List.mem_map.mp hitem
      unfold sceneMenuItem
      cases entry.2.menuContext <;> simp [CreateNextMenuItem]
    · simp only [nonSceneMenuItems, List.mem_cons, List.mem_singleton, List.not_mem_nil,
        or_false] at hitem
      rcases hitem with rfl | rfl | rfl <;> simp [CreateNextMenuItem]
  exact ⟨key, selectionEffect_ne_nullDereference contextOf menuItem key⟩

/-- C22, for the sample scenes: the item of the pause scene has no callback of its own and
its selection calls the callback of the context, `OnMenuClicked` of scene 1. -/
theorem constructor_items_have_callback_or_context_witness :
    { CreateNextMenuItem sampleButtonObject "Pause" with Scene := some 1, Context := some 1 } ∈
      constructorMenuItems sampleButtonObject sampleAppScenes ∧
    selectionEffect (fun self => MenuContextScene.new self "Pause" none)
      { CreateNextMenuItem sampleButtonObject "Pause" with Scene := some 1, Context := some 1 } ≠
      .nullDereference ∧
    selectionEffect (fun self => MenuContextScene.new self "Pause" none)
      { CreateNextMenuItem sampleButtonObject "Pause" with Scene := some 1, Context := some 1 } =
      .callback (.OnMenuClicked 1) ∧
    (constructorMenuItems sampleButtonObject sampleAppScenes).map (fun i => i.Text) =
      ["BGRA-8-SRGB", "Pause", "AnimationScene", "Exit", "Hard Exit", "New Swapchain"] :=
  ⟨by decide,
    (constructor_items_have_callback_or_context sampleButtonObject sampleAppScenes
      (fun self => MenuContextScene.new self "Pause" none) _ (by decide)).2,
    by decide, by decide⟩

/-- The context a `MenuContextScene` constructs always has a callback: the selection of
its menu item calls it. -/
theorem menuContextScene_item_calls_context (buttonObject : MenuItemObject) (index : Nat)
    (scene : AppScene) (menuContext : MenuContext) (contextOf : Nat → MenuContext)
    (self : Nat) (menuText : String) (callback : Option MenuCallback)
    (hscene : scene.menuContext = some menuContext)
    (hnew : (contextOf index).Callback = (MenuContextScene.new self menuText callback).Callback) :
    ∃ c, (contextOf index).Callback = some c ∧
      selectionEffect contextOf (sceneMenuItem buttonObject index scene) = .callback c := by
  have hc : ∃ c, (contextOf index).Callback = some c := by
    rw [hnew]
    cases callback <;> simp [MenuContextScene.new]
  obtain ⟨c, hc⟩ := hc
  exact ⟨c, hc, by simp [selectionEffect, sceneMenuItem, hscene, CreateNextMenuItem, hc]⟩

/-! ## MenuScene: the closest menu item -/

theorem getElem?_append_singleton_some {α : Type} (pre : List α) (o x : α) (j : Nat)
    (h : (pre ++ [o])[j]? = some x) : pre[j]? = some x ∨ (j = pre.length ∧ o = x) := by
  by_cases hj : j < pre.length
  · rw [List.getElem?_append_left hj] at h
    exact Or.inl h
  · rw [List.getElem?_append_right (by omega)] at h
    by_cases hj2 : j = pre.length
    · subst hj2
      simp at h
      exact Or.inr ⟨rfl, h⟩
    · have : j - pre.length ≠ 0 := by omega
      obtain ⟨k, hk⟩ : ∃ k, j - pre.length = k + 1 := ⟨j - pre.length - 1, by omega⟩
      rw [hk] at h
      simp at h

theorem getElem?_append_singleton_of_some {α : Type} (pre : List α) (o x : α) (j : Nat)
    (h : pre[j]? = some x) : (pre ++ [o])[j]? = some x := by
  have hj : j < pre.length := by
    by_contra hc
    rw [List.getElem?_eq_none (by omega)] at h
    exact Option.noConfusion h
  rw [List.getElem?_append_left hj]
  exact h

theorem getElem?_some_lt {α : Type} (pre : List α) (x : α) (j : Nat) (h : pre[j]? = some x) :
    j < pre.length := by
  by_contra hc
  rw [List.getElem?_eq_none (by omega)] at h
  exact Option.noConfusion h

/-- The invariant of the search for the closest item: the distance is a lower bound of the
distances seen, without a closest item it is not below the threshold, and a closest item
has that distance, below the threshold and strictly below the distances before it. -/
theorem closestFold_invariant :
    ∀ (rest pre : List (Option Rat)) (distance : Rat) (closest : Option Nat),
      (∀ (j : Nat) (dj : Rat), pre[j]? = some (some dj) → distance ≤ dj) →
      (closest = none → cMenuObjectSize / 2 ≤ distance) →
      (∀ i : Nat, closest = some i → pre[i]? = some (some distance) ∧
        distance < cMenuObjectSize / 2 ∧
        ∀ (j : Nat) (dj : Rat), j < i → pre[j]? = some (some dj) → distance < dj) →
      (∀ (j : Nat) (dj : Rat), (pre ++ rest)[j]? = some (some dj) →
        (closestFold pre.length rest (distance, closest)).1 ≤ dj) ∧
      ((closestFold pre.length rest (distance, closest)).2 = none →
        cMenuObjectSize / 2 ≤ (closestFold pre.length rest (distance, closest)).1) ∧
      ∀ i : Nat, (closestFold pre.length rest (distance, closest)).2 = some i →
        (pre ++ rest)[i]? = some (some (closestFold pre.length rest (distance, closest)).1) ∧
        (closestFold pre.length rest (distance, closest)).1 < cMenuObjectSize / 2 ∧
        ∀ (j : Nat) (dj : Rat), j < i → (pre ++ rest)[j]? = some (some dj) →
          (closestFold pre.length rest (distance, closest)).1 < dj := by
  intro rest
  induction rest with
  | nil =>
    intro pre distance closest h1 h2 h3
    simp only [closestFold, List.append_nil]
    exact ⟨h1, h2, h3⟩
  | cons o rest ih =>
    intro pre distance closest h1 h2 h3
    have hlen : (pre ++ [o]).length = pre.length + 1 := by simp
    have happ : pre ++ o :: rest = (pre ++ [o]) ++ rest := by simp
    rw [happ]
    show _ ∧ _ ∧ _
    unfold closestFold
    rw [← hlen]
    cases o with
    | none =>
      refine ih (pre ++ [none]) distance closest ?_ h2 ?_
      · intro j dj hj
        rcases getElem?_append_singleton_some pre none (some dj) j hj with h | ⟨_, h⟩
        · exact h1 j dj h
        · exact Option.noConfusion h
      · intro i hi
        obtain ⟨a, b, c⟩ := h3 i hi
        refine ⟨getElem?_append_singleton_of_some pre none _ i a, b, ?_⟩
        intro j dj hji hj
        rcases getElem?_append_singleton_some pre none (some dj) j hj with h | ⟨_, h⟩
        · exact c j dj hji h
        · exact Option.noConfusion h
    | some d =>
      by_cases hd : d < distance
      · by_cases ht : d < cMenuObjectSize / 2
        · have hstep : closestStep pre.length (some d) (distance, closest) =
              (d, some pre.length) := by simp [closestStep, hd, ht]
          rw [hstep]
          refine ih (pre ++ [some d]) d (some pre.length) ?_ ?_ ?_
          · intro j dj hj
            rcases getElem?_append_singleton_some pre (some d) (some dj) j hj with h | ⟨_, h⟩
            · exact le_of_lt (lt_of_lt_of_le hd (h1 j dj h))
            · exact le_of_eq (Option.some.inj h)
          · intro h
            exact Option.noConfusion h
          · intro i hi
            have hi2 : pre.length = i := Option.some.inj hi
            subst hi2
            refine ⟨by simp, ht, ?_⟩
            intro j dj hji hj
            rcases getElem?_append_singleton_some pre (some d) (some dj) j hj with h | ⟨h, _⟩
            · exact lt_of_lt_of_le hd (h1 j dj h)
            · omega
        · have hstep : closestStep pre.length (some d) (distance, closest) =
              (d, closest) := by simp [closestStep, hd, ht]
          rw [hstep]
          have hnone : closest = none := by
            cases hc : closest with
            | none => rfl
            | some i =>
              obtain ⟨_, b, _⟩ := h3 i hc
              exact absurd (lt_trans hd b) ht
          subst hnone
          refine ih (pre ++ [some d]) d none ?_ ?_ ?_
          · intro j dj hj
            rcases getElem?_append_singleton_some pre (some d) (some dj) j hj with h | ⟨_, h⟩
            · exact le_of_lt (lt_of_lt_of_le hd (h1 j dj h))
            · exact le_of_eq (Option.some.inj h)
          · intro _
            exact not_lt.mp ht
          · intro i hi
            exact Option.noConfusion hi
      · have hstep : closestStep pre.length (some d) (distance, closest) =
            (distance, closest) := by simp [closestStep, hd]
        rw [hstep]
        refine ih (pre ++ [some d]) distance closest ?_ h2 ?_
        · intro j dj hj
          rcases getElem?_append_singleton_some pre (some d) (some dj) j hj with h | ⟨_, h⟩
          · exact h1 j dj h
          · rw [← Option.some.inj h]
            exact not_lt.mp hd
        · intro i hi
          obtain ⟨a, b, c⟩ := h3 i hi
          refine ⟨getElem?_append_singleton_of_some pre (some d) _ i a, b, ?_⟩
          intro j dj hji hj
          rcases getElem?_append_singleton_some pre (some d) (some dj) j hj with h | ⟨h, _⟩
          · exact c j dj hji h
          · have := getElem?_some_lt pre _ i a
            omega

/-! ## MenuScene: the loop over the menu items -/

theorem refreshText_fields (rt : MenuRuntime) (menuItem : MenuItem) :
    (refreshText rt menuItem).Space = menuItem.Space ∧
    (refreshText rt menuItem).Object = menuItem.Object ∧
    (refreshText rt menuItem).Callback = menuItem.Callback ∧
    (refreshText rt menuItem).Context = menuItem.Context ∧
    (refreshText rt menuItem).Scene = menuItem.Scene := by
  unfold refreshText
  split
  · split <;> simp
  · simp

/-- The block of lines 365-371 changes the distance and the closest item as `closestStep`
does, and leaves the visibility flag of the object alone. -/
theorem updateClosest_eq (valid : Bool) (dist : Rat) (index : Nat) (object : MenuItemObject)
    (distance : Rat) (closest : Option Nat) :
    (updateClosest valid dist index object distance closest).2 =
      closestStep index (if valid then some dist else none) (distance, closest) ∧
    (updateClosest valid dist index object distance closest).1.visible = object.visible := by
  unfold updateClosest closestStep
  cases valid
  · simp
  · by_cases hd : dist < distance
    · by_cases ht : dist < cMenuObjectSize / 2 <;> simp [hd, ht]
    · simp [hd]

/-- One pass of the loop body that returns: the hover state of each hand moves as
`closestStep` says for the pointer distance of the item; the item keeps its space,
callback, context and scene and its object shows the state of the menu action set. -/
theorem updateMenuItem_returned (rt : MenuRuntime) (s : MenuScene) (index : Nat)
    (menuItem menuItem1 : MenuItem) (hover hover1 : HoverState)
    (h : updateMenuItem rt s index menuItem hover = .returned (menuItem1, hover1)) :
    (hover1.leftDistance, hover1.leftClosestMenuItem) =
      closestStep index (pointerDistance rt s.m_leftPointerSpace menuItem)
        (hover.leftDistance, hover.leftClosestMenuItem) ∧
    (hover1.rightDistance, hover1.rightClosestMenuItem) =
      closestStep index (pointerDistance rt s.m_rightPointerSpace menuItem)
        (hover.rightDistance, hover.rightClosestMenuItem) ∧
    menuItem1.Space = menuItem.Space ∧
    menuItem1.Object.visible = s.m_menuActionSetActive ∧
    menuItem1.Callback = menuItem.Callback ∧
    menuItem1.Context = menuItem.Context ∧
    menuItem1.Scene = menuItem.Scene := by
  unfold updateMenuItem at h
  simp only [] at h
  by_cases hs : menuItem.Space = XR_NULL_HANDLE
  · rw [if_pos hs] at h
    injection h with h
    injection h with h1 h2
    subst h1 h2
    simp [pointerDistance, hs, closestStep]
  · rw [if_neg hs] at h
    obtain ⟨f1, f2, f3, f4, f5⟩ := refreshText_fields rt
      { menuItem with Object := { menuItem.Object with visible := s.m_menuActionSetActive } }
    simp only [] at f1 f2 f3 f4 f5
    simp only [apply_ite MenuItem.Space, f1, f2, f3, f4, f5, ite_self] at h
    cases hA : rt.xrLocateSpace menuItem.Space rt.AppSpace with
    | error e => rw [hA] at h; exact Outcome.noConfusion h
    | ok spaceLocation =>
      rw [hA] at h
      simp only [] at h
      cases hL : rt.xrLocateSpace menuItem.Space s.m_leftPointerSpace with
      | error e => rw [hL] at h; exact Outcome.noConfusion h
      | ok leftLocation =>
        rw [hL] at h
        simp only [] at h
        cases hR : rt.xrLocateSpace menuItem.Space s.m_rightPointerSpace with
        | error e => rw [hR] at h; exact Outcome.noConfusion h
        | ok rightLocation =>
          rw [hR] at h
          simp only [Outcome.returned.injEq, Prod.mk.injEq] at h
          obtain ⟨rfl, rfl⟩ := h
          have hpl : pointerDistance rt s.m_leftPointerSpace menuItem =
              if rt.IsPoseValid leftLocation then some (rt.MenuDistance leftLocation.pose.position)
              else none := by
            simp only [pointerDistance, if_neg hs, hL]
          have hpr : pointerDistance rt s.m_rightPointerSpace menuItem =
              if rt.IsPoseValid rightLocation then
                some (rt.MenuDistance rightLocation.pose.position)
              else none := by
            simp only [pointerDistance, if_neg hs, hR]
          rw [hpl, hpr]
          refine ⟨(updateClosest_eq _ _ _ _ _ _).1, (updateClosest_eq _ _ _ _ _ _).1, ?_, ?_,
            ?_, ?_, ?_⟩
          · cases rt.IsPoseValid spaceLocation <;> rfl
          · simp only []
            rw [(updateClosest_eq _ _ _ _ _ _).2, (updateClosest_eq _ _ _ _ _ _).2]
            cases rt.IsPoseValid spaceLocation <;> rfl
          · cases rt.IsPoseValid spaceLocation <;> rfl
          · cases rt.IsPoseValid spaceLocation <;> rfl
          · cases rt.IsPoseValid spaceLocation <;> rfl

/-- The loop over the menu items, when it returns: the hover state of each hand is the
fold of `closestStep` over the pointer distances of the items; every item keeps its space,
callback, context and scene, and every object shows the state of the menu action set. -/
theorem updateMenuItems_returned (rt : MenuRuntime) (s : MenuScene) :
    ∀ (items : List MenuItem) (index : Nat) (hover : HoverState) (items1 : List MenuItem)
      (hover1 : HoverState),
      updateMenuItems rt s index items hover = .returned (items1, hover1) →
      (hover1.leftDistance, hover1.leftClosestMenuItem) =
        closestFold index (items.map (pointerDistance rt s.m_leftPointerSpace))
          (hover.leftDistance, hover.leftClosestMenuItem) ∧
      (hover1.rightDistance, hover1.rightClosestMenuItem) =
        closestFold index (items.map (pointerDistance rt s.m_rightPointerSpace))
          (hover.rightDistance, hover.rightClosestMenuItem) ∧
      items1.map (fun m => (m.Space, m.Callback, m.Context, m.Scene)) =
        items.map (fun m => (m.Space, m.Callback, m.Context, m.Scene)) ∧
      ∀ m ∈ items1, m.Object.visible = s.m_menuActionSetActive := by
  intro items
  induction items with
  | nil =>
    intro index hover items1 hover1 h
    simp only [updateMenuItems, Outcome.returned.injEq, Prod.mk.injEq] at h
    obtain ⟨rfl, rfl⟩ := h
    simp [closestFold]
  | cons menuItem rest ih =>
    intro index hover items1 hover1 h
    unfold updateMenuItems at h
    cases hb : updateMenuItem rt s index menuItem hover with
    | thrown p => rw [hb] at h; exact Outcome.noConfusion h
    | returned p =>
      obtain ⟨menuItem1, hoverA⟩ := p
      rw [hb] at h
      simp only [] at h
      cases hr : updateMenuItems rt s (index + 1) rest hoverA with
      | thrown q => rw [hr] at h; exact Outcome.noConfusion h
      | returned q =>
        obtain ⟨rest1, hoverB⟩ := q
        rw [hr] at h
        simp only [Outcome.returned.injEq, Prod.mk.injEq] at h
        obtain ⟨rfl, rfl⟩ := h
        obtain ⟨a1, a2, a3, a4, a5, a6, a7⟩ := updateMenuItem_returned rt s index menuItem
          menuItem1 hover hoverA hb
        obtain ⟨b1, b2, b3, b4⟩ := ih (index + 1) hoverA rest1 hoverB hr
        refine ⟨?_, ?_, ?_, ?_⟩
        · rw [b1, a1]; rfl
        · rw [b2, a2]; rfl
        · simp only [List.map_cons, b3, a3, a5, a6, a7]
        · intro m hm
          rcases List.mem_cons.mp hm with rfl | hm
          · exact a4
          · exact b4 m hm

/-- C21. After a loop over the menu items that returns, for the left and for the right
hand: if no item is chosen, every placed item whose location in the pointer space of the
hand is valid has a pointer-plane distance of at least `cMenuObjectSize / 2`; if the item
at position `i` is chosen, it is a placed item with a valid location whose distance `d`
is below `cMenuObjectSize / 2`, no placed item with a valid location has a smaller
distance, and every such item before position `i` has a strictly larger one. -/
theorem hover_chooses_closest_valid_item (rt : MenuRuntime) (s : MenuScene)
    (items items1 : List MenuItem) (hover : HoverState)
    (hloop : updateMenuItems rt s 0 items HoverState.initial = .returned (items1, hover)) :
    (match hover.leftClosestMenuItem with
      | none =>
        ∀ (j : Nat) (item : MenuItem) (dj : Rat), items[j]? = some item →
          pointerDistance rt s.m_leftPointerSpace item = some dj → cMenuObjectSize / 2 ≤ dj
      | some i =>
        ∃ (item : MenuItem) (d : Rat), items[i]? = some item ∧
          pointerDistance rt s.m_leftPointerSpace item = some d ∧ d < cMenuObjectSize / 2 ∧
          ∀ (j : Nat) (other : MenuItem) (dj : Rat), items[j]? = some other →
            pointerDistance rt s.m_leftPointerSpace other = some dj →
            d ≤ dj ∧ (j < i → d < dj)) ∧
    (match hover.rightClosestMenuItem with
      | none =>
        ∀ (j : Nat) (item : MenuItem) (dj : Rat), items[j]? = some item →
          pointerDistance rt s.m_rightPointerSpace item = some dj → cMenuObjectSize / 2 ≤ dj
      | some i =>
        ∃ (item : MenuItem) (d : Rat), items[i]? = some item ∧
          pointerDistance rt s.m_rightPointerSpace item = some d ∧ d < cMenuObjectSize / 2 ∧
          ∀ (j : Nat) (other : MenuItem) (dj : Rat), items[j]? = some other →
            pointerDistance rt s.m_rightPointerSpace other = some dj →
            d ≤ dj ∧ (j < i → d < dj)) := by
  obtain ⟨hl, hr, _, _⟩ := updateMenuItems_returned rt s items 0 HoverState.initial items1
    hover hloop
  have hthr : cMenuObjectSize / 2 ≤ FLT_MAX := by
    norm_num [cMenuObjectSize, FLT_MAX]
  have key : ∀ (pointerSpace : XrSpace) (distance : Rat) (closest : Option Nat),
      (distance, closest) = closestFold 0 (items.map (pointerDistance rt pointerSpace))
        (FLT_MAX, none) →
      match closest with
      | none =>
        ∀ (j : Nat) (item : MenuItem) (dj : Rat), items[j]? = some item →
          pointerDistance rt pointerSpace item = some dj → cMenuObjectSize / 2 ≤ dj
      | some i =>
        ∃ (item : MenuItem) (d : Rat), items[i]? = some item ∧
          pointerDistance rt pointerSpace item = some d ∧ d < cMenuObjectSize / 2 ∧
          ∀ (j : Nat) (other : MenuItem) (dj : Rat), items[j]? = some other →
            pointerDistance rt pointerSpace other = some dj →
            d ≤ dj ∧ (j < i → d < dj) := by
    intro pointerSpace distance closest hfold
    obtain ⟨i1, i2, i3⟩ := closestFold_invariant (items.map (pointerDistance rt pointerSpace))
      [] FLT_MAX none (by intro j dj h; simp at h) (fun _ => hthr)
      (by intro i h; exact Option.noConfusion h)
    simp only [List.length_nil, List.nil_append] at i1 i2 i3
    rw [← hfold] at i1 i2 i3
    simp only [] at i1 i2 i3
    have hobs : ∀ (j : Nat) (item : MenuItem) (dj : Rat), items[j]? = some item →
        pointerDistance rt pointerSpace item = some dj →
        (items.map (pointerDistance rt pointerSpace))[j]? = some (some dj) := by
      intro j item dj h1 h2
      rw [List.getElem?_map, h1, Option.map_some', h2]
    cases closest with
    | none =>
      intro j item dj h1 h2
      exact le_trans (i2 rfl) (i1 j dj (hobs j item dj h1 h2))
    | some i =>
      obtain ⟨c1, c2, c3⟩ := i3 i rfl
      rw [List.getElem?_map] at c1
      cases hi : items[i]? with
      | none => rw [hi] at c1; simp at c1
      | some item =>
        rw [hi, Option.map_some'] at c1
        refine ⟨item, distance, hi, Option.some.inj c1, c2, ?_⟩
        intro j other dj h1 h2
        exact ⟨i1 j dj (hobs j other dj h1 h2), fun hji => c3 j dj hji (hobs j other dj h1 h2)⟩
  exact ⟨key s.m_leftPointerSpace _ _ hl, key s.m_rightPointerSpace _ _ hr⟩

/-! ## MenuScene: OnUpdate -/

theorem Outcome.andThen_returned {σ : Type} (o : Outcome σ) (next : σ → Outcome σ) (t : σ)
    (h : o.andThen next = .returned t) : ∃ m, o = .returned m ∧ next m = .returned t := by
  cases o with
  | returned m => exact ⟨m, rfl, h⟩
  | thrown m => exact Outcome.noConfusion h

theorem Outcome.andThen_state {σ β : Type} (field : σ → β) (o : Outcome σ)
    (next : σ → Outcome σ) (hnext : ∀ m, field (next m).state = field m) :
    field (o.andThen next).state = field o.state := by
  cases o with
  | returned m => exact hnext m
  | thrown m => rfl

/-- The part of the scene the selection checks and the pointer update leave alone. -/
theorem CheckMenuSelection_frame (rt : MenuRuntime) (s : MenuScene) (menuItem : MenuItem)
    (hand : XrPath) :
    (CheckMenuSelection rt s menuItem hand).state.m_menuItems = s.m_menuItems ∧
    (CheckMenuSelection rt s menuItem hand).state.m_menuActionSetActive =
      s.m_menuActionSetActive ∧
    (CheckMenuSelection rt s menuItem hand).state.m_menuToggleActionSetActive =
      s.m_menuToggleActionSetActive := by
  unfold CheckMenuSelection
  repeat' split
  all_goals exact ⟨rfl, rfl, rfl⟩

theorem checkClosest_frame (rt : MenuRuntime) (closest : Option Nat) (hand : XrPath)
    (s : MenuScene) :
    (checkClosest rt closest hand s).state.m_menuItems = s.m_menuItems ∧
    (checkClosest rt closest hand s).state.m_menuActionSetActive = s.m_menuActionSetActive ∧
    (checkClosest rt closest hand s).state.m_menuToggleActionSetActive =
      s.m_menuToggleActionSetActive := by
  unfold checkClosest
  split
  · exact CheckMenuSelection_frame rt s _ hand
  · exact ⟨rfl, rfl, rfl⟩

theorem pointersStage_frame (rt : MenuRuntime) (s : MenuScene) :
    (pointersStage rt s).state.m_menuItems = s.m_menuItems ∧
    (pointersStage rt s).state.m_menuActionSetActive = s.m_menuActionSetActive ∧
    (pointersStage rt s).state.m_menuToggleActionSetActive = s.m_menuToggleActionSetActive := by
  unfold pointersStage
  split <;> exact ⟨rfl, rfl, rfl⟩

theorem DestroyMenuSpaces_flags (rt : MenuRuntime) (s : MenuScene) :
    (DestroyMenuSpaces rt s).state.m_menuActionSetActive = s.m_menuActionSetActive ∧
    (DestroyMenuSpaces rt s).state.m_menuToggleActionSetActive =
      s.m_menuToggleActionSetActive := by
  unfold DestroyMenuSpaces
  split <;> exact ⟨rfl, rfl⟩

theorem toggleMenuStage_toggle_flag (rt : MenuRuntime) (s : MenuScene) :
    (toggleMenuStage rt s).state.m_menuToggleActionSetActive =
      s.m_menuToggleActionSetActive := by
  unfold toggleMenuStage
  split
  · rfl
  · split
    · rfl
    · simp only []
      split
      · rfl
      · split
        · exact (DestroyMenuSpaces_flags rt _).2
        · rfl

theorem createSpacesStage_flags (rt : MenuRuntime) (s : MenuScene) :
    (createSpacesStage rt s).state.m_menuActionSetActive = s.m_menuActionSetActive ∧
    (createSpacesStage rt s).state.m_menuToggleActionSetActive =
      s.m_menuToggleActionSetActive := by
  unfold createSpacesStage
  split
  · split <;> exact ⟨rfl, rfl⟩
  · exact ⟨rfl, rfl⟩

theorem menuItemsStage_flags (rt : MenuRuntime) (s : MenuScene) :
    (menuItemsStage rt s).state.m_menuActionSetActive = s.m_menuActionSetActive ∧
    (menuItemsStage rt s).state.m_menuToggleActionSetActive =
      s.m_menuToggleActionSetActive := by
  unfold menuItemsStage
  split
  · exact ⟨rfl, rfl⟩
  · constructor
    · rw [Outcome.andThen_state (fun t : MenuScene => t.m_menuActionSetActive) _ _
        (fun m => (checkClosest_frame rt _ _ m).2.1)]
      exact (checkClosest_frame rt _ _ _).2.1
    · rw [Outcome.andThen_state (fun t : MenuScene => t.m_menuToggleActionSetActive) _ _
        (fun m => (checkClosest_frame rt _ _ m).2.2)]
      exact (checkClosest_frame rt _ _ _).2.2

/-- No outcome of `OnUpdate`, returned or thrown, changes the active flag of the toggle
action set. -/
theorem OnUpdate_toggle_flag (rt : MenuRuntime) (s : MenuScene) :
    (MenuScene.OnUpdate rt s).state.m_menuToggleActionSetActive =
      s.m_menuToggleActionSetActive := by
  unfold MenuScene.OnUpdate
  rw [Outcome.andThen_state (fun t : MenuScene => t.m_menuToggleActionSetActive) _ _
      (fun m => (pointersStage_frame rt m).2.2),
    Outcome.andThen_state (fun t : MenuScene => t.m_menuToggleActionSetActive) _ _
      (fun m => (menuItemsStage_flags rt m).2),
    Outcome.andThen_state (fun t : MenuScene => t.m_menuToggleActionSetActive) _ _
      (fun m => (createSpacesStage_flags rt m).2)]
  exact toggleMenuStage_toggle_flag rt s

/-- When the creation loop returns, every menu item has a space that is not null, provided
that the runtime never answers a successful creation with the null handle. -/
theorem createMenuItemSpaces_returned (rt : MenuRuntime) (s : MenuScene)
    (hcreate : ∀ index a b space, rt.xrCreateReferenceSpace index a b = .ok space →
      space ≠ XR_NULL_HANDLE) :
    ∀ (items : List MenuItem) (i : Nat) (items1 : List MenuItem),
      createMenuItemSpaces rt s i items = .returned items1 →
      ∀ m ∈ items1, m.Space ≠ XR_NULL_HANDLE := by
  intro items
  induction items with
  | nil =>
    intro i items1 h m hm
    simp only [createMenuItemSpaces, Outcome.returned.injEq] at h
    subst h
    simp at hm
  | cons menuItem rest ih =>
    intro i items1 h
    unfold createMenuItemSpaces at h
    by_cases hs : menuItem.Space = XR_NULL_HANDLE
    · rw [if_pos hs] at h
      cases hc : CreateMenuItemSpace rt s i with
      | error e => rw [hc] at h; exact Outcome.noConfusion h
      | ok space =>
        rw [hc] at h
        simp only [] at h
        have hspace : space ≠ XR_NULL_HANDLE := by
          unfold CreateMenuItemSpace at hc
          cases ha : rt.xrLocateSpace s.m_menuPlaneSpace s.m_localSpace with
          | error e => rw [ha] at hc; exact Except.noConfusion hc
          | ok a =>
            rw [ha] at hc
            simp only [] at hc
            cases hb : rt.xrLocateSpace s.m_viewSpace s.m_localSpace with
            | error e => rw [hb] at hc; exact Except.noConfusion hc
            | ok b =>
              rw [hb] at hc
              exact hcreate i a b space hc
        cases hr : createMenuItemSpaces rt s (i + 1) rest with
        | thrown q => rw [hr] at h; exact Outcome.noConfusion h
        | returned rest1 =>
          rw [hr] at h
          simp only [Outcome.returned.injEq] at h
          subst h
          intro m hm
          rcases List.mem_cons.mp hm with rfl | hm
          · exact hspace
          · exact ih (i + 1) rest1 hr m hm
    · rw [if_neg hs] at h
      cases hr : createMenuItemSpaces rt s (i + 1) rest with
      | thrown q => rw [hr] at h; exact Outcome.noConfusion h
      | returned rest1 =>
        rw [hr] at h
        simp only [Outcome.returned.injEq] at h
        subst h
        intro m hm
        rcases List.mem_cons.mp hm with rfl | hm
        · exact hs
        · exact ih (i + 1) rest1 hr m hm

theorem createSpacesStage_returned (rt : MenuRuntime) (s s1 : MenuScene)
    (hcreate : ∀ index a b space, rt.xrCreateReferenceSpace index a b = .ok space →
      space ≠ XR_NULL_HANDLE)
    (h : createSpacesStage rt s = .returned s1) :
    s1.m_menuActionSetActive = true → ∀ m ∈ s1.m_menuItems, m.Space ≠ XR_NULL_HANDLE := by
  unfold createSpacesStage at h
  by_cases ha : s.m_menuActionSetActive = true
  · rw [if_pos ha] at h
    cases hc : createMenuItemSpaces rt s 0 s.m_menuItems with
    | thrown q => rw [hc] at h; exact Outcome.noConfusion h
    | returned items =>
      rw [hc] at h
      simp only [Outcome.returned.injEq] at h
      subst h
      intro _
      exact createMenuItemSpaces_returned rt s hcreate s.m_menuItems 0 items hc
  · rw [if_neg ha] at h
    simp only [Outcome.returned.injEq] at h
    subst h
    intro hact
    exact absurd hact ha

theorem menuItemsStage_returned (rt : MenuRuntime) (s s1 : MenuScene)
    (h : menuItemsStage rt s = .returned s1) :
    s1.m_menuItems.map (fun m => m.Space) = s.m_menuItems.map (fun m => m.Space) ∧
    ∀ m ∈ s1.m_menuItems, m.Object.visible = s.m_menuActionSetActive := by
  unfold menuItemsStage at h
  cases hl : updateMenuItems rt s 0 s.m_menuItems HoverState.initial with
  | thrown q => rw [hl] at h; exact Outcome.noConfusion h
  | returned q =>
    obtain ⟨items, hover⟩ := q
    rw [hl] at h
    simp only [] at h
    obtain ⟨_, _, hfields, hvisible⟩ :=
      updateMenuItems_returned rt s s.m_menuItems 0 HoverState.initial items hover hl
    have hitems : s1.m_menuItems = items := by
      have h1 := Outcome.andThen_state (fun t : MenuScene => t.m_menuItems)
        (checkClosest rt hover.leftClosestMenuItem rt.LeftHandPath
          { s with m_menuItems := items })
        (checkClosest rt hover.rightClosestMenuItem rt.RightHandPath)
        (fun m => (checkClosest_frame rt _ _ m).1)
      rw [h] at h1
      simp only [Outcome.state] at h1
      rw [h1]
      exact (checkClosest_frame rt _ _ _).1
    rw [hitems]
    refine ⟨?_, hvisible⟩
    have := congrArg (List.map fun p : XrSpace × Option MenuCallback × Option Nat × Option Nat =>
      p.1) hfields
    simpa [List.map_map, Function.comp_def] using this

/-- C27. Whatever the outcome of an update, the active flag of the toggle action set is
the one before the update. After an update that returns, with a runtime that never answers
a successful `xrCreateReferenceSpace` with the null handle, the object of every menu item
is visible if and only if the menu action set is active at the end of the update, and if
the set is active every menu item has a space that is not null. -/
theorem menu_items_visible_iff_menu_active (rt : MenuRuntime) (s : MenuScene)
    (hcreate : ∀ index a b space, rt.xrCreateReferenceSpace index a b = .ok space →
      space ≠ XR_NULL_HANDLE) :
    (MenuScene.OnUpdate rt s).state.m_menuToggleActionSetActive =
      s.m_menuToggleActionSetActive ∧
    ∀ s1, MenuScene.OnUpdate rt s = .returned s1 →
      (∀ m ∈ s1.m_menuItems, (m.Object.visible = true ↔ s1.m_menuActionSetActive = true)) ∧
      (s1.m_menuActionSetActive = true → ∀ m ∈ s1.m_menuItems, m.Space ≠ XR_NULL_HANDLE) := by
  refine ⟨OnUpdate_toggle_flag rt s, ?_⟩
  intro s4 h
  unfold MenuScene.OnUpdate at h
  obtain ⟨s3, h3, h4⟩ := Outcome.andThen_returned _ _ _ h
  obtain ⟨s2, h2, h3⟩ := Outcome.andThen_returned _ _ _ h3
  obtain ⟨s1, _, h2⟩ := Outcome.andThen_returned _ _ _ h2
  have hplaced := createSpacesStage_returned rt s1 s2 hcreate h2
  obtain ⟨hspaces, hvisible⟩ := menuItemsStage_returned rt s2 s3 h3
  have hflag3 : s3.m_menuActionSetActive = s2.m_menuActionSetActive := by
    have := (menuItemsStage_flags rt s2).1
    rw [h3] at this
    exact this
  have hframe := pointersStage_frame rt s3
  rw [h4] at hframe
  simp only [Outcome.state] at hframe
  obtain ⟨f1, f2, _⟩ := hframe
  rw [f1, f2, hflag3]
  constructor
  · intro m hm
    rw [hvisible m hm]
  · intro hact m hm
    have hmem : m.Space ∈ s2.m_menuItems.map (fun m => m.Space) := by
      rw [← hspaces]
      exact List.mem_map.mpr ⟨m, hm, rfl⟩
    obtain ⟨m2, hm2, heq⟩ := List.mem_map.mp hmem
    rw [← heq]
    exact hplaced hact m2 hm2

/-! ## MenuScene: a sample update -/

theorem Outcome.eq_returned_of_state {σ : Type} (o : Outcome σ) (t : σ)
    (h : o.threw = false) (hs : o.state = t) : o = .returned t := by
  cases o with
  | returned m => exact congrArg Outcome.returned hs
  | thrown m => exact Bool.noConfusion h

/-- C21, for the sample runtime and the placed sample items: the loop returns, the left
hand chooses the item at position 1, the first of the two items at the smallest distance
1/100, and the right hand, 1/2 away from every item, chooses none. -/
theorem hover_chooses_closest_valid_item_witness :
    updateMenuItems sampleMenuRuntime sampleOpenMenuScene 0 samplePlacedItems
      HoverState.initial = .returned (sampleHoveredItems, sampleHoverState) ∧
    (∃ (item : MenuItem) (d : Rat), samplePlacedItems[1]? = some item ∧
      pointerDistance sampleMenuRuntime 10 item = some d ∧ d < cMenuObjectSize / 2 ∧
      ∀ (j : Nat) (other : MenuItem) (dj : Rat), samplePlacedItems[j]? = some other →
        pointerDistance sampleMenuRuntime 10 other = some dj → d ≤ dj ∧ (j < 1 → d < dj)) ∧
    (∀ (j : Nat) (item : MenuItem) (dj : Rat), samplePlacedItems[j]? = some item →
      pointerDistance sampleMenuRuntime 11 item = some dj → cMenuObjectSize / 2 ≤ dj) ∧
    samplePlacedItems.map (pointerDistance sampleMenuRuntime 10) =
      [some (3 / 100), some (1 / 100), some (1 / 100), some (2 / 100)] :=
  have hloop : updateMenuItems sampleMenuRuntime sampleOpenMenuScene 0 samplePlacedItems
      HoverState.initial = .returned (sampleHoveredItems, sampleHoverState) :=
    Outcome.eq_returned_of_state _ _ (by decide!) (by decide!)
  ⟨hloop,
    (hover_chooses_closest_valid_item sampleMenuRuntime sampleOpenMenuScene samplePlacedItems
      sampleHoveredItems sampleHoverState hloop).1,
    (hover_chooses_closest_valid_item sampleMenuRuntime sampleOpenMenuScene samplePlacedItems
      sampleHoveredItems sampleHoverState hloop).2,
    by decide!⟩

/-- C27, for the sample runtime and the sample scene with a closed menu: the update
returns with an open menu, and all four items are shown and placed. -/
theorem menu_items_visible_iff_menu_active_witness :
    (∀ index a b space, sampleMenuRuntime.xrCreateReferenceSpace index a b = .ok space →
      space ≠ XR_NULL_HANDLE) ∧
    MenuScene.OnUpdate sampleMenuRuntime sampleMenuScene = .returned sampleUpdatedScene ∧
    sampleUpdatedScene.m_menuActionSetActive = true ∧
    sampleUpdatedScene.m_menuItems.map (fun m => (m.Object.visible, m.Space)) =
      [(true, 100), (true, 101), (true, 102), (true, 103)] ∧
    (MenuScene.OnUpdate sampleMenuRuntime sampleMenuScene).state.m_menuToggleActionSetActive =
      sampleMenuScene.m_menuToggleActionSetActive ∧
    (∀ m ∈ sampleUpdatedScene.m_menuItems,
      (m.Object.visible = true ↔ sampleUpdatedScene.m_menuActionSetActive = true)) ∧
    (sampleUpdatedScene.m_menuActionSetActive = true →
      ∀ m ∈ sampleUpdatedScene.m_menuItems, m.Space ≠ XR_NULL_HANDLE) :=
  have hcreate : ∀ index a b space,
      sampleMenuRuntime.xrCreateReferenceSpace index a b = .ok space →
      space ≠ XR_NULL_HANDLE := by
    intro index a b space h
    have h1 : 100 + index = space := Except.ok.inj h
    have key : ∀ x y : Nat, 100 + x = y → y ≠ 0 := by
      intro x y hxy
      omega
    exact key index space h1
  have hupdate : MenuScene.OnUpdate sampleMenuRuntime sampleMenuScene =
      .returned sampleUpdatedScene :=
    Outcome.eq_returned_of_state _ _ (by decide!) (by decide!)
  ⟨hcreate, hupdate, by decide, by decide!,
    (menu_items_visible_iff_menu_active sampleMenuRuntime sampleMenuScene hcreate).1,
    ((menu_items_visible_iff_menu_active sampleMenuRuntime sampleMenuScene hcreate).2
      sampleUpdatedScene hupdate).1,
    ((menu_items_visible_iff_menu_active sampleMenuRuntime sampleMenuScene hcreate).2
      sampleUpdatedScene hupdate).2⟩

/-! ## MenuScene: the callbacks and contexts of the menu items during an update -/

theorem destroyMenuSpace_handlers (rt : MenuRuntime) (menuItem : MenuItem) :
    (destroyMenuSpace rt menuItem).state.Callback = menuItem.Callback ∧
    (destroyMenuSpace rt menuItem).state.Context = menuItem.Context := by
  unfold destroyMenuSpace
  repeat' split
  all_goals exact ⟨rfl, rfl⟩

theorem forEachItem_handlers (body : MenuItem → Outcome MenuItem)
    (hbody : ∀ m, (body m).state.Callback = m.Callback ∧ (body m).state.Context = m.Context) :
    ∀ items : List MenuItem,
      (Outcome.forEachItem body items).state.map (fun m => (m.Callback, m.Context)) =
        items.map (fun m => (m.Callback, m.Context)) := by
  intro items
  induction items with
  | nil => rfl
  | cons m rest ih =>
    unfold Outcome.forEachItem
    have hm := hbody m
    cases hb : body m with
    | thrown m1 =>
      rw [hb] at hm
      simp only [Outcome.state] at hm ⊢
      simp [hm.1, hm.2]
    | returned m1 =>
      rw [hb] at hm
      simp only [Outcome.state] at hm
      simp only []
      cases hr : Outcome.forEachItem body rest with
      | returned rest1 =>
        rw [hr] at ih
        simp only [Outcome.state] at ih ⊢
        simp [hm.1, hm.2, ih]
      | thrown rest1 =>
        rw [hr] at ih
        simp only [Outcome.state] at ih ⊢
        simp [hm.1, hm.2, ih]

theorem createMenuItemSpaces_handlers (rt : MenuRuntime) (s : MenuScene) :
    ∀ (items : List MenuItem) (i : Nat),
      (createMenuItemSpaces rt s i items).state.map (fun m => (m.Callback, m.Context)) =
        items.map (fun m => (m.Callback, m.Context)) := by
  intro items
  induction items with
  | nil => intro i; rfl
  | cons m rest ih =>
    intro i
    have ih1 := ih (i + 1)
    unfold createMenuItemSpaces
    split
    · split
      · rfl
      · cases hr : createMenuItemSpaces rt s (i + 1) rest with
        | returned rest1 =>
          rw [hr] at ih1
          simp only [Outcome.state] at ih1 ⊢
          simp [ih1]
        | thrown rest1 =>
          rw [hr] at ih1
          simp only [Outcome.state] at ih1 ⊢
          simp [ih1]
    · cases hr : createMenuItemSpaces rt s (i + 1) rest with
      | returned rest1 =>
        rw [hr] at ih1
        simp only [Outcome.state] at ih1 ⊢
        simp [ih1]
      | thrown rest1 =>
        rw [hr] at ih1
        simp only [Outcome.state] at ih1 ⊢
        simp [ih1]

theorem updateMenuItem_handlers (rt : MenuRuntime) (s : MenuScene) (index : Nat)
    (menuItem : MenuItem) (hover : HoverState) :
    (updateMenuItem rt s index menuItem hover).state.1.Callback = menuItem.Callback ∧
    (updateMenuItem rt s index menuItem hover).state.1.Context = menuItem.Context := by
  obtain ⟨_, _, f3, f4, _⟩ := refreshText_fields rt
    { menuItem with Object := { menuItem.Object with visible := s.m_menuActionSetActive } }
  simp only [] at f3 f4
  unfold updateMenuItem
  simp only []
  repeat' split
  all_goals first | exact ⟨rfl, rfl⟩ | exact ⟨f3, f4⟩

theorem updateMenuItems_handlers (rt : MenuRuntime) (s : MenuScene) :
    ∀ (items : List MenuItem) (index : Nat) (hover : HoverState),
      (updateMenuItems rt s index items hover).state.1.map (fun m => (m.Callback, m.Context)) =
        items.map (fun m => (m.Callback, m.Context)) := by
  intro items
  induction items with
  | nil => intro index hover; rfl
  | cons m rest ih =>
    intro index hover
    have hm := updateMenuItem_handlers rt s index m hover
    unfold updateMenuItems
    cases hb : updateMenuItem rt s index m hover with
    | thrown p =>
      rw [hb] at hm
      simp only [Outcome.state] at hm ⊢
      simp [hm.1, hm.2]
    | returned p =>
      rw [hb] at hm
      simp only [Outcome.state] at hm
      have ih1 := ih (index + 1) p.2
      simp only []
      cases hr : updateMenuItems rt s (index + 1) rest p.2 with
      | returned q =>
        rw [hr] at ih1
        simp only [Outcome.state] at ih1 ⊢
        simp [hm.1, hm.2, ih1]
      | thrown q =>
        rw [hr] at ih1
        simp only [Outcome.state] at ih1 ⊢
        simp [hm.1, hm.2, ih1]

theorem Outcome.andThen_rel {σ : Type} (R : σ → σ → Prop)
    (htrans : ∀ a b c, R a b → R b c → R a c) (s0 : σ) (o : Outcome σ)
    (next : σ → Outcome σ) (h1 : R s0 o.state) (h2 : ∀ m, R m (next m).state) :
    R s0 (o.andThen next).state := by
  cases o with
  | returned m => exact htrans _ _ _ h1 (h2 m)
  | thrown m => exact h1

theorem handlers_ok_of_map_eq (items items1 : List MenuItem)
    (hmap : items1.map (fun m => (m.Callback, m.Context)) =
      items.map (fun m => (m.Callback, m.Context)))
    (hok : ∀ m ∈ items, m.Callback.isSome ∨ m.Context.isSome) :
    ∀ m ∈ items1, m.Callback.isSome ∨ m.Context.isSome := by
  intro m hm
  have hmem : (m.Callback, m.Context) ∈ items.map (fun m => (m.Callback, m.Context)) := by
    rw [← hmap]
    exact List.mem_map.mpr ⟨m, hm, rfl⟩
  obtain ⟨m0, hm0, heq⟩ := List.mem_map.mp hmem
  have h0 := hok m0 hm0
  have hc : m0.Callback = m.Callback := congrArg Prod.fst heq
  have hx : m0.Context = m.Context := congrArg Prod.snd heq
  rw [hc, hx] at h0
  exact h0

theorem CheckMenuSelection_log (rt : MenuRuntime) (s : MenuScene) (menuItem : MenuItem)
    (hand : XrPath) (hitem : menuItem.Callback.isSome ∨ menuItem.Context.isSome) :
    ∀ e ∈ (CheckMenuSelection rt s menuItem hand).state.selections,
      e ∈ s.selections ∨ e ≠ .nullDereference := by
  have hne := selectionEffect_ne_nullDereference rt.contextOf menuItem hitem
  have hfired : ∀ e ∈ s.selections ++ [selectionEffect rt.contextOf menuItem],
      e ∈ s.selections ∨ e ≠ .nullDereference := by
    intro e he
    rcases List.mem_append.mp he with h | h
    · exact Or.inl h
    · rw [List.mem_singleton.mp h]
      exact Or.inr hne
  unfold CheckMenuSelection
  repeat' split
  all_goals first | exact hfired | exact fun e he => Or.inl he

theorem keepsHandlers_trans (a b c : MenuScene) (h1 : keepsHandlers a b)
    (h2 : keepsHandlers b c) : keepsHandlers a c := by
  refine ⟨h2.1.trans h1.1, ?_⟩
  intro hok e he
  have hokb := handlers_ok_of_map_eq a.m_menuItems b.m_menuItems h1.1 hok
  rcases h2.2 hokb e he with h | h
  · exact h1.2 hok e h
  · exact Or.inr h

theorem keepsHandlers_of_items (s t : MenuScene)
    (hitems : t.m_menuItems.map (fun m => (m.Callback, m.Context)) =
      s.m_menuItems.map (fun m => (m.Callback, m.Context)))
    (hlog : t.selections = s.selections) : keepsHandlers s t :=
  ⟨hitems, fun _ _ he => Or.inl (hlog ▸ he)⟩

theorem toggleMenuStage_keepsHandlers (rt : MenuRuntime) (s : MenuScene) :
    keepsHandlers s (toggleMenuStage rt s).state := by
  have hdestroy : ∀ t : MenuScene, t.m_menuItems = s.m_menuItems →
      t.selections = s.selections → keepsHandlers s (DestroyMenuSpaces rt t).state := by
    intro t ht hl
    have h := forEachItem_handlers (destroyMenuSpace rt) (destroyMenuSpace_handlers rt)
      t.m_menuItems
    unfold DestroyMenuSpaces
    cases hr : Outcome.forEachItem (destroyMenuSpace rt) t.m_menuItems with
    | returned items =>
      rw [hr] at h
      exact keepsHandlers_of_items _ _ (by rw [← ht]; exact h) hl
    | thrown items =>
      rw [hr] at h
      exact keepsHandlers_of_items _ _ (by rw [← ht]; exact h) hl
  unfold toggleMenuStage
  split
  · exact keepsHandlers_of_items _ _ rfl rfl
  · split
    · exact keepsHandlers_of_items _ _ rfl rfl
    · simp only []
      split
      · exact keepsHandlers_of_items _ _ rfl rfl
      · split
        · exact hdestroy _ rfl rfl
        · exact keepsHandlers_of_items _ _ rfl rfl

theorem createSpacesStage_keepsHandlers (rt : MenuRuntime) (s : MenuScene) :
    keepsHandlers s (createSpacesStage rt s).state := by
  have h := createMenuItemSpaces_handlers rt s s.m_menuItems 0
  unfold createSpacesStage
  split
  · cases hr : createMenuItemSpaces rt s 0 s.m_menuItems with
    | returned items => rw [hr] at h; exact keepsHandlers_of_items _ _ h rfl
    | thrown items => rw [hr] at h; exact keepsHandlers_of_items _ _ h rfl
  · exact keepsHandlers_of_items _ _ rfl rfl

theorem checkClosest_keepsHandlers (rt : MenuRuntime) (closest : Option Nat) (hand : XrPath)
    (s : MenuScene) : keepsHandlers s (checkClosest rt closest hand s).state := by
  refine ⟨by rw [(checkClosest_frame rt closest hand s).1], ?_⟩
  intro hok
  unfold checkClosest
  split
  · rename_i menuItem hfound
    have hmem : menuItem ∈ s.m_menuItems := by
      cases closest with
      | none => exact Option.noConfusion hfound
      | some index => exact List.mem_iff_getElem?.mpr ⟨index, hfound⟩
    exact CheckMenuSelection_log rt s menuItem hand (hok menuItem hmem)
  · exact fun e he => Or.inl he

theorem menuItemsStage_keepsHandlers (rt : MenuRuntime) (s : MenuScene) :
    keepsHandlers s (menuItemsStage rt s).state := by
  have h := updateMenuItems_handlers rt s s.m_menuItems 0 HoverState.initial
  unfold menuItemsStage
  cases hr : updateMenuItems rt s 0 s.m_menuItems HoverState.initial with
  | thrown q =>
    rw [hr] at h
    exact keepsHandlers_of_items _ _ h rfl
  | returned q =>
    rw [hr] at h
    simp only []
    refine keepsHandlers_trans s { s with m_menuItems := q.1 } _
      (keepsHandlers_of_items _ _ h rfl) ?_
    exact Outcome.andThen_rel keepsHandlers keepsHandlers_trans _ _ _
      (checkClosest_keepsHandlers rt _ _ _) (fun m => checkClosest_keepsHandlers rt _ _ m)

theorem pointersStage_keepsHandlers (rt : MenuRuntime) (s : MenuScene) :
    keepsHandlers s (pointersStage rt s).state := by
  unfold pointersStage
  split <;> exact keepsHandlers_of_items _ _ rfl rfl

/-- Whatever the outcome of an update, the menu items keep their callbacks and contexts;
on a scene all of whose items have a callback or a context, as those of the constructor
have, they still have one after the update and no selection the update fires reads
`Context->Callback` through a null `Context`. -/
theorem OnUpdate_never_dereferences_null_context (rt : MenuRuntime) (s : MenuScene)
    (hok : ∀ m ∈ s.m_menuItems, m.Callback.isSome ∨ m.Context.isSome) :
    (∀ m ∈ (MenuScene.OnUpdate rt s).state.m_menuItems,
      m.Callback.isSome ∨ m.Context.isSome) ∧
    ∀ e ∈ (MenuScene.OnUpdate rt s).state.selections,
      e ∈ s.selections ∨ e ≠ .nullDereference := by
  have h : keepsHandlers s (MenuScene.OnUpdate rt s).state := by
    unfold MenuScene.OnUpdate
    refine Outcome.andThen_rel keepsHandlers keepsHandlers_trans _ _ _ ?_
      (fun m => pointersStage_keepsHandlers rt m)
    refine Outcome.andThen_rel keepsHandlers keepsHandlers_trans _ _ _ ?_
      (fun m => menuItemsStage_keepsHandlers rt m)
    exact Outcome.andThen_rel keepsHandlers keepsHandlers_trans _ _ _
      (toggleMenuStage_keepsHandlers rt s) (fun m => createSpacesStage_keepsHandlers rt m)
  exact ⟨handlers_ok_of_map_eq _ _ h.1 hok, h.2 hok⟩

end OpenXrSamples
